import Mathlib

/-!
Shallow embedding of the data-cleaning pipeline of the Seattle Airbnb
analysis notebook (`Seattle Airbnb Kaggle - 4.ipynb`), and proofs about it.

Modelling conventions:
* A dataframe cell is `Cell`: a string, a rational number, or `null`
  (pandas `NaN`).  Python floats are modelled as exact rationals.
* A dataframe row is an association list from column names to cells, and a
  dataframe is the list of its rows.
* Operations that can raise a Python exception (`KeyError`, `ValueError`,
  `IndexError`, `AttributeError`, ...) are `Option`-valued; `none` models
  an uncaught exception aborting `clean_dataset`.
* `int(...)` and `float(...)` are modelled on decimal/exponent numerals;
  `float` maps the literal `"nan"` to `null`.  (Python also accepts
  underscore separators and infinity literals; those are modelled as parse
  failures, and no input exercised here uses them.)
-/

namespace Airbnb

/-- A single dataframe cell: a string, a (rational) number, or missing. -/
inductive Cell where
  | str (s : String)
  | num (q : ℚ)
  | null
  deriving DecidableEq

/-- A dataframe row: an association list from column names to cells. -/
abbrev Row := List (String × Cell)

/-- A dataframe: a list of rows (all rows share the same column set). -/
abbrev Table := List Row

/-- Value of column `name` in row `r` (first binding wins). -/
def lookupCell (r : Row) (name : String) : Option Cell :=
  (r.find? (fun p => p.1 = name)).map (fun p => p.2)

/-- Write `c` into column `name` of row `r`: replaces an existing binding in
place, otherwise appends the new column at the end (pandas `df[col] = ...`). -/
def setCell : Row → String → Cell → Row
  | [], name, c => [(name, c)]
  | (k, v) :: rest, name, c =>
    if k = name then (name, c) :: rest else (k, v) :: setCell rest name c

/-- Remove the listed columns from a row. -/
def dropKeys (names : List String) (r : Row) : Row :=
  r.filter (fun p => !(decide (p.1 ∈ names)))

/-- Rename column `old` to `new` in a row (pandas `rename`: missing labels
are silently ignored). -/
def renameKey (old new : String) (r : Row) : Row :=
  r.map (fun p => if p.1 = old then (new, p.2) else p)

/-- Rename a column across a table (`df.rename(columns={old: new})`). -/
def renameTable (old new : String) (t : Table) : Table :=
  t.map (renameKey old new)

/-- Column names of a table (taken from its first row). -/
def colNames (t : Table) : List String :=
  match t with
  | [] => []
  | r :: _ => r.map (fun p => p.1)

/-- Whether column `name` is present in every row of `t`. -/
def hasCol (t : Table) (name : String) : Bool :=
  t.all (fun r => (lookupCell r name).isSome)

/-- All cells of column `name`; `none` models a `KeyError` when the column
is missing from some row. -/
def colCellsM : Table → String → Option (List Cell)
  | [], _ => some []
  | r :: rest, name =>
    (lookupCell r name).bind (fun c =>
      (colCellsM rest name).map (fun cs => c :: cs))

/-- Drop the listed columns (`df.drop(columns=names)`); `none` models the
`KeyError` pandas raises when a label is absent. -/
def dropCols (names : List String) (t : Table) : Option Table :=
  if names.all (fun n => hasCol t n) then some (t.map (dropKeys names)) else none

/-- Apply a fallible row transformation to every row; `none` aborts. -/
def mapRowsM (f : Row → Option Row) : Table → Option Table
  | [] => some []
  | r :: rest =>
    (f r).bind (fun r' => (mapRowsM f rest).map (fun rest' => r' :: rest'))

/-- Row-wise construction of a column (`df[name] = df.apply(f, axis=1)`)
where `f` may raise; `none` aborts the whole operation. -/
def setColumnM (name : String) (f : Row → Option Cell) (t : Table) : Option Table :=
  mapRowsM (fun r => (f r).map (fun c => setCell r name c)) t

/-- Assign a column from a precomputed list of per-row values (used for the
`pd.qcut` result, which is computed column-wise and then assigned). -/
def setColumnVals (name : String) (cs : List Cell) (t : Table) : Table :=
  List.zipWith (fun r c => setCell r name c) t cs

/-! ### Python numeral parsing -/

/-- Numeric value of a digit list, most significant first. -/
def digitsVal (l : List Char) : ℕ :=
  l.foldl (fun acc c => 10 * acc + (c.toNat - '0'.toNat)) 0

/-- Whether every character is a decimal digit and the list is nonempty. -/
def allDigits (l : List Char) : Bool :=
  !l.isEmpty && l.all (fun c => c.isDigit)

/-- Strip leading and trailing whitespace characters. -/
def trimChars (l : List Char) : List Char :=
  ((l.dropWhile (fun c => c.isWhitespace)).reverse.dropWhile
    (fun c => c.isWhitespace)).reverse

/-- Split off an optional leading sign, returning the sign as `-1` or `1`. -/
def splitSign : List Char → (ℤ × List Char)
  | '-' :: rest => (-1, rest)
  | '+' :: rest => (1, rest)
  | l => (1, l)

/-- Python `int(s)`: optional surrounding whitespace, optional sign, a
nonempty digit run; anything else raises `ValueError` (`none`). -/
def pyInt (s : String) : Option ℤ :=
  let (sign, body) := splitSign (trimChars s.data)
  if allDigits body then some (sign * digitsVal body) else none

/-- Split a character list at every occurrence of `sep` (Python
`str.split(sep)`: splitting the empty list yields one empty group). -/
def splitOnChar (sep : Char) : List Char → List (List Char)
  | [] => [[]]
  | ch :: rest =>
    let r := splitOnChar sep rest
    if ch = sep then [] :: r
    else
      match r with
      | [] => [[ch]]
      | g :: gs => (ch :: g) :: gs

/-- Mantissa value of `intPart.fracPart` as an exact rational. -/
def mantissaVal (intPart fracPart : List Char) : ℚ :=
  (digitsVal intPart : ℚ) + (digitsVal fracPart : ℚ) / ((10 : ℚ) ^ fracPart.length)

/-- Parse the mantissa of a float literal: digits with at most one decimal
point and at least one digit overall. -/
def parseMantissa (l : List Char) : Option ℚ :=
  match splitOnChar '.' l with
  | [ip] => if allDigits ip then some (mantissaVal ip []) else none
  | [ip, fp] =>
    if (ip.all (fun c => c.isDigit)) && (fp.all (fun c => c.isDigit))
        && !(ip.isEmpty && fp.isEmpty) then
      some (mantissaVal ip fp)
    else none
  | _ => none

/-- Parse an optional exponent part (after `e`/`E`). -/
def applyExp (m : ℚ) (l : List Char) : Option ℚ :=
  let (sign, body) := splitSign l
  if allDigits body then
    some (if sign = 1 then m * (10 : ℚ) ^ digitsVal body
          else m / (10 : ℚ) ^ digitsVal body)
  else none

/-- Python `float(s)` restricted to finite decimal/exponent numerals, as a
`Cell`: the literal `"nan"` yields `Cell.null` (a float `NaN`), a numeral
yields `Cell.num`, anything else raises `ValueError` (`none`). -/
def pyFloat (s : String) : Option Cell :=
  let body := trimChars s.data
  if body = ['n', 'a', 'n'] then some Cell.null
  else
    let (sign, mant) := splitSign body
    match splitOnChar 'e' (mant.map (fun c => if c = 'E' then 'e' else c)) with
    | [m] => (parseMantissa m).map (fun q => Cell.num ((sign : ℚ) * q))
    | [m, e] => (parseMantissa m).bind (fun q => (applyExp q e).map
        (fun q' => Cell.num ((sign : ℚ) * q')))
    | _ => none

/-! ### Helper functions of the notebook (cell "Helper functions for dataset cleaning") -/

/-- `get_month_from_date(row)`: `int(row['date'].split('-')[1])`.  No
exception handling: a missing `date` column, a non-string cell, a date with
fewer than two `-`-separated parts, or a non-numeric part raises (`none`). -/
def get_month_from_date (r : Row) : Option Cell :=
  match lookupCell r "date" with
  | some (Cell.str s) =>
    match (splitOnChar '-' s.data).get? 1 with
    | some part => (pyInt (String.mk part)).map (fun n => Cell.num (n : ℚ))
    | none => none
  | _ => none

/-- `get_year_from_date(row)`: `int(row['date'].split('-')[0])`, no
exception handling (`none` models an uncaught exception). -/
def get_year_from_date (r : Row) : Option Cell :=
  match lookupCell r "date" with
  | some (Cell.str s) =>
    match (splitOnChar '-' s.data).get? 0 with
    | some part => (pyInt (String.mk part)).map (fun n => Cell.num (n : ℚ))
    | none => none
  | _ => none

/-- `get_host_since_year(row)`: `int(row['host_since'].split('-')[0])`
inside `try ... except`, so every failure (missing column, missing value,
unparseable year) yields `np.nan` (`Cell.null`) instead of raising. -/
def get_host_since_year (r : Row) : Cell :=
  match lookupCell r "host_since" with
  | some (Cell.str s) =>
    match pyInt (String.mk ((splitOnChar '-' s.data).headD [])) with
    | some n => Cell.num (n : ℚ)
    | none => Cell.null
  | _ => Cell.null

/-- Characters removed by the chained `.replace` calls of
`get_val_from_list` / `split_list_into_columns`. -/
def listPunct : List Char := ['[', ']', '\'', '"', '\x7b', '\x7d']

/-- The notebook's list-cell decoding: drop every bracket, quote and brace
character anywhere in the string, then split on commas. -/
def parseListCell (s : String) : List String :=
  (splitOnChar ',' (s.data.filter (fun c => !(decide (c ∈ listPunct))))).map
    (fun l => String.mk l)

/-- `get_val_from_list(row, column_name, value)`: 1.0 when `value` is among
the decoded items of `row[column_name]`, else 0.0; the bare `except` turns
every failure (missing column, non-string cell) into 0.0. -/
def get_val_from_list (r : Row) (column_name value : String) : ℚ :=
  match lookupCell r column_name with
  | some (Cell.str s) => if value ∈ parseListCell s then 1 else 0
  | _ => 0

/-- One step of the notebook's `value_dict` update: a key seen for the
first time is stored with count `0`, a repeated key is incremented. -/
def dictUpd (d : List (String × ℕ)) (k : String) : List (String × ℕ) :=
  match d with
  | [] => [(k, 0)]
  | (k', c) :: rest =>
    if k' = k then (k', c + 1) :: rest else (k', c) :: dictUpd rest k

/-- Fold a list of keys into a `value_dict` (insertion-ordered, as a Python
dict). -/
def dictAddAll (d : List (String × ℕ)) (ks : List String) : List (String × ℕ) :=
  ks.foldl dictUpd d

/-- First-occurrence deduplication with an accumulator of already-seen
values. -/
def pdUniqueAux {α : Type} [DecidableEq α] (seen : List α) : List α → List α
  | [] => []
  | x :: xs =>
    if x ∈ seen then pdUniqueAux seen xs else x :: pdUniqueAux (x :: seen) xs

/-- `Series.unique()`: distinct values in order of first appearance. -/
def pdUnique {α : Type} [DecidableEq α] (l : List α) : List α :=
  pdUniqueAux [] l

/-- The `value_dict` built by `split_list_into_columns`: decode each
distinct value of the column (each distinct string counted once however
many rows share it) and accumulate item counts starting at `0`. -/
def buildValueDict (uniques : List String) : List (String × ℕ) :=
  uniques.foldl (fun d uv => dictAddAll d (parseListCell uv)) []

/-- Python `sorted(..., key=lambda x: x[1], reverse=True)`: a stable sort
by descending count (`insertionSort` with `b.2 ≤ a.2` is stable and places
ties in their original order). -/
def sortByCountDesc (d : List (String × ℕ)) : List (String × ℕ) :=
  List.insertionSort (fun a b => b.2 ≤ a.2) d

/-- The items selected by `split_list_into_columns`: the first
`max_dummies_num` entries of the descending stable sort of `value_dict`. -/
def selectedItems (uniques : List String) (max_dummies_num : ℕ) : List String :=
  ((sortByCountDesc (buildValueDict uniques)).take max_dummies_num).map
    (fun p => p.1)

/-- Add the indicator column for one selected item. -/
def addDummyCol (column_name : String) (t : Table) (value : String) : Table :=
  t.map (fun r =>
    setCell r (column_name ++ "_" ++ value)
      (Cell.num (get_val_from_list r column_name value)))

/-- `split_list_into_columns(df, column_name, max_dummies_num)`: collect
the distinct values of the column (`df[column_name].unique()` raises on a
missing column, and the `.replace` chain raises `AttributeError` on any
non-string cell — both `none`), build `value_dict`, sort it by descending
count (stable), and create one indicator column per selected item. -/
def split_list_into_columns (t : Table) (column_name : String)
    (max_dummies_num : ℕ) : Option Table :=
  (colCellsM t column_name).bind (fun cells =>
    (cells.mapM (fun c => match c with | Cell.str s => some s | _ => none)).map
      (fun strs =>
        (selectedItems (pdUnique strs) max_dummies_num).foldl
          (addDummyCol column_name) t))

/-- `get_extra_people_fee(row)`: 0.0 exactly when the cell equals the
string `"$0.00"`, else 1.0 (comparison with a missing or numeric cell is
`False` in Python, hence 1.0); `row['extra_people']` raises on a missing
column (`none`). -/
def get_extra_people_fee (r : Row) : Option Cell :=
  (lookupCell r "extra_people").map (fun c =>
    if c = Cell.str "$0.00" then Cell.num 0 else Cell.num 1)

/-! ### Column-level statistics (pandas `mean`, `mode`, `fillna`, `qcut`) -/

/-- The numeric values of a list of cells (pandas skips `NaN`). -/
def numVals (cs : List Cell) : List ℚ :=
  cs.filterMap (fun c => match c with | Cell.num q => some q | _ => none)

/-- Whether some cell is a string (a numeric aggregation over an object
column of strings raises `TypeError`). -/
def hasStrCell (cs : List Cell) : Bool :=
  cs.any (fun c => match c with | Cell.str _ => true | _ => false)

/-- `Series.mean()` over the numeric cells; `none` when there is nothing to
average (pandas returns `NaN`). -/
def meanCells (cs : List Cell) : Option ℚ :=
  match numVals cs with
  | [] => none
  | l => some (l.sum / (l.length : ℚ))

/-- Replace the `null` cells of column `name` by `c`. -/
def fillCol (name : String) (c : Cell) (t : Table) : Table :=
  t.map (fun r =>
    match lookupCell r name with
    | some Cell.null => setCell r name c
    | _ => r)

/-- `df[name].fillna(df[name].mean())`: a `TypeError` on string cells is
fatal; an all-null column has mean `NaN`, and filling with `NaN` leaves the
column unchanged. -/
def fillnaMeanCol (name : String) (t : Table) : Option Table :=
  (colCellsM t name).bind (fun cells =>
    if hasStrCell cells then none
    else
      match meanCells cells with
      | none => some t
      | some m => some (fillCol name (Cell.num m) t))

/-- Occurrence count of cell `c` in a list of cells. -/
def countC (l : List Cell) (c : Cell) : ℕ :=
  l.countP (fun x => decide (x = c))

/-- The numeric key of a cell (used only on all-number mode lists). -/
def cellNumKey : Cell → ℚ
  | Cell.num q => q
  | _ => 0

/-- The string key of a cell (used only on all-string mode lists). -/
def cellStrKey : Cell → String
  | Cell.str s => s
  | _ => ""

/-- `np.sort` over the array of modes: ascending for homogeneous numbers
or strings; mixed data is unsortable, so pandas only warns and keeps the
hash-table order. -/
def modeSortCells (l : List Cell) : List Cell :=
  if l.all (fun c => match c with | Cell.num _ => true | _ => false) then
    List.insertionSort (fun a b => cellNumKey a ≤ cellNumKey b) l
  else if l.all (fun c => match c with | Cell.str _ => true | _ => false) then
    List.insertionSort (fun a b => cellStrKey a ≤ cellStrKey b) l
  else l

/-- `Series.mode()[0]`: `mode()` drops the nulls, counts the remaining
values (strings included — `mode` works on object columns), keeps the most
frequent ones sorted by `modeSortCells`, and `[0]` takes the first; `none`
models the `KeyError` of `[0]` on an all-null column, whose mode series is
empty. -/
def modeCell (cs : List Cell) : Option Cell :=
  let nonNull := cs.filter (fun c => !(decide (c = Cell.null)))
  let distinct := pdUnique nonNull
  let maxCnt := (distinct.map (countC nonNull)).foldl max 0
  let cands := distinct.filter (fun c => countC nonNull c = maxCnt)
  (modeSortCells cands).head?

/-- `df[name] = df[name].fillna(df[name].mode()[0])`. -/
def fillnaModeCol (name : String) (t : Table) : Option Table :=
  (colCellsM t name).bind (fun cells =>
    (modeCell cells).map (fun m => fillCol name m t))

/-! ### `pd.qcut(col, 5, labels=False, duplicates='drop')` -/

/-- Ascending sort of the column values. -/
def sortedQ (l : List ℚ) : List ℚ :=
  List.insertionSort (fun a b : ℚ => a ≤ b) l

/-- The `i/5` quantile of a sorted value list, with numpy's linear
interpolation between the two neighbouring order statistics. -/
def quantileAt (sorted : List ℚ) (i : ℕ) : ℚ :=
  let p : ℚ := (i : ℚ) * ((sorted.length : ℚ) - 1) / 5
  let lo : ℕ := (⌊p⌋).toNat
  let frac : ℚ := p - (lo : ℚ)
  let vlo := sorted.getD lo 0
  let vhi := sorted.getD (lo + 1) vlo
  vlo + frac * (vhi - vlo)

/-- The six quantile edges `q(0), q(1/5), ..., q(1)` of the data. -/
def qcutEdges (l : List ℚ) : List ℚ :=
  (List.range 6).map (quantileAt (sortedQ l))

/-- Bin edges after `duplicates='drop'` (the edges are ascending, so
first-occurrence deduplication is exactly `np.unique`). -/
def qcutBins (l : List ℚ) : List ℚ :=
  pdUnique (qcutEdges l)

/-- The integer bucket code of `x`: bins are left-open right-closed with
the lowest value included in bin 0, so the code is the number of interior
edges strictly below `x`. -/
def qcutCode (bins : List ℚ) (x : ℚ) : ℕ :=
  (bins.drop 1).countP (fun e => decide (e < x))

/-- `pd.qcut(cells, 5, labels=False, duplicates='drop')`: quantiles are
computed over the non-null values and null cells keep a null code.  When
deduplication leaves fewer than two edges (constant or all-null data),
every value falls in the `na_mask` of pandas' `_bins_to_cuts`
(`ids == len(bins)` after the `include_lowest` adjustment), so every code
is `NaN` — not an error.  String cells make the quantile computation raise
a `TypeError` (`none`). -/
def qcutCells (cells : List Cell) : Option (List Cell) :=
  if hasStrCell cells then none
  else
    let bins := qcutBins (numVals cells)
    some (cells.map (fun c =>
      match c with
      | Cell.num q =>
        if bins.length < 2 then Cell.null
        else Cell.num ((qcutCode bins q : ℕ) : ℚ)
      | _ => Cell.null))

/-- Compute the qcut codes of column `name` and assign them to `newName`. -/
def qcutColumn (name newName : String) (t : Table) : Option Table :=
  (colCellsM t name).bind (fun cells =>
    (qcutCells cells).map (fun codes => setColumnVals newName codes t))

/-! ### The `clean_dataset` pipeline -/

/-- `pd.merge(left, right, on=key)`: inner join in left-row-major order;
the non-key columns present in both tables get `_x` / `_y` suffixes; a
missing key column raises (`none`). -/
def suffixCommon (commons : List String) (suffix : String) (r : Row) : Row :=
  r.map (fun p => if p.1 ∈ commons then (p.1 ++ suffix, p.2) else p)

/-- Inner join of two tables on `key` (see `suffixCommon`). -/
def mergeTables (left right : Table) (key : String) : Option Table :=
  if hasCol left key && hasCol right key then
    let commons := (colNames left).filter
      (fun n => decide (n ≠ key) && decide (n ∈ colNames right))
    some (left.flatMap (fun lr =>
      (right.filter (fun rr => lookupCell rr key == lookupCell lr key)).map
        (fun rr =>
          suffixCommon commons "_x" lr ++
            suffixCommon commons "_y" (dropKeys [key] rr))))
  else none

/-- `df.dropna(subset=[name])`: keep the rows whose `name` cell is not
null; a missing column raises (`none`). -/
def dropnaSubset (name : String) (t : Table) : Option Table :=
  if hasCol t name then
    some (t.filter (fun r => decide (lookupCell r name ≠ some Cell.null)))
  else none

/-- Characters removed from the price string by
`.str.replace('[$, ]', '')` (a regex character class). -/
def pricePunct : List Char := ['$', ',', ' ']

/-- `df['price_x'].astype(str).str.replace('[$, ]', '').astype('float')`
acting on one cell.  A numeric cell round-trips through its decimal
representation unchanged; an actual `NaN` prints as `"nan"` and parses back
to `NaN`. -/
def parsePriceCell (c : Cell) : Option Cell :=
  match c with
  | Cell.str s => pyFloat (String.mk (s.data.filter (fun ch => !(decide (ch ∈ pricePunct)))))
  | Cell.num q => some (Cell.num q)
  | Cell.null => some Cell.null

/-- `df['host_response_rate'].astype(str).str.replace('%', '')
.astype('float')` acting on one cell (same round-trip conventions as
`parsePriceCell`). -/
def parseRateCell (c : Cell) : Option Cell :=
  match c with
  | Cell.str s => pyFloat (String.mk (s.data.filter (fun ch => !(ch = '%'))))
  | Cell.num q => some (Cell.num q)
  | Cell.null => some Cell.null

/-- The fixed column-drop list of `clean_dataset`. -/
def columns_to_drop : List String :=
  ["available", "host_id", "host_location", "host_acceptance_rate",
   "host_neighbourhood", "host_total_listings_count", "weekly_price",
   "monthly_price", "security_deposit", "cleaning_fee", "calendar_updated",
   "listing_url", "last_scraped", "scrape_id", "name", "summary", "space",
   "description", "experiences_offered", "street", "neighbourhood",
   "neighbourhood_cleansed", "zipcode", "neighborhood_overview", "notes",
   "transit", "thumbnail_url", "medium_url", "picture_url", "xl_picture_url",
   "host_url", "host_name", "host_about", "host_thumbnail_url",
   "host_picture_url", "city", "state", "market", "smart_location",
   "country_code", "country", "latitude", "longitude", "is_location_exact",
   "square_feet", "has_availability", "availability_30", "availability_60",
   "availability_90", "availability_365", "calendar_last_scraped",
   "first_review", "last_review", "requires_license", "license",
   "jurisdiction_names", "price_y", "reviews_per_month"]

/-- The seven review-score columns imputed with the column mean. -/
def review_scores_columns : List String :=
  ["review_scores_rating", "review_scores_accuracy",
   "review_scores_cleanliness", "review_scores_checkin",
   "review_scores_communication", "review_scores_location",
   "review_scores_value"]

/-- Stage 1: rename `id` to `listing_id`, inner-join calendar to listings,
drop the fixed irrelevant-column list. -/
def stageMergeDrop (listings_df calendar_df : Table) : Option Table :=
  (mergeTables calendar_df (renameTable "id" "listing_id" listings_df)
      "listing_id").bind (fun df => dropCols columns_to_drop df)

/-- Stage 2: split the calendar date into `month` and `year` and drop the
original `date` column. -/
def stageDates (t : Table) : Option Table :=
  (setColumnM "month" get_month_from_date t).bind (fun a =>
  (setColumnM "year" get_year_from_date a).bind (fun b =>
  dropCols ["date"] b))

/-- Stage 3: drop the rows with a null `price_x`, parse the remaining
price strings into `price`, drop `price_x`.  The two consecutive
assignments building `df['price']` (string conversion, then
strip-and-parse) are modelled as their composite `parsePriceCell`. -/
def stagePrice (t : Table) : Option Table :=
  (dropnaSubset "price_x" t).bind (fun a =>
  (setColumnM "price"
      (fun r => (lookupCell r "price_x").bind parsePriceCell) a).bind (fun b =>
  dropCols ["price_x"] b))

/-- Stage 4: extract `host_since_year`, impute it with the column mean,
drop `host_since`. -/
def stageHostSince (t : Table) : Option Table :=
  (setColumnM "host_since_year"
      (fun r => some (get_host_since_year r)) t).bind (fun a =>
  (fillnaMeanCol "host_since_year" a).bind (fun b =>
  dropCols ["host_since"] b))

/-- Stage 5: parse `host_response_rate` into a number, impute it with the
column mean, discretize into 5 quantile buckets, drop the two source
columns. -/
def stageResponseRate (t : Table) : Option Table :=
  (setColumnM "host_response_rate_num"
      (fun r => (lookupCell r "host_response_rate").bind parseRateCell)
      t).bind (fun a =>
  (fillnaMeanCol "host_response_rate_num" a).bind (fun b =>
  (qcutColumn "host_response_rate_num" "host_response_rate_buckets" b).bind
    (fun c => dropCols ["host_response_rate", "host_response_rate_num"] c)))

/-- Stage 6: split `host_verifications` into indicator columns and drop
the original column. -/
def stageVerifications (t : Table) : Option Table :=
  (split_list_into_columns t "host_verifications" 10).bind
    (fun a => dropCols ["host_verifications"] a)

/-- Stage 7: impute `bathrooms`, `bedrooms` and `beds` with the column
mode. -/
def stageBedsBaths (t : Table) : Option Table :=
  (fillnaModeCol "bathrooms" t).bind (fun a =>
  (fillnaModeCol "bedrooms" a).bind (fun b =>
  fillnaModeCol "beds" b))

/-- Stage 8: split `amenities` into indicator columns and drop the
original column. -/
def stageAmenities (t : Table) : Option Table :=
  (split_list_into_columns t "amenities" 10).bind
    (fun a => dropCols ["amenities"] a)

/-- Stage 9: build the binary `extra_people_fee` column and drop
`extra_people`. -/
def stageExtraFee (t : Table) : Option Table :=
  (setColumnM "extra_people_fee" get_extra_people_fee t).bind
    (fun a => dropCols ["extra_people"] a)

/-- Stage 10: impute each of the seven review-score columns with its
column mean (the notebook's `for column in review_scores_columns` loop,
unrolled over the literal list). -/
def stageReviewScores (t : Table) : Option Table :=
  (fillnaMeanCol "review_scores_rating" t).bind (fun a =>
  (fillnaMeanCol "review_scores_accuracy" a).bind (fun b =>
  (fillnaMeanCol "review_scores_cleanliness" b).bind (fun c =>
  (fillnaMeanCol "review_scores_checkin" c).bind (fun d =>
  (fillnaMeanCol "review_scores_communication" d).bind (fun e =>
  (fillnaMeanCol "review_scores_location" e).bind (fun f =>
  fillnaMeanCol "review_scores_value" f))))))

/-- `clean_dataset(listings_df, calendar_df)`, the composite of the ten
stages in source order. -/
def clean_dataset (listings_df calendar_df : Table) : Option Table :=
  (stageMergeDrop listings_df calendar_df).bind (fun a =>
  (stageDates a).bind (fun b =>
  (stagePrice b).bind (fun c =>
  (stageHostSince c).bind (fun d =>
  (stageResponseRate d).bind (fun e =>
  (fillnaMeanCol "host_listings_count" e).bind (fun f =>
  (stageVerifications f).bind (fun g =>
  (stageBedsBaths g).bind (fun h2 =>
  (stageAmenities h2).bind (fun i2 =>
  (stageExtraFee i2).bind (fun j2 =>
  stageReviewScores j2))))))))))

/-! ### Spec-side definitions (used to state, not to implement) -/

/-- Occurrence count of item `k` across the decoded distinct values of a
column (each distinct string contributing once).  The notebook's
`value_dict` stores exactly this minus one. -/
def itemOccur (uniques : List String) (k : String) : ℕ :=
  (uniques.flatMap parseListCell).count k

/-- The claim's notion of frequency: in how many rows of the table does the
decoded list cell of column `col` contain `item`. -/
def rowItemFrequency (t : Table) (col item : String) : ℕ :=
  t.countP (fun r =>
    decide (item ∈ (match lookupCell r col with
      | some (Cell.str s) => parseListCell s
      | _ => ([] : List String))))

/-- `buildValueDict` re-keyed with the true occurrence counts. -/
def trueCountDict (uniques : List String) : List (String × ℕ) :=
  (buildValueDict uniques).map (fun p => (p.1, itemOccur uniques p.1))

/-! ### State-passing rendering of `clean_dataset` for the frame property

`clean_dataset` receives references to the caller's two dataframes.  The
body rebinds its local `listings_df` name to the fresh frame returned by
`rename` (no `inplace=True` is passed), `pd.merge` allocates a fresh
frame, and every in-place operation (`fillna(..., inplace=True)`,
`df[col] = ...`, `split_list_into_columns(df, ...)`) targets that merged
frame.  `clean_dataset_tracked` threads the caller-visible environment
through the call and returns it alongside the result. -/

/-- The caller's environment: the two dataframes it holds references to. -/
structure CallerEnv where
  listingsRef : Table
  calendarRef : Table
  deriving DecidableEq

/-- `clean_dataset` with the caller's environment threaded through: every
step reads from the environment or from the local merged frame, and no
step writes the environment. -/
def clean_dataset_tracked (env : CallerEnv) : CallerEnv × Option Table :=
  let listingsLocal := renameTable "id" "listing_id" env.listingsRef
  let result :=
    (mergeTables env.calendarRef listingsLocal "listing_id").bind (fun df =>
    (dropCols columns_to_drop df).bind (fun df => (stageDates df).bind (fun df =>
    (stagePrice df).bind (fun df => (stageHostSince df).bind (fun df =>
    (stageResponseRate df).bind (fun df =>
    (fillnaMeanCol "host_listings_count" df).bind (fun df =>
    (stageVerifications df).bind (fun df => (stageBedsBaths df).bind (fun df =>
    (stageAmenities df).bind (fun df => (stageExtraFee df).bind (fun df =>
    stageReviewScores df)))))))))))
  (env, result)

/-! ### Concrete sample inputs -/

/-- Filler bindings for the dropped listing columns, so that the fixed
drop list of `clean_dataset` succeeds on sample inputs. -/
def fillerCols : Row :=
  (columns_to_drop.filter
    (fun n => decide (n ≠ "available") && decide (n ≠ "price_y"))).map
    (fun n => (n, Cell.num 0))

/-- A listing row with the given id and feature cells, and filler values
for all the dropped columns. -/
def mkListing (id host_since rate hlc verifs baths beds amen extra : Cell) : Row :=
  [("id", id), ("price", Cell.str "$100.00"),
   ("host_since", host_since),
   ("host_response_rate", rate),
   ("host_listings_count", hlc),
   ("host_verifications", verifs),
   ("bathrooms", baths), ("bedrooms", baths), ("beds", beds),
   ("amenities", amen),
   ("extra_people", extra),
   ("review_scores_rating", Cell.num 95),
   ("review_scores_accuracy", Cell.num 9),
   ("review_scores_cleanliness", Cell.num 9),
   ("review_scores_checkin", Cell.num 9),
   ("review_scores_communication", Cell.num 9),
   ("review_scores_location", Cell.num 9),
   ("review_scores_value", Cell.num 9)] ++ fillerCols

/-- A calendar row with the given listing id, date and price. -/
def mkCalRow (lid date price : Cell) : Row :=
  [("listing_id", lid), ("date", date), ("available", Cell.str "t"),
   ("price", price)]

/-- Value stored under key `k` in a `value_dict`. -/
def dictGet (d : List (String × ℕ)) (k : String) : Option ℕ :=
  (d.find? (fun p => p.1 = k)).map (fun p => p.2)

/-- Listing with two-listing-friendly, fully parseable fields. -/
def listA : Row :=
  mkListing (Cell.num 1) (Cell.str "2012-05-01") (Cell.str "80%")
    (Cell.num 1) (Cell.str "['email']") (Cell.num 1) (Cell.num 2)
    (Cell.str "\x7bTV,Wifi\x7d") (Cell.str "$0.00")

/-- A second listing with a different response rate and a nonzero fee. -/
def listB : Row :=
  mkListing (Cell.num 2) (Cell.str "2013-07-01") (Cell.str "100%")
    (Cell.num 3) (Cell.str "['phone']") (Cell.num 1) (Cell.num 1)
    (Cell.str "\x7bTV\x7d") (Cell.str "$5.00")

/-- Calendar rows: two priced days and one unpriced day. -/
def calA1 : Row := mkCalRow (Cell.num 1) (Cell.str "2016-07-04") (Cell.str "$150.00")

/-- An unpriced calendar day for listing 1. -/
def calA2 : Row := mkCalRow (Cell.num 1) (Cell.str "2016-07-05") Cell.null

/-- A priced calendar day for listing 2. -/
def calB1 : Row := mkCalRow (Cell.num 2) (Cell.str "2016-01-02") (Cell.str "$99.00")

/-- A two-listing, three-calendar-row input on which every stage succeeds. -/
def goodListings : Table := [listA, listB]

/-- Calendar table of the fully successful sample run. -/
def goodCalendar : Table := [calA1, calA2, calB1]

/-- The output table of the successful sample run (as a literal; the
equation `goodRunEq` below verifies it against `clean_dataset`). -/
def goodOut : Table :=
  [[("listing_id", Cell.num 1), ("host_listings_count", Cell.num 1), ("bathrooms", Cell.num 1), ("bedrooms", Cell.num 1), ("beds", Cell.num 2), ("review_scores_rating", Cell.num 95), ("review_scores_accuracy", Cell.num 9), ("review_scores_cleanliness", Cell.num 9), ("review_scores_checkin", Cell.num 9), ("review_scores_communication", Cell.num 9), ("review_scores_location", Cell.num 9), ("review_scores_value", Cell.num 9), ("month", Cell.num 7), ("year", Cell.num 2016), ("price", Cell.num 150), ("host_since_year", Cell.num 2012), ("host_response_rate_buckets", Cell.num 0), ("host_verifications_email", Cell.num 1), ("host_verifications_phone", Cell.num 0), ("amenities_TV", Cell.num 1), ("amenities_Wifi", Cell.num 1), ("extra_people_fee", Cell.num 0)],
   [("listing_id", Cell.num 2), ("host_listings_count", Cell.num 3), ("bathrooms", Cell.num 1), ("bedrooms", Cell.num 1), ("beds", Cell.num 1), ("review_scores_rating", Cell.num 95), ("review_scores_accuracy", Cell.num 9), ("review_scores_cleanliness", Cell.num 9), ("review_scores_checkin", Cell.num 9), ("review_scores_communication", Cell.num 9), ("review_scores_location", Cell.num 9), ("review_scores_value", Cell.num 9), ("month", Cell.num 1), ("year", Cell.num 2016), ("price", Cell.num 99), ("host_since_year", Cell.num 2013), ("host_response_rate_buckets", Cell.num 4), ("host_verifications_email", Cell.num 0), ("host_verifications_phone", Cell.num 1), ("amenities_TV", Cell.num 1), ("amenities_Wifi", Cell.num 0), ("extra_people_fee", Cell.num 1)]]

/-- First row of the successful sample run. -/
def goodRow : Row := goodOut.headD []

/-- Calendar row whose price string strips to a negative numeral. -/
def calNeg : Row := mkCalRow (Cell.num 1) (Cell.str "2016-07-04") (Cell.str "-$5.00")

/-- Calendar row whose price string is not numeric at all. -/
def calBadPrice : Row := mkCalRow (Cell.num 1) (Cell.str "2016-07-04") (Cell.str "abc")

/-- Output of the run whose only price is `"-$5.00"` (literal; verified
by `negRunEq`). -/
def negOut : Table :=
  [[("listing_id", Cell.num 1), ("host_listings_count", Cell.num 1), ("bathrooms", Cell.num 1), ("bedrooms", Cell.num 1), ("beds", Cell.num 2), ("review_scores_rating", Cell.num 95), ("review_scores_accuracy", Cell.num 9), ("review_scores_cleanliness", Cell.num 9), ("review_scores_checkin", Cell.num 9), ("review_scores_communication", Cell.num 9), ("review_scores_location", Cell.num 9), ("review_scores_value", Cell.num 9), ("month", Cell.num 7), ("year", Cell.num 2016), ("price", Cell.num (-5)), ("host_since_year", Cell.num 2012), ("host_response_rate_buckets", Cell.null), ("host_verifications_email", Cell.num 1), ("amenities_TV", Cell.num 1), ("amenities_Wifi", Cell.num 1), ("extra_people_fee", Cell.num 0)]]

/-- Calendar row with a date that `get_month_from_date` cannot split. -/
def calBadDate : Row := mkCalRow (Cell.num 1) (Cell.str "July 4") (Cell.str "$150.00")

/-- Listing whose `host_response_rate` is not a percentage. -/
def listBadRate : Row :=
  mkListing (Cell.num 1) (Cell.str "2012-05-01") (Cell.str "abc")
    (Cell.num 1) (Cell.str "['email']") (Cell.num 1) (Cell.num 2)
    (Cell.str "\x7bTV,Wifi\x7d") (Cell.str "$0.00")

/-- Listing whose `host_since` is unparseable (goes through the bare
`except` of `get_host_since_year`). -/
def listBadHS : Row :=
  mkListing (Cell.num 1) (Cell.str "unknown") (Cell.str "80%")
    (Cell.num 1) (Cell.str "['email']") (Cell.num 1) (Cell.num 2)
    (Cell.str "\x7bTV,Wifi\x7d") (Cell.str "$0.00")

/-- Output of the run where listing 1 has an unparseable `host_since` and
listing 2 a parseable one: both rows carry the mean year 2013 (literal;
verified by `badHSRunEq`). -/
def badHSOut : Table :=
  [[("listing_id", Cell.num 1), ("host_listings_count", Cell.num 1), ("bathrooms", Cell.num 1), ("bedrooms", Cell.num 1), ("beds", Cell.num 2), ("review_scores_rating", Cell.num 95), ("review_scores_accuracy", Cell.num 9), ("review_scores_cleanliness", Cell.num 9), ("review_scores_checkin", Cell.num 9), ("review_scores_communication", Cell.num 9), ("review_scores_location", Cell.num 9), ("review_scores_value", Cell.num 9), ("month", Cell.num 7), ("year", Cell.num 2016), ("price", Cell.num 150), ("host_since_year", Cell.num 2013), ("host_response_rate_buckets", Cell.num 0), ("host_verifications_email", Cell.num 1), ("host_verifications_phone", Cell.num 0), ("amenities_TV", Cell.num 1), ("amenities_Wifi", Cell.num 1), ("extra_people_fee", Cell.num 0)],
   [("listing_id", Cell.num 2), ("host_listings_count", Cell.num 3), ("bathrooms", Cell.num 1), ("bedrooms", Cell.num 1), ("beds", Cell.num 1), ("review_scores_rating", Cell.num 95), ("review_scores_accuracy", Cell.num 9), ("review_scores_cleanliness", Cell.num 9), ("review_scores_checkin", Cell.num 9), ("review_scores_communication", Cell.num 9), ("review_scores_location", Cell.num 9), ("review_scores_value", Cell.num 9), ("month", Cell.num 1), ("year", Cell.num 2016), ("price", Cell.num 99), ("host_since_year", Cell.num 2013), ("host_response_rate_buckets", Cell.num 4), ("host_verifications_email", Cell.num 0), ("host_verifications_phone", Cell.num 1), ("amenities_TV", Cell.num 1), ("amenities_Wifi", Cell.num 0), ("extra_people_fee", Cell.num 1)]]

/-- Listing whose `host_listings_count` is missing. -/
def listNoHLC : Row :=
  mkListing (Cell.num 1) (Cell.str "2012-05-01") (Cell.str "80%")
    Cell.null (Cell.str "['email']") (Cell.num 1) (Cell.num 2)
    (Cell.str "\x7bTV,Wifi\x7d") (Cell.str "$0.00")

/-- Output of the run whose `host_listings_count` column is entirely null
and whose response-rate column is constant (literal; verified by
`noHLCRunEq`). -/
def noHLCOut : Table :=
  [[("listing_id", Cell.num 1), ("host_listings_count", Cell.null), ("bathrooms", Cell.num 1), ("bedrooms", Cell.num 1), ("beds", Cell.num 2), ("review_scores_rating", Cell.num 95), ("review_scores_accuracy", Cell.num 9), ("review_scores_cleanliness", Cell.num 9), ("review_scores_checkin", Cell.num 9), ("review_scores_communication", Cell.num 9), ("review_scores_location", Cell.num 9), ("review_scores_value", Cell.num 9), ("month", Cell.num 7), ("year", Cell.num 2016), ("price", Cell.num 150), ("host_since_year", Cell.num 2012), ("host_response_rate_buckets", Cell.null), ("host_verifications_email", Cell.num 1), ("amenities_TV", Cell.num 1), ("amenities_Wifi", Cell.num 1), ("extra_people_fee", Cell.num 0)]]

/-- Listing whose `bathrooms` (and `bedrooms`) cell is the string `"2"`
rather than a number. -/
def listStrBath : Row :=
  mkListing (Cell.num 1) (Cell.str "2012-05-01") (Cell.str "80%")
    (Cell.num 1) (Cell.str "['email']") (Cell.str "2") (Cell.num 2)
    (Cell.str "\x7bTV,Wifi\x7d") (Cell.str "$0.00")

/-- Listing whose `bathrooms` (and `bedrooms`) cell is missing, so that
mode imputation fills it. -/
def listNullBath : Row :=
  mkListing (Cell.num 2) (Cell.str "2013-07-01") (Cell.str "100%")
    (Cell.num 3) (Cell.str "['phone']") Cell.null (Cell.num 1)
    (Cell.str "\x7bTV\x7d") (Cell.str "$5.00")

/-- Output of the string-bathrooms run: both rows carry the string
`"2"` in `bathrooms` and `bedrooms` — the second row's missing value was
filled with the column mode, which is itself the string `"2"` (literal;
verified by `sbRunEq`). -/
def sbOut : Table :=
  [   [("listing_id", Cell.num 1), ("host_listings_count", Cell.num 1), ("bathrooms", Cell.str "2"), ("bedrooms", Cell.str "2"), ("beds", Cell.num 2), ("review_scores_rating", Cell.num 95), ("review_scores_accuracy", Cell.num 9), ("review_scores_cleanliness", Cell.num 9), ("review_scores_checkin", Cell.num 9), ("review_scores_communication", Cell.num 9), ("review_scores_location", Cell.num 9), ("review_scores_value", Cell.num 9), ("month", Cell.num 7), ("year", Cell.num 2016), ("price", Cell.num 150), ("host_since_year", Cell.num 2012), ("host_response_rate_buckets", Cell.num 0), ("host_verifications_email", Cell.num 1), ("host_verifications_phone", Cell.num 0), ("amenities_TV", Cell.num 1), ("amenities_Wifi", Cell.num 1), ("extra_people_fee", Cell.num 0)],
     [("listing_id", Cell.num 2), ("host_listings_count", Cell.num 3), ("bathrooms", Cell.str "2"), ("bedrooms", Cell.str "2"), ("beds", Cell.num 1), ("review_scores_rating", Cell.num 95), ("review_scores_accuracy", Cell.num 9), ("review_scores_cleanliness", Cell.num 9), ("review_scores_checkin", Cell.num 9), ("review_scores_communication", Cell.num 9), ("review_scores_location", Cell.num 9), ("review_scores_value", Cell.num 9), ("month", Cell.num 1), ("year", Cell.num 2016), ("price", Cell.num 99), ("host_since_year", Cell.num 2013), ("host_response_rate_buckets", Cell.num 4), ("host_verifications_email", Cell.num 0), ("host_verifications_phone", Cell.num 1), ("amenities_TV", Cell.num 1), ("amenities_Wifi", Cell.num 0), ("extra_people_fee", Cell.num 1)]]

/-- Table refuting the row-frequency reading of the top-10 selection:
item `a` occurs in five rows (one distinct string), items `b` ... `k` in
two rows (two distinct strings) each. -/
def c1Table : Table :=
  [[("amenities", Cell.str "a")], [("amenities", Cell.str "a")],
   [("amenities", Cell.str "a")], [("amenities", Cell.str "a")],
   [("amenities", Cell.str "a")],
   [("amenities", Cell.str "b,c,d,e,f,g,h,i,j,k")],
   [("amenities", Cell.str "k,j,i,h,g,f,e,d,c,b")]]

/-- Result of `split_list_into_columns` on `c1Table` (literal; verified
by `c1RunEq`). -/
def c1Out : Table :=
  [[("amenities", Cell.str "a"), ("amenities_b", Cell.num 0), ("amenities_c", Cell.num 0), ("amenities_d", Cell.num 0), ("amenities_e", Cell.num 0), ("amenities_f", Cell.num 0), ("amenities_g", Cell.num 0), ("amenities_h", Cell.num 0), ("amenities_i", Cell.num 0), ("amenities_j", Cell.num 0), ("amenities_k", Cell.num 0)],
   [("amenities", Cell.str "a"), ("amenities_b", Cell.num 0), ("amenities_c", Cell.num 0), ("amenities_d", Cell.num 0), ("amenities_e", Cell.num 0), ("amenities_f", Cell.num 0), ("amenities_g", Cell.num 0), ("amenities_h", Cell.num 0), ("amenities_i", Cell.num 0), ("amenities_j", Cell.num 0), ("amenities_k", Cell.num 0)],
   [("amenities", Cell.str "a"), ("amenities_b", Cell.num 0), ("amenities_c", Cell.num 0), ("amenities_d", Cell.num 0), ("amenities_e", Cell.num 0), ("amenities_f", Cell.num 0), ("amenities_g", Cell.num 0), ("amenities_h", Cell.num 0), ("amenities_i", Cell.num 0), ("amenities_j", Cell.num 0), ("amenities_k", Cell.num 0)],
   [("amenities", Cell.str "a"), ("amenities_b", Cell.num 0), ("amenities_c", Cell.num 0), ("amenities_d", Cell.num 0), ("amenities_e", Cell.num 0), ("amenities_f", Cell.num 0), ("amenities_g", Cell.num 0), ("amenities_h", Cell.num 0), ("amenities_i", Cell.num 0), ("amenities_j", Cell.num 0), ("amenities_k", Cell.num 0)],
   [("amenities", Cell.str "a"), ("amenities_b", Cell.num 0), ("amenities_c", Cell.num 0), ("amenities_d", Cell.num 0), ("amenities_e", Cell.num 0), ("amenities_f", Cell.num 0), ("amenities_g", Cell.num 0), ("amenities_h", Cell.num 0), ("amenities_i", Cell.num 0), ("amenities_j", Cell.num 0), ("amenities_k", Cell.num 0)],
   [("amenities", Cell.str "b,c,d,e,f,g,h,i,j,k"), ("amenities_b", Cell.num 1), ("amenities_c", Cell.num 1), ("amenities_d", Cell.num 1), ("amenities_e", Cell.num 1), ("amenities_f", Cell.num 1), ("amenities_g", Cell.num 1), ("amenities_h", Cell.num 1), ("amenities_i", Cell.num 1), ("amenities_j", Cell.num 1), ("amenities_k", Cell.num 1)],
   [("amenities", Cell.str "k,j,i,h,g,f,e,d,c,b"), ("amenities_b", Cell.num 1), ("amenities_c", Cell.num 1), ("amenities_d", Cell.num 1), ("amenities_e", Cell.num 1), ("amenities_f", Cell.num 1), ("amenities_g", Cell.num 1), ("amenities_h", Cell.num 1), ("amenities_i", Cell.num 1), ("amenities_j", Cell.num 1), ("amenities_k", Cell.num 1)]]

/-! ### Intermediate tables of the sample runs, stage by stage -/

/-- Intermediate table of the successful sample run after pipeline step 1
(literal; verified by `goodS1`). -/
def goodT1 : Table :=
  [   [("listing_id", Cell.num 1), ("date", Cell.str "2016-07-04"), ("price_x", Cell.str "$150.00"), ("host_since", Cell.str "2012-05-01"), ("host_response_rate", Cell.str "80%"), ("host_listings_count", Cell.num 1), ("host_verifications", Cell.str "['email']"), ("bathrooms", Cell.num 1), ("bedrooms", Cell.num 1), ("beds", Cell.num 2), ("amenities", Cell.str "\x7bTV,Wifi\x7d"), ("extra_people", Cell.str "$0.00"), ("review_scores_rating", Cell.num 95), ("review_scores_accuracy", Cell.num 9), ("review_scores_cleanliness", Cell.num 9), ("review_scores_checkin", Cell.num 9), ("review_scores_communication", Cell.num 9), ("review_scores_location", Cell.num 9), ("review_scores_value", Cell.num 9)],
     [("listing_id", Cell.num 1), ("date", Cell.str "2016-07-05"), ("price_x", Cell.null), ("host_since", Cell.str "2012-05-01"), ("host_response_rate", Cell.str "80%"), ("host_listings_count", Cell.num 1), ("host_verifications", Cell.str "['email']"), ("bathrooms", Cell.num 1), ("bedrooms", Cell.num 1), ("beds", Cell.num 2), ("amenities", Cell.str "\x7bTV,Wifi\x7d"), ("extra_people", Cell.str "$0.00"), ("review_scores_rating", Cell.num 95), ("review_scores_accuracy", Cell.num 9), ("review_scores_cleanliness", Cell.num 9), ("review_scores_checkin", Cell.num 9), ("review_scores_communication", Cell.num 9), ("review_scores_location", Cell.num 9), ("review_scores_value", Cell.num 9)],
     [("listing_id", Cell.num 2), ("date", Cell.str "2016-01-02"), ("price_x", Cell.str "$99.00"), ("host_since", Cell.str "2013-07-01"), ("host_response_rate", Cell.str "100%"), ("host_listings_count", Cell.num 3), ("host_verifications", Cell.str "['phone']"), ("bathrooms", Cell.num 1), ("bedrooms", Cell.num 1), ("beds", Cell.num 1), ("amenities", Cell.str "\x7bTV\x7d"), ("extra_people", Cell.str "$5.00"), ("review_scores_rating", Cell.num 95), ("review_scores_accuracy", Cell.num 9), ("review_scores_cleanliness", Cell.num 9), ("review_scores_checkin", Cell.num 9), ("review_scores_communication", Cell.num 9), ("review_scores_location", Cell.num 9), ("review_scores_value", Cell.num 9)]]

/-- Intermediate table of the successful sample run after pipeline step 2
(literal; verified by `goodS2`). -/
def goodT2 : Table :=
  [   [("listing_id", Cell.num 1), ("price_x", Cell.str "$150.00"), ("host_since", Cell.str "2012-05-01"), ("host_response_rate", Cell.str "80%"), ("host_listings_count", Cell.num 1), ("host_verifications", Cell.str "['email']"), ("bathrooms", Cell.num 1), ("bedrooms", Cell.num 1), ("beds", Cell.num 2), ("amenities", Cell.str "\x7bTV,Wifi\x7d"), ("extra_people", Cell.str "$0.00"), ("review_scores_rating", Cell.num 95), ("review_scores_accuracy", Cell.num 9), ("review_scores_cleanliness", Cell.num 9), ("review_scores_checkin", Cell.num 9), ("review_scores_communication", Cell.num 9), ("review_scores_location", Cell.num 9), ("review_scores_value", Cell.num 9), ("month", Cell.num 7), ("year", Cell.num 2016)],
     [("listing_id", Cell.num 1), ("price_x", Cell.null), ("host_since", Cell.str "2012-05-01"), ("host_response_rate", Cell.str "80%"), ("host_listings_count", Cell.num 1), ("host_verifications", Cell.str "['email']"), ("bathrooms", Cell.num 1), ("bedrooms", Cell.num 1), ("beds", Cell.num 2), ("amenities", Cell.str "\x7bTV,Wifi\x7d"), ("extra_people", Cell.str "$0.00"), ("review_scores_rating", Cell.num 95), ("review_scores_accuracy", Cell.num 9), ("review_scores_cleanliness", Cell.num 9), ("review_scores_checkin", Cell.num 9), ("review_scores_communication", Cell.num 9), ("review_scores_location", Cell.num 9), ("review_scores_value", Cell.num 9), ("month", Cell.num 7), ("year", Cell.num 2016)],
     [("listing_id", Cell.num 2), ("price_x", Cell.str "$99.00"), ("host_since", Cell.str "2013-07-01"), ("host_response_rate", Cell.str "100%"), ("host_listings_count", Cell.num 3), ("host_verifications", Cell.str "['phone']"), ("bathrooms", Cell.num 1), ("bedrooms", Cell.num 1), ("beds", Cell.num 1), ("amenities", Cell.str "\x7bTV\x7d"), ("extra_people", Cell.str "$5.00"), ("review_scores_rating", Cell.num 95), ("review_scores_accuracy", Cell.num 9), ("review_scores_cleanliness", Cell.num 9), ("review_scores_checkin", Cell.num 9), ("review_scores_communication", Cell.num 9), ("review_scores_location", Cell.num 9), ("review_scores_value", Cell.num 9), ("month", Cell.num 1), ("year", Cell.num 2016)]]

/-- Intermediate table of the successful sample run after pipeline step 3
(literal; verified by `goodS3`). -/
def goodT3 : Table :=
  [   [("listing_id", Cell.num 1), ("host_since", Cell.str "2012-05-01"), ("host_response_rate", Cell.str "80%"), ("host_listings_count", Cell.num 1), ("host_verifications", Cell.str "['email']"), ("bathrooms", Cell.num 1), ("bedrooms", Cell.num 1), ("beds", Cell.num 2), ("amenities", Cell.str "\x7bTV,Wifi\x7d"), ("extra_people", Cell.str "$0.00"), ("review_scores_rating", Cell.num 95), ("review_scores_accuracy", Cell.num 9), ("review_scores_cleanliness", Cell.num 9), ("review_scores_checkin", Cell.num 9), ("review_scores_communication", Cell.num 9), ("review_scores_location", Cell.num 9), ("review_scores_value", Cell.num 9), ("month", Cell.num 7), ("year", Cell.num 2016), ("price", Cell.num 150)],
     [("listing_id", Cell.num 2), ("host_since", Cell.str "2013-07-01"), ("host_response_rate", Cell.str "100%"), ("host_listings_count", Cell.num 3), ("host_verifications", Cell.str "['phone']"), ("bathrooms", Cell.num 1), ("bedrooms", Cell.num 1), ("beds", Cell.num 1), ("amenities", Cell.str "\x7bTV\x7d"), ("extra_people", Cell.str "$5.00"), ("review_scores_rating", Cell.num 95), ("review_scores_accuracy", Cell.num 9), ("review_scores_cleanliness", Cell.num 9), ("review_scores_checkin", Cell.num 9), ("review_scores_communication", Cell.num 9), ("review_scores_location", Cell.num 9), ("review_scores_value", Cell.num 9), ("month", Cell.num 1), ("year", Cell.num 2016), ("price", Cell.num 99)]]

/-- Intermediate table of the successful sample run after pipeline step 4
(literal; verified by `goodS4`). -/
def goodT4 : Table :=
  [   [("listing_id", Cell.num 1), ("host_response_rate", Cell.str "80%"), ("host_listings_count", Cell.num 1), ("host_verifications", Cell.str "['email']"), ("bathrooms", Cell.num 1), ("bedrooms", Cell.num 1), ("beds", Cell.num 2), ("amenities", Cell.str "\x7bTV,Wifi\x7d"), ("extra_people", Cell.str "$0.00"), ("review_scores_rating", Cell.num 95), ("review_scores_accuracy", Cell.num 9), ("review_scores_cleanliness", Cell.num 9), ("review_scores_checkin", Cell.num 9), ("review_scores_communication", Cell.num 9), ("review_scores_location", Cell.num 9), ("review_scores_value", Cell.num 9), ("month", Cell.num 7), ("year", Cell.num 2016), ("price", Cell.num 150), ("host_since_year", Cell.num 2012)],
     [("listing_id", Cell.num 2), ("host_response_rate", Cell.str "100%"), ("host_listings_count", Cell.num 3), ("host_verifications", Cell.str "['phone']"), ("bathrooms", Cell.num 1), ("bedrooms", Cell.num 1), ("beds", Cell.num 1), ("amenities", Cell.str "\x7bTV\x7d"), ("extra_people", Cell.str "$5.00"), ("review_scores_rating", Cell.num 95), ("review_scores_accuracy", Cell.num 9), ("review_scores_cleanliness", Cell.num 9), ("review_scores_checkin", Cell.num 9), ("review_scores_communication", Cell.num 9), ("review_scores_location", Cell.num 9), ("review_scores_value", Cell.num 9), ("month", Cell.num 1), ("year", Cell.num 2016), ("price", Cell.num 99), ("host_since_year", Cell.num 2013)]]

/-- Intermediate table of the successful sample run after pipeline step 5
(literal; verified by `goodS5`). -/
def goodT5 : Table :=
  [   [("listing_id", Cell.num 1), ("host_listings_count", Cell.num 1), ("host_verifications", Cell.str "['email']"), ("bathrooms", Cell.num 1), ("bedrooms", Cell.num 1), ("beds", Cell.num 2), ("amenities", Cell.str "\x7bTV,Wifi\x7d"), ("extra_people", Cell.str "$0.00"), ("review_scores_rating", Cell.num 95), ("review_scores_accuracy", Cell.num 9), ("review_scores_cleanliness", Cell.num 9), ("review_scores_checkin", Cell.num 9), ("review_scores_communication", Cell.num 9), ("review_scores_location", Cell.num 9), ("review_scores_value", Cell.num 9), ("month", Cell.num 7), ("year", Cell.num 2016), ("price", Cell.num 150), ("host_since_year", Cell.num 2012), ("host_response_rate_buckets", Cell.num 0)],
     [("listing_id", Cell.num 2), ("host_listings_count", Cell.num 3), ("host_verifications", Cell.str "['phone']"), ("bathrooms", Cell.num 1), ("bedrooms", Cell.num 1), ("beds", Cell.num 1), ("amenities", Cell.str "\x7bTV\x7d"), ("extra_people", Cell.str "$5.00"), ("review_scores_rating", Cell.num 95), ("review_scores_accuracy", Cell.num 9), ("review_scores_cleanliness", Cell.num 9), ("review_scores_checkin", Cell.num 9), ("review_scores_communication", Cell.num 9), ("review_scores_location", Cell.num 9), ("review_scores_value", Cell.num 9), ("month", Cell.num 1), ("year", Cell.num 2016), ("price", Cell.num 99), ("host_since_year", Cell.num 2013), ("host_response_rate_buckets", Cell.num 4)]]

/-- Intermediate table of the successful sample run after pipeline step 6
(literal; verified by `goodS6`). -/
def goodT6 : Table :=
  [   [("listing_id", Cell.num 1), ("host_listings_count", Cell.num 1), ("host_verifications", Cell.str "['email']"), ("bathrooms", Cell.num 1), ("bedrooms", Cell.num 1), ("beds", Cell.num 2), ("amenities", Cell.str "\x7bTV,Wifi\x7d"), ("extra_people", Cell.str "$0.00"), ("review_scores_rating", Cell.num 95), ("review_scores_accuracy", Cell.num 9), ("review_scores_cleanliness", Cell.num 9), ("review_scores_checkin", Cell.num 9), ("review_scores_communication", Cell.num 9), ("review_scores_location", Cell.num 9), ("review_scores_value", Cell.num 9), ("month", Cell.num 7), ("year", Cell.num 2016), ("price", Cell.num 150), ("host_since_year", Cell.num 2012), ("host_response_rate_buckets", Cell.num 0)],
     [("listing_id", Cell.num 2), ("host_listings_count", Cell.num 3), ("host_verifications", Cell.str "['phone']"), ("bathrooms", Cell.num 1), ("bedrooms", Cell.num 1), ("beds", Cell.num 1), ("amenities", Cell.str "\x7bTV\x7d"), ("extra_people", Cell.str "$5.00"), ("review_scores_rating", Cell.num 95), ("review_scores_accuracy", Cell.num 9), ("review_scores_cleanliness", Cell.num 9), ("review_scores_checkin", Cell.num 9), ("review_scores_communication", Cell.num 9), ("review_scores_location", Cell.num 9), ("review_scores_value", Cell.num 9), ("month", Cell.num 1), ("year", Cell.num 2016), ("price", Cell.num 99), ("host_since_year", Cell.num 2013), ("host_response_rate_buckets", Cell.num 4)]]

/-- Intermediate table of the successful sample run after pipeline step 7
(literal; verified by `goodS7`). -/
def goodT7 : Table :=
  [   [("listing_id", Cell.num 1), ("host_listings_count", Cell.num 1), ("bathrooms", Cell.num 1), ("bedrooms", Cell.num 1), ("beds", Cell.num 2), ("amenities", Cell.str "\x7bTV,Wifi\x7d"), ("extra_people", Cell.str "$0.00"), ("review_scores_rating", Cell.num 95), ("review_scores_accuracy", Cell.num 9), ("review_scores_cleanliness", Cell.num 9), ("review_scores_checkin", Cell.num 9), ("review_scores_communication", Cell.num 9), ("review_scores_location", Cell.num 9), ("review_scores_value", Cell.num 9), ("month", Cell.num 7), ("year", Cell.num 2016), ("price", Cell.num 150), ("host_since_year", Cell.num 2012), ("host_response_rate_buckets", Cell.num 0), ("host_verifications_email", Cell.num 1), ("host_verifications_phone", Cell.num 0)],
     [("listing_id", Cell.num 2), ("host_listings_count", Cell.num 3), ("bathrooms", Cell.num 1), ("bedrooms", Cell.num 1), ("beds", Cell.num 1), ("amenities", Cell.str "\x7bTV\x7d"), ("extra_people", Cell.str "$5.00"), ("review_scores_rating", Cell.num 95), ("review_scores_accuracy", Cell.num 9), ("review_scores_cleanliness", Cell.num 9), ("review_scores_checkin", Cell.num 9), ("review_scores_communication", Cell.num 9), ("review_scores_location", Cell.num 9), ("review_scores_value", Cell.num 9), ("month", Cell.num 1), ("year", Cell.num 2016), ("price", Cell.num 99), ("host_since_year", Cell.num 2013), ("host_response_rate_buckets", Cell.num 4), ("host_verifications_email", Cell.num 0), ("host_verifications_phone", Cell.num 1)]]

/-- Intermediate table of the successful sample run after pipeline step 8
(literal; verified by `goodS8`). -/
def goodT8 : Table :=
  [   [("listing_id", Cell.num 1), ("host_listings_count", Cell.num 1), ("bathrooms", Cell.num 1), ("bedrooms", Cell.num 1), ("beds", Cell.num 2), ("amenities", Cell.str "\x7bTV,Wifi\x7d"), ("extra_people", Cell.str "$0.00"), ("review_scores_rating", Cell.num 95), ("review_scores_accuracy", Cell.num 9), ("review_scores_cleanliness", Cell.num 9), ("review_scores_checkin", Cell.num 9), ("review_scores_communication", Cell.num 9), ("review_scores_location", Cell.num 9), ("review_scores_value", Cell.num 9), ("month", Cell.num 7), ("year", Cell.num 2016), ("price", Cell.num 150), ("host_since_year", Cell.num 2012), ("host_response_rate_buckets", Cell.num 0), ("host_verifications_email", Cell.num 1), ("host_verifications_phone", Cell.num 0)],
     [("listing_id", Cell.num 2), ("host_listings_count", Cell.num 3), ("bathrooms", Cell.num 1), ("bedrooms", Cell.num 1), ("beds", Cell.num 1), ("amenities", Cell.str "\x7bTV\x7d"), ("extra_people", Cell.str "$5.00"), ("review_scores_rating", Cell.num 95), ("review_scores_accuracy", Cell.num 9), ("review_scores_cleanliness", Cell.num 9), ("review_scores_checkin", Cell.num 9), ("review_scores_communication", Cell.num 9), ("review_scores_location", Cell.num 9), ("review_scores_value", Cell.num 9), ("month", Cell.num 1), ("year", Cell.num 2016), ("price", Cell.num 99), ("host_since_year", Cell.num 2013), ("host_response_rate_buckets", Cell.num 4), ("host_verifications_email", Cell.num 0), ("host_verifications_phone", Cell.num 1)]]

/-- Intermediate table of the successful sample run after pipeline step 9
(literal; verified by `goodS9`). -/
def goodT9 : Table :=
  [   [("listing_id", Cell.num 1), ("host_listings_count", Cell.num 1), ("bathrooms", Cell.num 1), ("bedrooms", Cell.num 1), ("beds", Cell.num 2), ("extra_people", Cell.str "$0.00"), ("review_scores_rating", Cell.num 95), ("review_scores_accuracy", Cell.num 9), ("review_scores_cleanliness", Cell.num 9), ("review_scores_checkin", Cell.num 9), ("review_scores_communication", Cell.num 9), ("review_scores_location", Cell.num 9), ("review_scores_value", Cell.num 9), ("month", Cell.num 7), ("year", Cell.num 2016), ("price", Cell.num 150), ("host_since_year", Cell.num 2012), ("host_response_rate_buckets", Cell.num 0), ("host_verifications_email", Cell.num 1), ("host_verifications_phone", Cell.num 0), ("amenities_TV", Cell.num 1), ("amenities_Wifi", Cell.num 1)],
     [("listing_id", Cell.num 2), ("host_listings_count", Cell.num 3), ("bathrooms", Cell.num 1), ("bedrooms", Cell.num 1), ("beds", Cell.num 1), ("extra_people", Cell.str "$5.00"), ("review_scores_rating", Cell.num 95), ("review_scores_accuracy", Cell.num 9), ("review_scores_cleanliness", Cell.num 9), ("review_scores_checkin", Cell.num 9), ("review_scores_communication", Cell.num 9), ("review_scores_location", Cell.num 9), ("review_scores_value", Cell.num 9), ("month", Cell.num 1), ("year", Cell.num 2016), ("price", Cell.num 99), ("host_since_year", Cell.num 2013), ("host_response_rate_buckets", Cell.num 4), ("host_verifications_email", Cell.num 0), ("host_verifications_phone", Cell.num 1), ("amenities_TV", Cell.num 1), ("amenities_Wifi", Cell.num 0)]]

/-- Intermediate table of the successful sample run after pipeline step 10
(literal; verified by `goodS10`). -/
def goodT10 : Table :=
  [   [("listing_id", Cell.num 1), ("host_listings_count", Cell.num 1), ("bathrooms", Cell.num 1), ("bedrooms", Cell.num 1), ("beds", Cell.num 2), ("review_scores_rating", Cell.num 95), ("review_scores_accuracy", Cell.num 9), ("review_scores_cleanliness", Cell.num 9), ("review_scores_checkin", Cell.num 9), ("review_scores_communication", Cell.num 9), ("review_scores_location", Cell.num 9), ("review_scores_value", Cell.num 9), ("month", Cell.num 7), ("year", Cell.num 2016), ("price", Cell.num 150), ("host_since_year", Cell.num 2012), ("host_response_rate_buckets", Cell.num 0), ("host_verifications_email", Cell.num 1), ("host_verifications_phone", Cell.num 0), ("amenities_TV", Cell.num 1), ("amenities_Wifi", Cell.num 1), ("extra_people_fee", Cell.num 0)],
     [("listing_id", Cell.num 2), ("host_listings_count", Cell.num 3), ("bathrooms", Cell.num 1), ("bedrooms", Cell.num 1), ("beds", Cell.num 1), ("review_scores_rating", Cell.num 95), ("review_scores_accuracy", Cell.num 9), ("review_scores_cleanliness", Cell.num 9), ("review_scores_checkin", Cell.num 9), ("review_scores_communication", Cell.num 9), ("review_scores_location", Cell.num 9), ("review_scores_value", Cell.num 9), ("month", Cell.num 1), ("year", Cell.num 2016), ("price", Cell.num 99), ("host_since_year", Cell.num 2013), ("host_response_rate_buckets", Cell.num 4), ("host_verifications_email", Cell.num 0), ("host_verifications_phone", Cell.num 1), ("amenities_TV", Cell.num 1), ("amenities_Wifi", Cell.num 0), ("extra_people_fee", Cell.num 1)]]

/-- Intermediate table of the negative-price run after pipeline step 1
(literal; verified by `negS1`). -/
def negT1 : Table :=
  [   [("listing_id", Cell.num 1), ("date", Cell.str "2016-07-04"), ("price_x", Cell.str "-$5.00"), ("host_since", Cell.str "2012-05-01"), ("host_response_rate", Cell.str "80%"), ("host_listings_count", Cell.num 1), ("host_verifications", Cell.str "['email']"), ("bathrooms", Cell.num 1), ("bedrooms", Cell.num 1), ("beds", Cell.num 2), ("amenities", Cell.str "\x7bTV,Wifi\x7d"), ("extra_people", Cell.str "$0.00"), ("review_scores_rating", Cell.num 95), ("review_scores_accuracy", Cell.num 9), ("review_scores_cleanliness", Cell.num 9), ("review_scores_checkin", Cell.num 9), ("review_scores_communication", Cell.num 9), ("review_scores_location", Cell.num 9), ("review_scores_value", Cell.num 9)]]

/-- Intermediate table of the negative-price run after pipeline step 2
(literal; verified by `negS2`). -/
def negT2 : Table :=
  [   [("listing_id", Cell.num 1), ("price_x", Cell.str "-$5.00"), ("host_since", Cell.str "2012-05-01"), ("host_response_rate", Cell.str "80%"), ("host_listings_count", Cell.num 1), ("host_verifications", Cell.str "['email']"), ("bathrooms", Cell.num 1), ("bedrooms", Cell.num 1), ("beds", Cell.num 2), ("amenities", Cell.str "\x7bTV,Wifi\x7d"), ("extra_people", Cell.str "$0.00"), ("review_scores_rating", Cell.num 95), ("review_scores_accuracy", Cell.num 9), ("review_scores_cleanliness", Cell.num 9), ("review_scores_checkin", Cell.num 9), ("review_scores_communication", Cell.num 9), ("review_scores_location", Cell.num 9), ("review_scores_value", Cell.num 9), ("month", Cell.num 7), ("year", Cell.num 2016)]]

/-- Intermediate table of the negative-price run after pipeline step 3
(literal; verified by `negS3`). -/
def negT3 : Table :=
  [   [("listing_id", Cell.num 1), ("host_since", Cell.str "2012-05-01"), ("host_response_rate", Cell.str "80%"), ("host_listings_count", Cell.num 1), ("host_verifications", Cell.str "['email']"), ("bathrooms", Cell.num 1), ("bedrooms", Cell.num 1), ("beds", Cell.num 2), ("amenities", Cell.str "\x7bTV,Wifi\x7d"), ("extra_people", Cell.str "$0.00"), ("review_scores_rating", Cell.num 95), ("review_scores_accuracy", Cell.num 9), ("review_scores_cleanliness", Cell.num 9), ("review_scores_checkin", Cell.num 9), ("review_scores_communication", Cell.num 9), ("review_scores_location", Cell.num 9), ("review_scores_value", Cell.num 9), ("month", Cell.num 7), ("year", Cell.num 2016), ("price", Cell.num (-5))]]

/-- Intermediate table of the negative-price run after pipeline step 4
(literal; verified by `negS4`). -/
def negT4 : Table :=
  [   [("listing_id", Cell.num 1), ("host_response_rate", Cell.str "80%"), ("host_listings_count", Cell.num 1), ("host_verifications", Cell.str "['email']"), ("bathrooms", Cell.num 1), ("bedrooms", Cell.num 1), ("beds", Cell.num 2), ("amenities", Cell.str "\x7bTV,Wifi\x7d"), ("extra_people", Cell.str "$0.00"), ("review_scores_rating", Cell.num 95), ("review_scores_accuracy", Cell.num 9), ("review_scores_cleanliness", Cell.num 9), ("review_scores_checkin", Cell.num 9), ("review_scores_communication", Cell.num 9), ("review_scores_location", Cell.num 9), ("review_scores_value", Cell.num 9), ("month", Cell.num 7), ("year", Cell.num 2016), ("price", Cell.num (-5)), ("host_since_year", Cell.num 2012)]]

/-- Intermediate table of the negative-price run after pipeline step 5
(literal; verified by `negS5`). -/
def negT5 : Table :=
  [   [("listing_id", Cell.num 1), ("host_listings_count", Cell.num 1), ("host_verifications", Cell.str "['email']"), ("bathrooms", Cell.num 1), ("bedrooms", Cell.num 1), ("beds", Cell.num 2), ("amenities", Cell.str "\x7bTV,Wifi\x7d"), ("extra_people", Cell.str "$0.00"), ("review_scores_rating", Cell.num 95), ("review_scores_accuracy", Cell.num 9), ("review_scores_cleanliness", Cell.num 9), ("review_scores_checkin", Cell.num 9), ("review_scores_communication", Cell.num 9), ("review_scores_location", Cell.num 9), ("review_scores_value", Cell.num 9), ("month", Cell.num 7), ("year", Cell.num 2016), ("price", Cell.num (-5)), ("host_since_year", Cell.num 2012), ("host_response_rate_buckets", Cell.null)]]

/-- Intermediate table of the negative-price run after pipeline step 6
(literal; verified by `negS6`). -/
def negT6 : Table :=
  [   [("listing_id", Cell.num 1), ("host_listings_count", Cell.num 1), ("host_verifications", Cell.str "['email']"), ("bathrooms", Cell.num 1), ("bedrooms", Cell.num 1), ("beds", Cell.num 2), ("amenities", Cell.str "\x7bTV,Wifi\x7d"), ("extra_people", Cell.str "$0.00"), ("review_scores_rating", Cell.num 95), ("review_scores_accuracy", Cell.num 9), ("review_scores_cleanliness", Cell.num 9), ("review_scores_checkin", Cell.num 9), ("review_scores_communication", Cell.num 9), ("review_scores_location", Cell.num 9), ("review_scores_value", Cell.num 9), ("month", Cell.num 7), ("year", Cell.num 2016), ("price", Cell.num (-5)), ("host_since_year", Cell.num 2012), ("host_response_rate_buckets", Cell.null)]]

/-- Intermediate table of the negative-price run after pipeline step 7
(literal; verified by `negS7`). -/
def negT7 : Table :=
  [   [("listing_id", Cell.num 1), ("host_listings_count", Cell.num 1), ("bathrooms", Cell.num 1), ("bedrooms", Cell.num 1), ("beds", Cell.num 2), ("amenities", Cell.str "\x7bTV,Wifi\x7d"), ("extra_people", Cell.str "$0.00"), ("review_scores_rating", Cell.num 95), ("review_scores_accuracy", Cell.num 9), ("review_scores_cleanliness", Cell.num 9), ("review_scores_checkin", Cell.num 9), ("review_scores_communication", Cell.num 9), ("review_scores_location", Cell.num 9), ("review_scores_value", Cell.num 9), ("month", Cell.num 7), ("year", Cell.num 2016), ("price", Cell.num (-5)), ("host_since_year", Cell.num 2012), ("host_response_rate_buckets", Cell.null), ("host_verifications_email", Cell.num 1)]]

/-- Intermediate table of the negative-price run after pipeline step 8
(literal; verified by `negS8`). -/
def negT8 : Table :=
  [   [("listing_id", Cell.num 1), ("host_listings_count", Cell.num 1), ("bathrooms", Cell.num 1), ("bedrooms", Cell.num 1), ("beds", Cell.num 2), ("amenities", Cell.str "\x7bTV,Wifi\x7d"), ("extra_people", Cell.str "$0.00"), ("review_scores_rating", Cell.num 95), ("review_scores_accuracy", Cell.num 9), ("review_scores_cleanliness", Cell.num 9), ("review_scores_checkin", Cell.num 9), ("review_scores_communication", Cell.num 9), ("review_scores_location", Cell.num 9), ("review_scores_value", Cell.num 9), ("month", Cell.num 7), ("year", Cell.num 2016), ("price", Cell.num (-5)), ("host_since_year", Cell.num 2012), ("host_response_rate_buckets", Cell.null), ("host_verifications_email", Cell.num 1)]]

/-- Intermediate table of the negative-price run after pipeline step 9
(literal; verified by `negS9`). -/
def negT9 : Table :=
  [   [("listing_id", Cell.num 1), ("host_listings_count", Cell.num 1), ("bathrooms", Cell.num 1), ("bedrooms", Cell.num 1), ("beds", Cell.num 2), ("extra_people", Cell.str "$0.00"), ("review_scores_rating", Cell.num 95), ("review_scores_accuracy", Cell.num 9), ("review_scores_cleanliness", Cell.num 9), ("review_scores_checkin", Cell.num 9), ("review_scores_communication", Cell.num 9), ("review_scores_location", Cell.num 9), ("review_scores_value", Cell.num 9), ("month", Cell.num 7), ("year", Cell.num 2016), ("price", Cell.num (-5)), ("host_since_year", Cell.num 2012), ("host_response_rate_buckets", Cell.null), ("host_verifications_email", Cell.num 1), ("amenities_TV", Cell.num 1), ("amenities_Wifi", Cell.num 1)]]

/-- Intermediate table of the negative-price run after pipeline step 10
(literal; verified by `negS10`). -/
def negT10 : Table :=
  [   [("listing_id", Cell.num 1), ("host_listings_count", Cell.num 1), ("bathrooms", Cell.num 1), ("bedrooms", Cell.num 1), ("beds", Cell.num 2), ("review_scores_rating", Cell.num 95), ("review_scores_accuracy", Cell.num 9), ("review_scores_cleanliness", Cell.num 9), ("review_scores_checkin", Cell.num 9), ("review_scores_communication", Cell.num 9), ("review_scores_location", Cell.num 9), ("review_scores_value", Cell.num 9), ("month", Cell.num 7), ("year", Cell.num 2016), ("price", Cell.num (-5)), ("host_since_year", Cell.num 2012), ("host_response_rate_buckets", Cell.null), ("host_verifications_email", Cell.num 1), ("amenities_TV", Cell.num 1), ("amenities_Wifi", Cell.num 1), ("extra_people_fee", Cell.num 0)]]

/-- Intermediate table of the unparseable-host-since run after pipeline step 1
(literal; verified by `bhsS1`). -/
def bhsT1 : Table :=
  [   [("listing_id", Cell.num 1), ("date", Cell.str "2016-07-04"), ("price_x", Cell.str "$150.00"), ("host_since", Cell.str "unknown"), ("host_response_rate", Cell.str "80%"), ("host_listings_count", Cell.num 1), ("host_verifications", Cell.str "['email']"), ("bathrooms", Cell.num 1), ("bedrooms", Cell.num 1), ("beds", Cell.num 2), ("amenities", Cell.str "\x7bTV,Wifi\x7d"), ("extra_people", Cell.str "$0.00"), ("review_scores_rating", Cell.num 95), ("review_scores_accuracy", Cell.num 9), ("review_scores_cleanliness", Cell.num 9), ("review_scores_checkin", Cell.num 9), ("review_scores_communication", Cell.num 9), ("review_scores_location", Cell.num 9), ("review_scores_value", Cell.num 9)],
     [("listing_id", Cell.num 2), ("date", Cell.str "2016-01-02"), ("price_x", Cell.str "$99.00"), ("host_since", Cell.str "2013-07-01"), ("host_response_rate", Cell.str "100%"), ("host_listings_count", Cell.num 3), ("host_verifications", Cell.str "['phone']"), ("bathrooms", Cell.num 1), ("bedrooms", Cell.num 1), ("beds", Cell.num 1), ("amenities", Cell.str "\x7bTV\x7d"), ("extra_people", Cell.str "$5.00"), ("review_scores_rating", Cell.num 95), ("review_scores_accuracy", Cell.num 9), ("review_scores_cleanliness", Cell.num 9), ("review_scores_checkin", Cell.num 9), ("review_scores_communication", Cell.num 9), ("review_scores_location", Cell.num 9), ("review_scores_value", Cell.num 9)]]

/-- Intermediate table of the unparseable-host-since run after pipeline step 2
(literal; verified by `bhsS2`). -/
def bhsT2 : Table :=
  [   [("listing_id", Cell.num 1), ("price_x", Cell.str "$150.00"), ("host_since", Cell.str "unknown"), ("host_response_rate", Cell.str "80%"), ("host_listings_count", Cell.num 1), ("host_verifications", Cell.str "['email']"), ("bathrooms", Cell.num 1), ("bedrooms", Cell.num 1), ("beds", Cell.num 2), ("amenities", Cell.str "\x7bTV,Wifi\x7d"), ("extra_people", Cell.str "$0.00"), ("review_scores_rating", Cell.num 95), ("review_scores_accuracy", Cell.num 9), ("review_scores_cleanliness", Cell.num 9), ("review_scores_checkin", Cell.num 9), ("review_scores_communication", Cell.num 9), ("review_scores_location", Cell.num 9), ("review_scores_value", Cell.num 9), ("month", Cell.num 7), ("year", Cell.num 2016)],
     [("listing_id", Cell.num 2), ("price_x", Cell.str "$99.00"), ("host_since", Cell.str "2013-07-01"), ("host_response_rate", Cell.str "100%"), ("host_listings_count", Cell.num 3), ("host_verifications", Cell.str "['phone']"), ("bathrooms", Cell.num 1), ("bedrooms", Cell.num 1), ("beds", Cell.num 1), ("amenities", Cell.str "\x7bTV\x7d"), ("extra_people", Cell.str "$5.00"), ("review_scores_rating", Cell.num 95), ("review_scores_accuracy", Cell.num 9), ("review_scores_cleanliness", Cell.num 9), ("review_scores_checkin", Cell.num 9), ("review_scores_communication", Cell.num 9), ("review_scores_location", Cell.num 9), ("review_scores_value", Cell.num 9), ("month", Cell.num 1), ("year", Cell.num 2016)]]

/-- Intermediate table of the unparseable-host-since run after pipeline step 3
(literal; verified by `bhsS3`). -/
def bhsT3 : Table :=
  [   [("listing_id", Cell.num 1), ("host_since", Cell.str "unknown"), ("host_response_rate", Cell.str "80%"), ("host_listings_count", Cell.num 1), ("host_verifications", Cell.str "['email']"), ("bathrooms", Cell.num 1), ("bedrooms", Cell.num 1), ("beds", Cell.num 2), ("amenities", Cell.str "\x7bTV,Wifi\x7d"), ("extra_people", Cell.str "$0.00"), ("review_scores_rating", Cell.num 95), ("review_scores_accuracy", Cell.num 9), ("review_scores_cleanliness", Cell.num 9), ("review_scores_checkin", Cell.num 9), ("review_scores_communication", Cell.num 9), ("review_scores_location", Cell.num 9), ("review_scores_value", Cell.num 9), ("month", Cell.num 7), ("year", Cell.num 2016), ("price", Cell.num 150)],
     [("listing_id", Cell.num 2), ("host_since", Cell.str "2013-07-01"), ("host_response_rate", Cell.str "100%"), ("host_listings_count", Cell.num 3), ("host_verifications", Cell.str "['phone']"), ("bathrooms", Cell.num 1), ("bedrooms", Cell.num 1), ("beds", Cell.num 1), ("amenities", Cell.str "\x7bTV\x7d"), ("extra_people", Cell.str "$5.00"), ("review_scores_rating", Cell.num 95), ("review_scores_accuracy", Cell.num 9), ("review_scores_cleanliness", Cell.num 9), ("review_scores_checkin", Cell.num 9), ("review_scores_communication", Cell.num 9), ("review_scores_location", Cell.num 9), ("review_scores_value", Cell.num 9), ("month", Cell.num 1), ("year", Cell.num 2016), ("price", Cell.num 99)]]

/-- Intermediate table of the unparseable-host-since run after pipeline step 4
(literal; verified by `bhsS4`). -/
def bhsT4 : Table :=
  [   [("listing_id", Cell.num 1), ("host_response_rate", Cell.str "80%"), ("host_listings_count", Cell.num 1), ("host_verifications", Cell.str "['email']"), ("bathrooms", Cell.num 1), ("bedrooms", Cell.num 1), ("beds", Cell.num 2), ("amenities", Cell.str "\x7bTV,Wifi\x7d"), ("extra_people", Cell.str "$0.00"), ("review_scores_rating", Cell.num 95), ("review_scores_accuracy", Cell.num 9), ("review_scores_cleanliness", Cell.num 9), ("review_scores_checkin", Cell.num 9), ("review_scores_communication", Cell.num 9), ("review_scores_location", Cell.num 9), ("review_scores_value", Cell.num 9), ("month", Cell.num 7), ("year", Cell.num 2016), ("price", Cell.num 150), ("host_since_year", Cell.num 2013)],
     [("listing_id", Cell.num 2), ("host_response_rate", Cell.str "100%"), ("host_listings_count", Cell.num 3), ("host_verifications", Cell.str "['phone']"), ("bathrooms", Cell.num 1), ("bedrooms", Cell.num 1), ("beds", Cell.num 1), ("amenities", Cell.str "\x7bTV\x7d"), ("extra_people", Cell.str "$5.00"), ("review_scores_rating", Cell.num 95), ("review_scores_accuracy", Cell.num 9), ("review_scores_cleanliness", Cell.num 9), ("review_scores_checkin", Cell.num 9), ("review_scores_communication", Cell.num 9), ("review_scores_location", Cell.num 9), ("review_scores_value", Cell.num 9), ("month", Cell.num 1), ("year", Cell.num 2016), ("price", Cell.num 99), ("host_since_year", Cell.num 2013)]]

/-- Intermediate table of the unparseable-host-since run after pipeline step 5
(literal; verified by `bhsS5`). -/
def bhsT5 : Table :=
  [   [("listing_id", Cell.num 1), ("host_listings_count", Cell.num 1), ("host_verifications", Cell.str "['email']"), ("bathrooms", Cell.num 1), ("bedrooms", Cell.num 1), ("beds", Cell.num 2), ("amenities", Cell.str "\x7bTV,Wifi\x7d"), ("extra_people", Cell.str "$0.00"), ("review_scores_rating", Cell.num 95), ("review_scores_accuracy", Cell.num 9), ("review_scores_cleanliness", Cell.num 9), ("review_scores_checkin", Cell.num 9), ("review_scores_communication", Cell.num 9), ("review_scores_location", Cell.num 9), ("review_scores_value", Cell.num 9), ("month", Cell.num 7), ("year", Cell.num 2016), ("price", Cell.num 150), ("host_since_year", Cell.num 2013), ("host_response_rate_buckets", Cell.num 0)],
     [("listing_id", Cell.num 2), ("host_listings_count", Cell.num 3), ("host_verifications", Cell.str "['phone']"), ("bathrooms", Cell.num 1), ("bedrooms", Cell.num 1), ("beds", Cell.num 1), ("amenities", Cell.str "\x7bTV\x7d"), ("extra_people", Cell.str "$5.00"), ("review_scores_rating", Cell.num 95), ("review_scores_accuracy", Cell.num 9), ("review_scores_cleanliness", Cell.num 9), ("review_scores_checkin", Cell.num 9), ("review_scores_communication", Cell.num 9), ("review_scores_location", Cell.num 9), ("review_scores_value", Cell.num 9), ("month", Cell.num 1), ("year", Cell.num 2016), ("price", Cell.num 99), ("host_since_year", Cell.num 2013), ("host_response_rate_buckets", Cell.num 4)]]

/-- Intermediate table of the unparseable-host-since run after pipeline step 6
(literal; verified by `bhsS6`). -/
def bhsT6 : Table :=
  [   [("listing_id", Cell.num 1), ("host_listings_count", Cell.num 1), ("host_verifications", Cell.str "['email']"), ("bathrooms", Cell.num 1), ("bedrooms", Cell.num 1), ("beds", Cell.num 2), ("amenities", Cell.str "\x7bTV,Wifi\x7d"), ("extra_people", Cell.str "$0.00"), ("review_scores_rating", Cell.num 95), ("review_scores_accuracy", Cell.num 9), ("review_scores_cleanliness", Cell.num 9), ("review_scores_checkin", Cell.num 9), ("review_scores_communication", Cell.num 9), ("review_scores_location", Cell.num 9), ("review_scores_value", Cell.num 9), ("month", Cell.num 7), ("year", Cell.num 2016), ("price", Cell.num 150), ("host_since_year", Cell.num 2013), ("host_response_rate_buckets", Cell.num 0)],
     [("listing_id", Cell.num 2), ("host_listings_count", Cell.num 3), ("host_verifications", Cell.str "['phone']"), ("bathrooms", Cell.num 1), ("bedrooms", Cell.num 1), ("beds", Cell.num 1), ("amenities", Cell.str "\x7bTV\x7d"), ("extra_people", Cell.str "$5.00"), ("review_scores_rating", Cell.num 95), ("review_scores_accuracy", Cell.num 9), ("review_scores_cleanliness", Cell.num 9), ("review_scores_checkin", Cell.num 9), ("review_scores_communication", Cell.num 9), ("review_scores_location", Cell.num 9), ("review_scores_value", Cell.num 9), ("month", Cell.num 1), ("year", Cell.num 2016), ("price", Cell.num 99), ("host_since_year", Cell.num 2013), ("host_response_rate_buckets", Cell.num 4)]]

/-- Intermediate table of the unparseable-host-since run after pipeline step 7
(literal; verified by `bhsS7`). -/
def bhsT7 : Table :=
  [   [("listing_id", Cell.num 1), ("host_listings_count", Cell.num 1), ("bathrooms", Cell.num 1), ("bedrooms", Cell.num 1), ("beds", Cell.num 2), ("amenities", Cell.str "\x7bTV,Wifi\x7d"), ("extra_people", Cell.str "$0.00"), ("review_scores_rating", Cell.num 95), ("review_scores_accuracy", Cell.num 9), ("review_scores_cleanliness", Cell.num 9), ("review_scores_checkin", Cell.num 9), ("review_scores_communication", Cell.num 9), ("review_scores_location", Cell.num 9), ("review_scores_value", Cell.num 9), ("month", Cell.num 7), ("year", Cell.num 2016), ("price", Cell.num 150), ("host_since_year", Cell.num 2013), ("host_response_rate_buckets", Cell.num 0), ("host_verifications_email", Cell.num 1), ("host_verifications_phone", Cell.num 0)],
     [("listing_id", Cell.num 2), ("host_listings_count", Cell.num 3), ("bathrooms", Cell.num 1), ("bedrooms", Cell.num 1), ("beds", Cell.num 1), ("amenities", Cell.str "\x7bTV\x7d"), ("extra_people", Cell.str "$5.00"), ("review_scores_rating", Cell.num 95), ("review_scores_accuracy", Cell.num 9), ("review_scores_cleanliness", Cell.num 9), ("review_scores_checkin", Cell.num 9), ("review_scores_communication", Cell.num 9), ("review_scores_location", Cell.num 9), ("review_scores_value", Cell.num 9), ("month", Cell.num 1), ("year", Cell.num 2016), ("price", Cell.num 99), ("host_since_year", Cell.num 2013), ("host_response_rate_buckets", Cell.num 4), ("host_verifications_email", Cell.num 0), ("host_verifications_phone", Cell.num 1)]]

/-- Intermediate table of the unparseable-host-since run after pipeline step 8
(literal; verified by `bhsS8`). -/
def bhsT8 : Table :=
  [   [("listing_id", Cell.num 1), ("host_listings_count", Cell.num 1), ("bathrooms", Cell.num 1), ("bedrooms", Cell.num 1), ("beds", Cell.num 2), ("amenities", Cell.str "\x7bTV,Wifi\x7d"), ("extra_people", Cell.str "$0.00"), ("review_scores_rating", Cell.num 95), ("review_scores_accuracy", Cell.num 9), ("review_scores_cleanliness", Cell.num 9), ("review_scores_checkin", Cell.num 9), ("review_scores_communication", Cell.num 9), ("review_scores_location", Cell.num 9), ("review_scores_value", Cell.num 9), ("month", Cell.num 7), ("year", Cell.num 2016), ("price", Cell.num 150), ("host_since_year", Cell.num 2013), ("host_response_rate_buckets", Cell.num 0), ("host_verifications_email", Cell.num 1), ("host_verifications_phone", Cell.num 0)],
     [("listing_id", Cell.num 2), ("host_listings_count", Cell.num 3), ("bathrooms", Cell.num 1), ("bedrooms", Cell.num 1), ("beds", Cell.num 1), ("amenities", Cell.str "\x7bTV\x7d"), ("extra_people", Cell.str "$5.00"), ("review_scores_rating", Cell.num 95), ("review_scores_accuracy", Cell.num 9), ("review_scores_cleanliness", Cell.num 9), ("review_scores_checkin", Cell.num 9), ("review_scores_communication", Cell.num 9), ("review_scores_location", Cell.num 9), ("review_scores_value", Cell.num 9), ("month", Cell.num 1), ("year", Cell.num 2016), ("price", Cell.num 99), ("host_since_year", Cell.num 2013), ("host_response_rate_buckets", Cell.num 4), ("host_verifications_email", Cell.num 0), ("host_verifications_phone", Cell.num 1)]]

/-- Intermediate table of the unparseable-host-since run after pipeline step 9
(literal; verified by `bhsS9`). -/
def bhsT9 : Table :=
  [   [("listing_id", Cell.num 1), ("host_listings_count", Cell.num 1), ("bathrooms", Cell.num 1), ("bedrooms", Cell.num 1), ("beds", Cell.num 2), ("extra_people", Cell.str "$0.00"), ("review_scores_rating", Cell.num 95), ("review_scores_accuracy", Cell.num 9), ("review_scores_cleanliness", Cell.num 9), ("review_scores_checkin", Cell.num 9), ("review_scores_communication", Cell.num 9), ("review_scores_location", Cell.num 9), ("review_scores_value", Cell.num 9), ("month", Cell.num 7), ("year", Cell.num 2016), ("price", Cell.num 150), ("host_since_year", Cell.num 2013), ("host_response_rate_buckets", Cell.num 0), ("host_verifications_email", Cell.num 1), ("host_verifications_phone", Cell.num 0), ("amenities_TV", Cell.num 1), ("amenities_Wifi", Cell.num 1)],
     [("listing_id", Cell.num 2), ("host_listings_count", Cell.num 3), ("bathrooms", Cell.num 1), ("bedrooms", Cell.num 1), ("beds", Cell.num 1), ("extra_people", Cell.str "$5.00"), ("review_scores_rating", Cell.num 95), ("review_scores_accuracy", Cell.num 9), ("review_scores_cleanliness", Cell.num 9), ("review_scores_checkin", Cell.num 9), ("review_scores_communication", Cell.num 9), ("review_scores_location", Cell.num 9), ("review_scores_value", Cell.num 9), ("month", Cell.num 1), ("year", Cell.num 2016), ("price", Cell.num 99), ("host_since_year", Cell.num 2013), ("host_response_rate_buckets", Cell.num 4), ("host_verifications_email", Cell.num 0), ("host_verifications_phone", Cell.num 1), ("amenities_TV", Cell.num 1), ("amenities_Wifi", Cell.num 0)]]

/-- Intermediate table of the unparseable-host-since run after pipeline step 10
(literal; verified by `bhsS10`). -/
def bhsT10 : Table :=
  [   [("listing_id", Cell.num 1), ("host_listings_count", Cell.num 1), ("bathrooms", Cell.num 1), ("bedrooms", Cell.num 1), ("beds", Cell.num 2), ("review_scores_rating", Cell.num 95), ("review_scores_accuracy", Cell.num 9), ("review_scores_cleanliness", Cell.num 9), ("review_scores_checkin", Cell.num 9), ("review_scores_communication", Cell.num 9), ("review_scores_location", Cell.num 9), ("review_scores_value", Cell.num 9), ("month", Cell.num 7), ("year", Cell.num 2016), ("price", Cell.num 150), ("host_since_year", Cell.num 2013), ("host_response_rate_buckets", Cell.num 0), ("host_verifications_email", Cell.num 1), ("host_verifications_phone", Cell.num 0), ("amenities_TV", Cell.num 1), ("amenities_Wifi", Cell.num 1), ("extra_people_fee", Cell.num 0)],
     [("listing_id", Cell.num 2), ("host_listings_count", Cell.num 3), ("bathrooms", Cell.num 1), ("bedrooms", Cell.num 1), ("beds", Cell.num 1), ("review_scores_rating", Cell.num 95), ("review_scores_accuracy", Cell.num 9), ("review_scores_cleanliness", Cell.num 9), ("review_scores_checkin", Cell.num 9), ("review_scores_communication", Cell.num 9), ("review_scores_location", Cell.num 9), ("review_scores_value", Cell.num 9), ("month", Cell.num 1), ("year", Cell.num 2016), ("price", Cell.num 99), ("host_since_year", Cell.num 2013), ("host_response_rate_buckets", Cell.num 4), ("host_verifications_email", Cell.num 0), ("host_verifications_phone", Cell.num 1), ("amenities_TV", Cell.num 1), ("amenities_Wifi", Cell.num 0), ("extra_people_fee", Cell.num 1)]]

/-- Intermediate table of the all-null host-listings-count run after pipeline step 1
(literal; verified by `nhlcS1`). -/
def nhlcT1 : Table :=
  [   [("listing_id", Cell.num 1), ("date", Cell.str "2016-07-04"), ("price_x", Cell.str "$150.00"), ("host_since", Cell.str "2012-05-01"), ("host_response_rate", Cell.str "80%"), ("host_listings_count", Cell.null), ("host_verifications", Cell.str "['email']"), ("bathrooms", Cell.num 1), ("bedrooms", Cell.num 1), ("beds", Cell.num 2), ("amenities", Cell.str "\x7bTV,Wifi\x7d"), ("extra_people", Cell.str "$0.00"), ("review_scores_rating", Cell.num 95), ("review_scores_accuracy", Cell.num 9), ("review_scores_cleanliness", Cell.num 9), ("review_scores_checkin", Cell.num 9), ("review_scores_communication", Cell.num 9), ("review_scores_location", Cell.num 9), ("review_scores_value", Cell.num 9)]]

/-- Intermediate table of the all-null host-listings-count run after pipeline step 2
(literal; verified by `nhlcS2`). -/
def nhlcT2 : Table :=
  [   [("listing_id", Cell.num 1), ("price_x", Cell.str "$150.00"), ("host_since", Cell.str "2012-05-01"), ("host_response_rate", Cell.str "80%"), ("host_listings_count", Cell.null), ("host_verifications", Cell.str "['email']"), ("bathrooms", Cell.num 1), ("bedrooms", Cell.num 1), ("beds", Cell.num 2), ("amenities", Cell.str "\x7bTV,Wifi\x7d"), ("extra_people", Cell.str "$0.00"), ("review_scores_rating", Cell.num 95), ("review_scores_accuracy", Cell.num 9), ("review_scores_cleanliness", Cell.num 9), ("review_scores_checkin", Cell.num 9), ("review_scores_communication", Cell.num 9), ("review_scores_location", Cell.num 9), ("review_scores_value", Cell.num 9), ("month", Cell.num 7), ("year", Cell.num 2016)]]

/-- Intermediate table of the all-null host-listings-count run after pipeline step 3
(literal; verified by `nhlcS3`). -/
def nhlcT3 : Table :=
  [   [("listing_id", Cell.num 1), ("host_since", Cell.str "2012-05-01"), ("host_response_rate", Cell.str "80%"), ("host_listings_count", Cell.null), ("host_verifications", Cell.str "['email']"), ("bathrooms", Cell.num 1), ("bedrooms", Cell.num 1), ("beds", Cell.num 2), ("amenities", Cell.str "\x7bTV,Wifi\x7d"), ("extra_people", Cell.str "$0.00"), ("review_scores_rating", Cell.num 95), ("review_scores_accuracy", Cell.num 9), ("review_scores_cleanliness", Cell.num 9), ("review_scores_checkin", Cell.num 9), ("review_scores_communication", Cell.num 9), ("review_scores_location", Cell.num 9), ("review_scores_value", Cell.num 9), ("month", Cell.num 7), ("year", Cell.num 2016), ("price", Cell.num 150)]]

/-- Intermediate table of the all-null host-listings-count run after pipeline step 4
(literal; verified by `nhlcS4`). -/
def nhlcT4 : Table :=
  [   [("listing_id", Cell.num 1), ("host_response_rate", Cell.str "80%"), ("host_listings_count", Cell.null), ("host_verifications", Cell.str "['email']"), ("bathrooms", Cell.num 1), ("bedrooms", Cell.num 1), ("beds", Cell.num 2), ("amenities", Cell.str "\x7bTV,Wifi\x7d"), ("extra_people", Cell.str "$0.00"), ("review_scores_rating", Cell.num 95), ("review_scores_accuracy", Cell.num 9), ("review_scores_cleanliness", Cell.num 9), ("review_scores_checkin", Cell.num 9), ("review_scores_communication", Cell.num 9), ("review_scores_location", Cell.num 9), ("review_scores_value", Cell.num 9), ("month", Cell.num 7), ("year", Cell.num 2016), ("price", Cell.num 150), ("host_since_year", Cell.num 2012)]]

/-- Intermediate table of the all-null host-listings-count run after pipeline step 5
(literal; verified by `nhlcS5`). -/
def nhlcT5 : Table :=
  [   [("listing_id", Cell.num 1), ("host_listings_count", Cell.null), ("host_verifications", Cell.str "['email']"), ("bathrooms", Cell.num 1), ("bedrooms", Cell.num 1), ("beds", Cell.num 2), ("amenities", Cell.str "\x7bTV,Wifi\x7d"), ("extra_people", Cell.str "$0.00"), ("review_scores_rating", Cell.num 95), ("review_scores_accuracy", Cell.num 9), ("review_scores_cleanliness", Cell.num 9), ("review_scores_checkin", Cell.num 9), ("review_scores_communication", Cell.num 9), ("review_scores_location", Cell.num 9), ("review_scores_value", Cell.num 9), ("month", Cell.num 7), ("year", Cell.num 2016), ("price", Cell.num 150), ("host_since_year", Cell.num 2012), ("host_response_rate_buckets", Cell.null)]]

/-- Intermediate table of the all-null host-listings-count run after pipeline step 6
(literal; verified by `nhlcS6`). -/
def nhlcT6 : Table :=
  [   [("listing_id", Cell.num 1), ("host_listings_count", Cell.null), ("host_verifications", Cell.str "['email']"), ("bathrooms", Cell.num 1), ("bedrooms", Cell.num 1), ("beds", Cell.num 2), ("amenities", Cell.str "\x7bTV,Wifi\x7d"), ("extra_people", Cell.str "$0.00"), ("review_scores_rating", Cell.num 95), ("review_scores_accuracy", Cell.num 9), ("review_scores_cleanliness", Cell.num 9), ("review_scores_checkin", Cell.num 9), ("review_scores_communication", Cell.num 9), ("review_scores_location", Cell.num 9), ("review_scores_value", Cell.num 9), ("month", Cell.num 7), ("year", Cell.num 2016), ("price", Cell.num 150), ("host_since_year", Cell.num 2012), ("host_response_rate_buckets", Cell.null)]]

/-- Intermediate table of the all-null host-listings-count run after pipeline step 7
(literal; verified by `nhlcS7`). -/
def nhlcT7 : Table :=
  [   [("listing_id", Cell.num 1), ("host_listings_count", Cell.null), ("bathrooms", Cell.num 1), ("bedrooms", Cell.num 1), ("beds", Cell.num 2), ("amenities", Cell.str "\x7bTV,Wifi\x7d"), ("extra_people", Cell.str "$0.00"), ("review_scores_rating", Cell.num 95), ("review_scores_accuracy", Cell.num 9), ("review_scores_cleanliness", Cell.num 9), ("review_scores_checkin", Cell.num 9), ("review_scores_communication", Cell.num 9), ("review_scores_location", Cell.num 9), ("review_scores_value", Cell.num 9), ("month", Cell.num 7), ("year", Cell.num 2016), ("price", Cell.num 150), ("host_since_year", Cell.num 2012), ("host_response_rate_buckets", Cell.null), ("host_verifications_email", Cell.num 1)]]

/-- Intermediate table of the all-null host-listings-count run after pipeline step 8
(literal; verified by `nhlcS8`). -/
def nhlcT8 : Table :=
  [   [("listing_id", Cell.num 1), ("host_listings_count", Cell.null), ("bathrooms", Cell.num 1), ("bedrooms", Cell.num 1), ("beds", Cell.num 2), ("amenities", Cell.str "\x7bTV,Wifi\x7d"), ("extra_people", Cell.str "$0.00"), ("review_scores_rating", Cell.num 95), ("review_scores_accuracy", Cell.num 9), ("review_scores_cleanliness", Cell.num 9), ("review_scores_checkin", Cell.num 9), ("review_scores_communication", Cell.num 9), ("review_scores_location", Cell.num 9), ("review_scores_value", Cell.num 9), ("month", Cell.num 7), ("year", Cell.num 2016), ("price", Cell.num 150), ("host_since_year", Cell.num 2012), ("host_response_rate_buckets", Cell.null), ("host_verifications_email", Cell.num 1)]]

/-- Intermediate table of the all-null host-listings-count run after pipeline step 9
(literal; verified by `nhlcS9`). -/
def nhlcT9 : Table :=
  [   [("listing_id", Cell.num 1), ("host_listings_count", Cell.null), ("bathrooms", Cell.num 1), ("bedrooms", Cell.num 1), ("beds", Cell.num 2), ("extra_people", Cell.str "$0.00"), ("review_scores_rating", Cell.num 95), ("review_scores_accuracy", Cell.num 9), ("review_scores_cleanliness", Cell.num 9), ("review_scores_checkin", Cell.num 9), ("review_scores_communication", Cell.num 9), ("review_scores_location", Cell.num 9), ("review_scores_value", Cell.num 9), ("month", Cell.num 7), ("year", Cell.num 2016), ("price", Cell.num 150), ("host_since_year", Cell.num 2012), ("host_response_rate_buckets", Cell.null), ("host_verifications_email", Cell.num 1), ("amenities_TV", Cell.num 1), ("amenities_Wifi", Cell.num 1)]]

/-- Intermediate table of the all-null host-listings-count run after pipeline step 10
(literal; verified by `nhlcS10`). -/
def nhlcT10 : Table :=
  [   [("listing_id", Cell.num 1), ("host_listings_count", Cell.null), ("bathrooms", Cell.num 1), ("bedrooms", Cell.num 1), ("beds", Cell.num 2), ("review_scores_rating", Cell.num 95), ("review_scores_accuracy", Cell.num 9), ("review_scores_cleanliness", Cell.num 9), ("review_scores_checkin", Cell.num 9), ("review_scores_communication", Cell.num 9), ("review_scores_location", Cell.num 9), ("review_scores_value", Cell.num 9), ("month", Cell.num 7), ("year", Cell.num 2016), ("price", Cell.num 150), ("host_since_year", Cell.num 2012), ("host_response_rate_buckets", Cell.null), ("host_verifications_email", Cell.num 1), ("amenities_TV", Cell.num 1), ("amenities_Wifi", Cell.num 1), ("extra_people_fee", Cell.num 0)]]

/-- Intermediate table of the unparseable-response-rate run after pipeline step 1
(literal; verified by `badRateS1`). -/
def brT1 : Table :=
  [   [("listing_id", Cell.num 1), ("date", Cell.str "2016-07-04"), ("price_x", Cell.str "$150.00"), ("host_since", Cell.str "2012-05-01"), ("host_response_rate", Cell.str "abc"), ("host_listings_count", Cell.num 1), ("host_verifications", Cell.str "['email']"), ("bathrooms", Cell.num 1), ("bedrooms", Cell.num 1), ("beds", Cell.num 2), ("amenities", Cell.str "\x7bTV,Wifi\x7d"), ("extra_people", Cell.str "$0.00"), ("review_scores_rating", Cell.num 95), ("review_scores_accuracy", Cell.num 9), ("review_scores_cleanliness", Cell.num 9), ("review_scores_checkin", Cell.num 9), ("review_scores_communication", Cell.num 9), ("review_scores_location", Cell.num 9), ("review_scores_value", Cell.num 9)]]

/-- Intermediate table of the unparseable-response-rate run after pipeline step 2
(literal; verified by `badRateS2`). -/
def brT2 : Table :=
  [   [("listing_id", Cell.num 1), ("price_x", Cell.str "$150.00"), ("host_since", Cell.str "2012-05-01"), ("host_response_rate", Cell.str "abc"), ("host_listings_count", Cell.num 1), ("host_verifications", Cell.str "['email']"), ("bathrooms", Cell.num 1), ("bedrooms", Cell.num 1), ("beds", Cell.num 2), ("amenities", Cell.str "\x7bTV,Wifi\x7d"), ("extra_people", Cell.str "$0.00"), ("review_scores_rating", Cell.num 95), ("review_scores_accuracy", Cell.num 9), ("review_scores_cleanliness", Cell.num 9), ("review_scores_checkin", Cell.num 9), ("review_scores_communication", Cell.num 9), ("review_scores_location", Cell.num 9), ("review_scores_value", Cell.num 9), ("month", Cell.num 7), ("year", Cell.num 2016)]]

/-- Intermediate table of the unparseable-response-rate run after pipeline step 3
(literal; verified by `badRateS3`). -/
def brT3 : Table :=
  [   [("listing_id", Cell.num 1), ("host_since", Cell.str "2012-05-01"), ("host_response_rate", Cell.str "abc"), ("host_listings_count", Cell.num 1), ("host_verifications", Cell.str "['email']"), ("bathrooms", Cell.num 1), ("bedrooms", Cell.num 1), ("beds", Cell.num 2), ("amenities", Cell.str "\x7bTV,Wifi\x7d"), ("extra_people", Cell.str "$0.00"), ("review_scores_rating", Cell.num 95), ("review_scores_accuracy", Cell.num 9), ("review_scores_cleanliness", Cell.num 9), ("review_scores_checkin", Cell.num 9), ("review_scores_communication", Cell.num 9), ("review_scores_location", Cell.num 9), ("review_scores_value", Cell.num 9), ("month", Cell.num 7), ("year", Cell.num 2016), ("price", Cell.num 150)]]

/-- Intermediate table of the unparseable-response-rate run after pipeline step 4
(literal; verified by `badRateS4`). -/
def brT4 : Table :=
  [   [("listing_id", Cell.num 1), ("host_response_rate", Cell.str "abc"), ("host_listings_count", Cell.num 1), ("host_verifications", Cell.str "['email']"), ("bathrooms", Cell.num 1), ("bedrooms", Cell.num 1), ("beds", Cell.num 2), ("amenities", Cell.str "\x7bTV,Wifi\x7d"), ("extra_people", Cell.str "$0.00"), ("review_scores_rating", Cell.num 95), ("review_scores_accuracy", Cell.num 9), ("review_scores_cleanliness", Cell.num 9), ("review_scores_checkin", Cell.num 9), ("review_scores_communication", Cell.num 9), ("review_scores_location", Cell.num 9), ("review_scores_value", Cell.num 9), ("month", Cell.num 7), ("year", Cell.num 2016), ("price", Cell.num 150), ("host_since_year", Cell.num 2012)]]

/-- Intermediate table of the unparseable-price run after pipeline step 1
(literal; verified by `badPriceS1`). -/
def bpT1 : Table :=
  [   [("listing_id", Cell.num 1), ("date", Cell.str "2016-07-04"), ("price_x", Cell.str "abc"), ("host_since", Cell.str "2012-05-01"), ("host_response_rate", Cell.str "80%"), ("host_listings_count", Cell.num 1), ("host_verifications", Cell.str "['email']"), ("bathrooms", Cell.num 1), ("bedrooms", Cell.num 1), ("beds", Cell.num 2), ("amenities", Cell.str "\x7bTV,Wifi\x7d"), ("extra_people", Cell.str "$0.00"), ("review_scores_rating", Cell.num 95), ("review_scores_accuracy", Cell.num 9), ("review_scores_cleanliness", Cell.num 9), ("review_scores_checkin", Cell.num 9), ("review_scores_communication", Cell.num 9), ("review_scores_location", Cell.num 9), ("review_scores_value", Cell.num 9)]]

/-- Intermediate table of the unparseable-price run after pipeline step 2
(literal; verified by `badPriceS2`). -/
def bpT2 : Table :=
  [   [("listing_id", Cell.num 1), ("price_x", Cell.str "abc"), ("host_since", Cell.str "2012-05-01"), ("host_response_rate", Cell.str "80%"), ("host_listings_count", Cell.num 1), ("host_verifications", Cell.str "['email']"), ("bathrooms", Cell.num 1), ("bedrooms", Cell.num 1), ("beds", Cell.num 2), ("amenities", Cell.str "\x7bTV,Wifi\x7d"), ("extra_people", Cell.str "$0.00"), ("review_scores_rating", Cell.num 95), ("review_scores_accuracy", Cell.num 9), ("review_scores_cleanliness", Cell.num 9), ("review_scores_checkin", Cell.num 9), ("review_scores_communication", Cell.num 9), ("review_scores_location", Cell.num 9), ("review_scores_value", Cell.num 9), ("month", Cell.num 7), ("year", Cell.num 2016)]]

/-- Intermediate table of the unparseable-date run after pipeline step 1
(literal; verified by `badDateS1`). -/
def bdT1 : Table :=
  [   [("listing_id", Cell.num 1), ("date", Cell.str "July 4"), ("price_x", Cell.str "$150.00"), ("host_since", Cell.str "2012-05-01"), ("host_response_rate", Cell.str "80%"), ("host_listings_count", Cell.num 1), ("host_verifications", Cell.str "['email']"), ("bathrooms", Cell.num 1), ("bedrooms", Cell.num 1), ("beds", Cell.num 2), ("amenities", Cell.str "\x7bTV,Wifi\x7d"), ("extra_people", Cell.str "$0.00"), ("review_scores_rating", Cell.num 95), ("review_scores_accuracy", Cell.num 9), ("review_scores_cleanliness", Cell.num 9), ("review_scores_checkin", Cell.num 9), ("review_scores_communication", Cell.num 9), ("review_scores_location", Cell.num 9), ("review_scores_value", Cell.num 9)]]

/-- Intermediate table of the string-bathrooms run after pipeline step 1
(literal; verified by `sbS1`). -/
def sbT1 : Table :=
  [   [("listing_id", Cell.num 1), ("date", Cell.str "2016-07-04"), ("price_x", Cell.str "$150.00"), ("host_since", Cell.str "2012-05-01"), ("host_response_rate", Cell.str "80%"), ("host_listings_count", Cell.num 1), ("host_verifications", Cell.str "['email']"), ("bathrooms", Cell.str "2"), ("bedrooms", Cell.str "2"), ("beds", Cell.num 2), ("amenities", Cell.str "\x7bTV,Wifi\x7d"), ("extra_people", Cell.str "$0.00"), ("review_scores_rating", Cell.num 95), ("review_scores_accuracy", Cell.num 9), ("review_scores_cleanliness", Cell.num 9), ("review_scores_checkin", Cell.num 9), ("review_scores_communication", Cell.num 9), ("review_scores_location", Cell.num 9), ("review_scores_value", Cell.num 9)],
     [("listing_id", Cell.num 2), ("date", Cell.str "2016-01-02"), ("price_x", Cell.str "$99.00"), ("host_since", Cell.str "2013-07-01"), ("host_response_rate", Cell.str "100%"), ("host_listings_count", Cell.num 3), ("host_verifications", Cell.str "['phone']"), ("bathrooms", Cell.null), ("bedrooms", Cell.null), ("beds", Cell.num 1), ("amenities", Cell.str "\x7bTV\x7d"), ("extra_people", Cell.str "$5.00"), ("review_scores_rating", Cell.num 95), ("review_scores_accuracy", Cell.num 9), ("review_scores_cleanliness", Cell.num 9), ("review_scores_checkin", Cell.num 9), ("review_scores_communication", Cell.num 9), ("review_scores_location", Cell.num 9), ("review_scores_value", Cell.num 9)]]

/-- Intermediate table of the string-bathrooms run after pipeline step 2
(literal; verified by `sbS2`). -/
def sbT2 : Table :=
  [   [("listing_id", Cell.num 1), ("price_x", Cell.str "$150.00"), ("host_since", Cell.str "2012-05-01"), ("host_response_rate", Cell.str "80%"), ("host_listings_count", Cell.num 1), ("host_verifications", Cell.str "['email']"), ("bathrooms", Cell.str "2"), ("bedrooms", Cell.str "2"), ("beds", Cell.num 2), ("amenities", Cell.str "\x7bTV,Wifi\x7d"), ("extra_people", Cell.str "$0.00"), ("review_scores_rating", Cell.num 95), ("review_scores_accuracy", Cell.num 9), ("review_scores_cleanliness", Cell.num 9), ("review_scores_checkin", Cell.num 9), ("review_scores_communication", Cell.num 9), ("review_scores_location", Cell.num 9), ("review_scores_value", Cell.num 9), ("month", Cell.num 7), ("year", Cell.num 2016)],
     [("listing_id", Cell.num 2), ("price_x", Cell.str "$99.00"), ("host_since", Cell.str "2013-07-01"), ("host_response_rate", Cell.str "100%"), ("host_listings_count", Cell.num 3), ("host_verifications", Cell.str "['phone']"), ("bathrooms", Cell.null), ("bedrooms", Cell.null), ("beds", Cell.num 1), ("amenities", Cell.str "\x7bTV\x7d"), ("extra_people", Cell.str "$5.00"), ("review_scores_rating", Cell.num 95), ("review_scores_accuracy", Cell.num 9), ("review_scores_cleanliness", Cell.num 9), ("review_scores_checkin", Cell.num 9), ("review_scores_communication", Cell.num 9), ("review_scores_location", Cell.num 9), ("review_scores_value", Cell.num 9), ("month", Cell.num 1), ("year", Cell.num 2016)]]

/-- Intermediate table of the string-bathrooms run after pipeline step 3
(literal; verified by `sbS3`). -/
def sbT3 : Table :=
  [   [("listing_id", Cell.num 1), ("host_since", Cell.str "2012-05-01"), ("host_response_rate", Cell.str "80%"), ("host_listings_count", Cell.num 1), ("host_verifications", Cell.str "['email']"), ("bathrooms", Cell.str "2"), ("bedrooms", Cell.str "2"), ("beds", Cell.num 2), ("amenities", Cell.str "\x7bTV,Wifi\x7d"), ("extra_people", Cell.str "$0.00"), ("review_scores_rating", Cell.num 95), ("review_scores_accuracy", Cell.num 9), ("review_scores_cleanliness", Cell.num 9), ("review_scores_checkin", Cell.num 9), ("review_scores_communication", Cell.num 9), ("review_scores_location", Cell.num 9), ("review_scores_value", Cell.num 9), ("month", Cell.num 7), ("year", Cell.num 2016), ("price", Cell.num 150)],
     [("listing_id", Cell.num 2), ("host_since", Cell.str "2013-07-01"), ("host_response_rate", Cell.str "100%"), ("host_listings_count", Cell.num 3), ("host_verifications", Cell.str "['phone']"), ("bathrooms", Cell.null), ("bedrooms", Cell.null), ("beds", Cell.num 1), ("amenities", Cell.str "\x7bTV\x7d"), ("extra_people", Cell.str "$5.00"), ("review_scores_rating", Cell.num 95), ("review_scores_accuracy", Cell.num 9), ("review_scores_cleanliness", Cell.num 9), ("review_scores_checkin", Cell.num 9), ("review_scores_communication", Cell.num 9), ("review_scores_location", Cell.num 9), ("review_scores_value", Cell.num 9), ("month", Cell.num 1), ("year", Cell.num 2016), ("price", Cell.num 99)]]

/-- Intermediate table of the string-bathrooms run after pipeline step 4
(literal; verified by `sbS4`). -/
def sbT4 : Table :=
  [   [("listing_id", Cell.num 1), ("host_response_rate", Cell.str "80%"), ("host_listings_count", Cell.num 1), ("host_verifications", Cell.str "['email']"), ("bathrooms", Cell.str "2"), ("bedrooms", Cell.str "2"), ("beds", Cell.num 2), ("amenities", Cell.str "\x7bTV,Wifi\x7d"), ("extra_people", Cell.str "$0.00"), ("review_scores_rating", Cell.num 95), ("review_scores_accuracy", Cell.num 9), ("review_scores_cleanliness", Cell.num 9), ("review_scores_checkin", Cell.num 9), ("review_scores_communication", Cell.num 9), ("review_scores_location", Cell.num 9), ("review_scores_value", Cell.num 9), ("month", Cell.num 7), ("year", Cell.num 2016), ("price", Cell.num 150), ("host_since_year", Cell.num 2012)],
     [("listing_id", Cell.num 2), ("host_response_rate", Cell.str "100%"), ("host_listings_count", Cell.num 3), ("host_verifications", Cell.str "['phone']"), ("bathrooms", Cell.null), ("bedrooms", Cell.null), ("beds", Cell.num 1), ("amenities", Cell.str "\x7bTV\x7d"), ("extra_people", Cell.str "$5.00"), ("review_scores_rating", Cell.num 95), ("review_scores_accuracy", Cell.num 9), ("review_scores_cleanliness", Cell.num 9), ("review_scores_checkin", Cell.num 9), ("review_scores_communication", Cell.num 9), ("review_scores_location", Cell.num 9), ("review_scores_value", Cell.num 9), ("month", Cell.num 1), ("year", Cell.num 2016), ("price", Cell.num 99), ("host_since_year", Cell.num 2013)]]

/-- Intermediate table of the string-bathrooms run after pipeline step 5
(literal; verified by `sbS5`). -/
def sbT5 : Table :=
  [   [("listing_id", Cell.num 1), ("host_listings_count", Cell.num 1), ("host_verifications", Cell.str "['email']"), ("bathrooms", Cell.str "2"), ("bedrooms", Cell.str "2"), ("beds", Cell.num 2), ("amenities", Cell.str "\x7bTV,Wifi\x7d"), ("extra_people", Cell.str "$0.00"), ("review_scores_rating", Cell.num 95), ("review_scores_accuracy", Cell.num 9), ("review_scores_cleanliness", Cell.num 9), ("review_scores_checkin", Cell.num 9), ("review_scores_communication", Cell.num 9), ("review_scores_location", Cell.num 9), ("review_scores_value", Cell.num 9), ("month", Cell.num 7), ("year", Cell.num 2016), ("price", Cell.num 150), ("host_since_year", Cell.num 2012), ("host_response_rate_buckets", Cell.num 0)],
     [("listing_id", Cell.num 2), ("host_listings_count", Cell.num 3), ("host_verifications", Cell.str "['phone']"), ("bathrooms", Cell.null), ("bedrooms", Cell.null), ("beds", Cell.num 1), ("amenities", Cell.str "\x7bTV\x7d"), ("extra_people", Cell.str "$5.00"), ("review_scores_rating", Cell.num 95), ("review_scores_accuracy", Cell.num 9), ("review_scores_cleanliness", Cell.num 9), ("review_scores_checkin", Cell.num 9), ("review_scores_communication", Cell.num 9), ("review_scores_location", Cell.num 9), ("review_scores_value", Cell.num 9), ("month", Cell.num 1), ("year", Cell.num 2016), ("price", Cell.num 99), ("host_since_year", Cell.num 2013), ("host_response_rate_buckets", Cell.num 4)]]

/-- Intermediate table of the string-bathrooms run after pipeline step 6
(literal; verified by `sbS6`). -/
def sbT6 : Table :=
  [   [("listing_id", Cell.num 1), ("host_listings_count", Cell.num 1), ("host_verifications", Cell.str "['email']"), ("bathrooms", Cell.str "2"), ("bedrooms", Cell.str "2"), ("beds", Cell.num 2), ("amenities", Cell.str "\x7bTV,Wifi\x7d"), ("extra_people", Cell.str "$0.00"), ("review_scores_rating", Cell.num 95), ("review_scores_accuracy", Cell.num 9), ("review_scores_cleanliness", Cell.num 9), ("review_scores_checkin", Cell.num 9), ("review_scores_communication", Cell.num 9), ("review_scores_location", Cell.num 9), ("review_scores_value", Cell.num 9), ("month", Cell.num 7), ("year", Cell.num 2016), ("price", Cell.num 150), ("host_since_year", Cell.num 2012), ("host_response_rate_buckets", Cell.num 0)],
     [("listing_id", Cell.num 2), ("host_listings_count", Cell.num 3), ("host_verifications", Cell.str "['phone']"), ("bathrooms", Cell.null), ("bedrooms", Cell.null), ("beds", Cell.num 1), ("amenities", Cell.str "\x7bTV\x7d"), ("extra_people", Cell.str "$5.00"), ("review_scores_rating", Cell.num 95), ("review_scores_accuracy", Cell.num 9), ("review_scores_cleanliness", Cell.num 9), ("review_scores_checkin", Cell.num 9), ("review_scores_communication", Cell.num 9), ("review_scores_location", Cell.num 9), ("review_scores_value", Cell.num 9), ("month", Cell.num 1), ("year", Cell.num 2016), ("price", Cell.num 99), ("host_since_year", Cell.num 2013), ("host_response_rate_buckets", Cell.num 4)]]

/-- Intermediate table of the string-bathrooms run after pipeline step 7
(literal; verified by `sbS7`). -/
def sbT7 : Table :=
  [   [("listing_id", Cell.num 1), ("host_listings_count", Cell.num 1), ("bathrooms", Cell.str "2"), ("bedrooms", Cell.str "2"), ("beds", Cell.num 2), ("amenities", Cell.str "\x7bTV,Wifi\x7d"), ("extra_people", Cell.str "$0.00"), ("review_scores_rating", Cell.num 95), ("review_scores_accuracy", Cell.num 9), ("review_scores_cleanliness", Cell.num 9), ("review_scores_checkin", Cell.num 9), ("review_scores_communication", Cell.num 9), ("review_scores_location", Cell.num 9), ("review_scores_value", Cell.num 9), ("month", Cell.num 7), ("year", Cell.num 2016), ("price", Cell.num 150), ("host_since_year", Cell.num 2012), ("host_response_rate_buckets", Cell.num 0), ("host_verifications_email", Cell.num 1), ("host_verifications_phone", Cell.num 0)],
     [("listing_id", Cell.num 2), ("host_listings_count", Cell.num 3), ("bathrooms", Cell.null), ("bedrooms", Cell.null), ("beds", Cell.num 1), ("amenities", Cell.str "\x7bTV\x7d"), ("extra_people", Cell.str "$5.00"), ("review_scores_rating", Cell.num 95), ("review_scores_accuracy", Cell.num 9), ("review_scores_cleanliness", Cell.num 9), ("review_scores_checkin", Cell.num 9), ("review_scores_communication", Cell.num 9), ("review_scores_location", Cell.num 9), ("review_scores_value", Cell.num 9), ("month", Cell.num 1), ("year", Cell.num 2016), ("price", Cell.num 99), ("host_since_year", Cell.num 2013), ("host_response_rate_buckets", Cell.num 4), ("host_verifications_email", Cell.num 0), ("host_verifications_phone", Cell.num 1)]]

/-- Intermediate table of the string-bathrooms run after pipeline step 8
(literal; verified by `sbS8`). -/
def sbT8 : Table :=
  [   [("listing_id", Cell.num 1), ("host_listings_count", Cell.num 1), ("bathrooms", Cell.str "2"), ("bedrooms", Cell.str "2"), ("beds", Cell.num 2), ("amenities", Cell.str "\x7bTV,Wifi\x7d"), ("extra_people", Cell.str "$0.00"), ("review_scores_rating", Cell.num 95), ("review_scores_accuracy", Cell.num 9), ("review_scores_cleanliness", Cell.num 9), ("review_scores_checkin", Cell.num 9), ("review_scores_communication", Cell.num 9), ("review_scores_location", Cell.num 9), ("review_scores_value", Cell.num 9), ("month", Cell.num 7), ("year", Cell.num 2016), ("price", Cell.num 150), ("host_since_year", Cell.num 2012), ("host_response_rate_buckets", Cell.num 0), ("host_verifications_email", Cell.num 1), ("host_verifications_phone", Cell.num 0)],
     [("listing_id", Cell.num 2), ("host_listings_count", Cell.num 3), ("bathrooms", Cell.str "2"), ("bedrooms", Cell.str "2"), ("beds", Cell.num 1), ("amenities", Cell.str "\x7bTV\x7d"), ("extra_people", Cell.str "$5.00"), ("review_scores_rating", Cell.num 95), ("review_scores_accuracy", Cell.num 9), ("review_scores_cleanliness", Cell.num 9), ("review_scores_checkin", Cell.num 9), ("review_scores_communication", Cell.num 9), ("review_scores_location", Cell.num 9), ("review_scores_value", Cell.num 9), ("month", Cell.num 1), ("year", Cell.num 2016), ("price", Cell.num 99), ("host_since_year", Cell.num 2013), ("host_response_rate_buckets", Cell.num 4), ("host_verifications_email", Cell.num 0), ("host_verifications_phone", Cell.num 1)]]

/-- Intermediate table of the string-bathrooms run after pipeline step 9
(literal; verified by `sbS9`). -/
def sbT9 : Table :=
  [   [("listing_id", Cell.num 1), ("host_listings_count", Cell.num 1), ("bathrooms", Cell.str "2"), ("bedrooms", Cell.str "2"), ("beds", Cell.num 2), ("extra_people", Cell.str "$0.00"), ("review_scores_rating", Cell.num 95), ("review_scores_accuracy", Cell.num 9), ("review_scores_cleanliness", Cell.num 9), ("review_scores_checkin", Cell.num 9), ("review_scores_communication", Cell.num 9), ("review_scores_location", Cell.num 9), ("review_scores_value", Cell.num 9), ("month", Cell.num 7), ("year", Cell.num 2016), ("price", Cell.num 150), ("host_since_year", Cell.num 2012), ("host_response_rate_buckets", Cell.num 0), ("host_verifications_email", Cell.num 1), ("host_verifications_phone", Cell.num 0), ("amenities_TV", Cell.num 1), ("amenities_Wifi", Cell.num 1)],
     [("listing_id", Cell.num 2), ("host_listings_count", Cell.num 3), ("bathrooms", Cell.str "2"), ("bedrooms", Cell.str "2"), ("beds", Cell.num 1), ("extra_people", Cell.str "$5.00"), ("review_scores_rating", Cell.num 95), ("review_scores_accuracy", Cell.num 9), ("review_scores_cleanliness", Cell.num 9), ("review_scores_checkin", Cell.num 9), ("review_scores_communication", Cell.num 9), ("review_scores_location", Cell.num 9), ("review_scores_value", Cell.num 9), ("month", Cell.num 1), ("year", Cell.num 2016), ("price", Cell.num 99), ("host_since_year", Cell.num 2013), ("host_response_rate_buckets", Cell.num 4), ("host_verifications_email", Cell.num 0), ("host_verifications_phone", Cell.num 1), ("amenities_TV", Cell.num 1), ("amenities_Wifi", Cell.num 0)]]

/-- Intermediate table of the string-bathrooms run after pipeline step 10
(literal; verified by `sbS10`). -/
def sbT10 : Table :=
  [   [("listing_id", Cell.num 1), ("host_listings_count", Cell.num 1), ("bathrooms", Cell.str "2"), ("bedrooms", Cell.str "2"), ("beds", Cell.num 2), ("review_scores_rating", Cell.num 95), ("review_scores_accuracy", Cell.num 9), ("review_scores_cleanliness", Cell.num 9), ("review_scores_checkin", Cell.num 9), ("review_scores_communication", Cell.num 9), ("review_scores_location", Cell.num 9), ("review_scores_value", Cell.num 9), ("month", Cell.num 7), ("year", Cell.num 2016), ("price", Cell.num 150), ("host_since_year", Cell.num 2012), ("host_response_rate_buckets", Cell.num 0), ("host_verifications_email", Cell.num 1), ("host_verifications_phone", Cell.num 0), ("amenities_TV", Cell.num 1), ("amenities_Wifi", Cell.num 1), ("extra_people_fee", Cell.num 0)],
     [("listing_id", Cell.num 2), ("host_listings_count", Cell.num 3), ("bathrooms", Cell.str "2"), ("bedrooms", Cell.str "2"), ("beds", Cell.num 1), ("review_scores_rating", Cell.num 95), ("review_scores_accuracy", Cell.num 9), ("review_scores_cleanliness", Cell.num 9), ("review_scores_checkin", Cell.num 9), ("review_scores_communication", Cell.num 9), ("review_scores_location", Cell.num 9), ("review_scores_value", Cell.num 9), ("month", Cell.num 1), ("year", Cell.num 2016), ("price", Cell.num 99), ("host_since_year", Cell.num 2013), ("host_response_rate_buckets", Cell.num 4), ("host_verifications_email", Cell.num 0), ("host_verifications_phone", Cell.num 1), ("amenities_TV", Cell.num 1), ("amenities_Wifi", Cell.num 0), ("extra_people_fee", Cell.num 1)]]

/-! ## Infrastructure lemmas -/

theorem lookupCell_setCell_self (r : Row) (name : String) (c : Cell) :
    lookupCell (setCell r name c) name = some c := by
  induction r with
  | nil => simp [setCell, lookupCell]
  | cons p rest ih =>
    obtain ⟨k, v⟩ := p
    by_cases h : k = name
    · simp [setCell, h, lookupCell, List.find?]
    · simpa [setCell, h, lookupCell, List.find?] using ih

theorem lookupCell_setCell_ne (r : Row) (name' name : String) (c : Cell)
    (h : name' ≠ name) :
    lookupCell (setCell r name' c) name = lookupCell r name := by
  induction r with
  | nil => simp [setCell, lookupCell, List.find?, h]
  | cons p rest ih =>
    obtain ⟨k, v⟩ := p
    by_cases hk : k = name'
    · subst hk
      simp [setCell, lookupCell, List.find?, h]
    · by_cases hn : k = name
      · subst hn
        simp [setCell, lookupCell, List.find?, hk, Ne.symm h]
      · simpa [setCell, hk, lookupCell, List.find?, hn] using ih

theorem lookupCell_dropKeys (names : List String) (r : Row) (name : String)
    (h : ¬ name ∈ names) :
    lookupCell (dropKeys names r) name = lookupCell r name := by
  induction r with
  | nil => simp [dropKeys, lookupCell]
  | cons p rest ih =>
    obtain ⟨k, v⟩ := p
    by_cases hk : k = name
    · subst hk
      simp [dropKeys, lookupCell, List.find?, h]
    · by_cases hc : k ∈ names
      · simpa [dropKeys, hc, lookupCell, List.find?, hk] using ih
      · simpa [dropKeys, hc, lookupCell, List.find?, hk] using ih

theorem mapRowsM_mem {f : Row → Option Row} :
    ∀ {t t' : Table}, mapRowsM f t = some t' →
      ∀ r' ∈ t', ∃ r ∈ t, f r = some r' := by
  intro t
  induction t with
  | nil =>
    intro t' h r' hr'
    simp [mapRowsM] at h
    subst h
    simp at hr'
  | cons r rest ih =>
    intro t' h r' hr'
    simp only [mapRowsM, Option.bind_eq_some, Option.map_eq_some'] at h
    obtain ⟨r1, hr1, rest', hrest', rfl⟩ := h
    rcases List.mem_cons.mp hr' with h | h
    · exact ⟨r, List.mem_cons_self _ _, h ▸ hr1⟩
    · obtain ⟨r0, hr0, he⟩ := ih hrest' r' h
      exact ⟨r0, List.mem_cons_of_mem _ hr0, he⟩

theorem mapRowsM_none {f : Row → Option Row} :
    ∀ {t : Table}, (∃ r ∈ t, f r = none) → mapRowsM f t = none := by
  intro t
  induction t with
  | nil => rintro ⟨r, hr, -⟩; simp at hr
  | cons r rest ih =>
    rintro ⟨r0, hr0, hf⟩
    rcases List.mem_cons.mp hr0 with h | h
    · subst h
      simp [mapRowsM, hf]
    · rcases hr : f r with _ | r'
      · simp [mapRowsM, hr]
      · simp [mapRowsM, hr, ih ⟨r0, h, hf⟩]

theorem colCellsM_mem :
    ∀ {t : Table} {name : String} {cs : List Cell}, colCellsM t name = some cs →
      ∀ r ∈ t, ∃ c ∈ cs, lookupCell r name = some c := by
  intro t
  induction t with
  | nil => intro name cs h r hr; simp at hr
  | cons r rest ih =>
    intro name cs h r0 hr0
    simp only [colCellsM, Option.bind_eq_some, Option.map_eq_some'] at h
    obtain ⟨c, hc, cs', hcs', rfl⟩ := h
    rcases List.mem_cons.mp hr0 with h | h
    · exact ⟨c, List.mem_cons_self _ _, h ▸ hc⟩
    · obtain ⟨c0, hc0, he⟩ := ih hcs' r0 h
      exact ⟨c0, List.mem_cons_of_mem _ hc0, he⟩

theorem mem_setColumnVals {name : String} :
    ∀ {t : Table} {cs : List Cell} {r' : Row},
      r' ∈ setColumnVals name cs t →
      ∃ r ∈ t, ∃ c ∈ cs, r' = setCell r name c := by
  intro t
  induction t with
  | nil => intro cs r' h; simp [setColumnVals] at h
  | cons r rest ih =>
    intro cs r' h
    cases cs with
    | nil => simp [setColumnVals] at h
    | cons c cs' =>
      simp only [setColumnVals, List.zipWith_cons_cons, List.mem_cons] at h
      rcases h with h | h
      · exact ⟨r, List.mem_cons_self _ _, c, List.mem_cons_self _ _, h⟩
      · obtain ⟨r0, hr0, c0, hc0, he⟩ := ih h
        exact ⟨r0, List.mem_cons_of_mem _ hr0, c0, List.mem_cons_of_mem _ hc0, he⟩

/-- An `Option`-valued table operation keeps every row's `name` column
readable from some input row. -/
def KeepsCol (op : Table → Option Table) (name : String) : Prop :=
  ∀ t t', op t = some t' → ∀ r' ∈ t', ∃ r ∈ t, lookupCell r' name = lookupCell r name

theorem KeepsCol.bind {f g : Table → Option Table} {name : String}
    (hf : KeepsCol f name) (hg : KeepsCol g name) :
    KeepsCol (fun t => (f t).bind g) name := by
  intro t t' h r' hr'
  simp only [Option.bind_eq_some] at h
  obtain ⟨tm, htm, hgm⟩ := h
  obtain ⟨rm, hrm, he1⟩ := hg tm t' hgm r' hr'
  obtain ⟨r, hr, he2⟩ := hf t tm htm rm hrm
  exact ⟨r, hr, he1.trans he2⟩

theorem KeepsCol.carry {op : Table → Option Table} {name : String}
    (hk : KeepsCol op name) (P : Option Cell → Prop) {t t' : Table}
    (h : op t = some t') (hall : ∀ r ∈ t, P (lookupCell r name)) :
    ∀ r' ∈ t', P (lookupCell r' name) := by
  intro r' hr'
  obtain ⟨r, hr, he⟩ := hk t t' h r' hr'
  exact he ▸ hall r hr

theorem keeps_setColumnM {name' name : String} {f : Row → Option Cell}
    (h : name' ≠ name) : KeepsCol (setColumnM name' f) name := by
  intro t t' ht r' hr'
  obtain ⟨r, hr, he⟩ := mapRowsM_mem ht r' hr'
  simp only [Option.map_eq_some'] at he
  obtain ⟨c, -, rfl⟩ := he
  exact ⟨r, hr, lookupCell_setCell_ne r name' name c h⟩

theorem keeps_dropCols {names : List String} {name : String}
    (h : ¬ name ∈ names) : KeepsCol (dropCols names) name := by
  intro t t' ht r' hr'
  simp only [dropCols] at ht
  split at ht
  · cases ht
    obtain ⟨r, hr, rfl⟩ := List.mem_map.mp hr'
    exact ⟨r, hr, lookupCell_dropKeys names r name h⟩
  · cases ht

theorem keeps_dropnaSubset {col name : String} :
    KeepsCol (dropnaSubset col) name := by
  intro t t' ht r' hr'
  simp only [dropnaSubset] at ht
  split at ht
  · cases ht
    exact ⟨r', (List.mem_filter.mp hr').1, rfl⟩
  · cases ht

theorem keeps_fillCol {name' name : String} {c : Cell} (h : name' ≠ name)
    {t : Table} : ∀ r' ∈ fillCol name' c t, ∃ r ∈ t,
      lookupCell r' name = lookupCell r name := by
  intro r' hr'
  obtain ⟨r, hr, rfl⟩ := List.mem_map.mp hr'
  refine ⟨r, hr, ?_⟩
  cases hc : lookupCell r name' with
  | none => simp [hc]
  | some cell =>
    cases cell with
    | null => simp [hc, lookupCell_setCell_ne r name' name c h]
    | str s => simp [hc]
    | num q => simp [hc]

theorem keeps_fillnaMeanCol {name' name : String} (h : name' ≠ name) :
    KeepsCol (fillnaMeanCol name') name := by
  intro t t' ht r' hr'
  simp only [fillnaMeanCol, Option.bind_eq_some] at ht
  obtain ⟨cells, -, ht⟩ := ht
  split at ht
  · cases ht
  · split at ht
    · cases ht; exact ⟨r', hr', rfl⟩
    · cases ht; exact keeps_fillCol h r' hr'

theorem keeps_fillnaModeCol {name' name : String} (h : name' ≠ name) :
    KeepsCol (fillnaModeCol name') name := by
  intro t t' ht r' hr'
  simp only [fillnaModeCol, Option.bind_eq_some, Option.map_eq_some'] at ht
  obtain ⟨cells, -, m, -, rfl⟩ := ht
  exact keeps_fillCol h r' hr'

theorem keeps_qcutColumn {col newName name : String} (h : newName ≠ name) :
    KeepsCol (qcutColumn col newName) name := by
  intro t t' ht r' hr'
  simp only [qcutColumn, Option.bind_eq_some, Option.map_eq_some'] at ht
  obtain ⟨cells, -, codes, -, rfl⟩ := ht
  obtain ⟨r, hr, c, -, rfl⟩ := mem_setColumnVals hr'
  exact ⟨r, hr, lookupCell_setCell_ne r newName name c h⟩

theorem keeps_addDummyCol {col name : String} {v : String}
    (h : col ++ "_" ++ v ≠ name) {t : Table} :
    ∀ r' ∈ addDummyCol col t v, ∃ r ∈ t,
      lookupCell r' name = lookupCell r name := by
  intro r' hr'
  obtain ⟨r, hr, rfl⟩ := List.mem_map.mp hr'
  exact ⟨r, hr, lookupCell_setCell_ne r _ name _ h⟩

theorem keeps_foldl_addDummyCol {col name : String}
    (h : ∀ v : String, col ++ "_" ++ v ≠ name) :
    ∀ (vs : List String) (t : Table), ∀ r' ∈ vs.foldl (addDummyCol col) t,
      ∃ r ∈ t, lookupCell r' name = lookupCell r name := by
  intro vs
  induction vs with
  | nil => intro t r' hr'; exact ⟨r', hr', rfl⟩
  | cons v rest ih =>
    intro t r' hr'
    obtain ⟨rm, hrm, he1⟩ := ih (addDummyCol col t v) r' hr'
    obtain ⟨r, hr, he2⟩ := keeps_addDummyCol (h v) rm hrm
    exact ⟨r, hr, he1.trans he2⟩

theorem keeps_split_list {col name : String}
    (h : ∀ v : String, col ++ "_" ++ v ≠ name) {n : ℕ} :
    KeepsCol (fun t => split_list_into_columns t col n) name := by
  intro t t' ht r' hr'
  simp only [split_list_into_columns, Option.bind_eq_some,
    Option.map_eq_some'] at ht
  obtain ⟨cells, -, strs, -, rfl⟩ := ht
  exact keeps_foldl_addDummyCol h _ t r' hr'

/-- A string extended on the right differs from any string whose prefix of
matching length differs. -/
theorem append_ne_of_take_ne (p s t : String)
    (h : t.data.take p.data.length ≠ p.data) : p ++ s ≠ t := by
  intro he
  apply h
  have : (p ++ s).data = t.data := congrArg String.data he
  rw [String.data_append] at this
  rw [← this, List.take_left]

/-! ## Quantile-bucket lemmas -/

theorem sorted_head_le {s : List ℚ} (hs : List.Sorted (fun a b : ℚ => a ≤ b) s)
    (hne : s ≠ []) {y : ℚ} (hy : y ∈ s) : s.head hne ≤ y := by
  cases s with
  | nil => exact absurd rfl hne
  | cons a rest =>
    rcases List.mem_cons.mp hy with h | h
    · simp [h]
    · exact (List.sorted_cons.mp hs).1 y h

theorem sorted_le_getLast {s : List ℚ}
    (hs : List.Sorted (fun a b : ℚ => a ≤ b) s) (hne : s ≠ [])
    {y : ℚ} (hy : y ∈ s) : y ≤ s.getLast hne := by
  induction s with
  | nil => exact absurd rfl hne
  | cons a rest ih =>
    cases rest with
    | nil => simp at hy; simp [hy]
    | cons b rest' =>
      rw [List.getLast_cons (by simp)]
      rcases List.mem_cons.mp hy with h | h
      · subst h
        exact le_trans ((List.sorted_cons.mp hs).1 _ (List.getLast_mem _))
          le_rfl
      · exact ih (List.sorted_cons.mp hs).2 (by simp) h

theorem mem_pdUniqueAux {α : Type} [DecidableEq α] (x : α) :
    ∀ (l seen : List α), x ∈ pdUniqueAux seen l ↔ x ∈ l ∧ ¬ x ∈ seen := by
  intro l
  induction l with
  | nil => intro seen; simp [pdUniqueAux]
  | cons a rest ih =>
    intro seen
    by_cases ha : a ∈ seen
    · simp only [pdUniqueAux, if_pos ha, ih, List.mem_cons]
      constructor
      · rintro ⟨h1, h2⟩; exact ⟨Or.inr h1, h2⟩
      · rintro ⟨h1 | h1, h2⟩
        · exact absurd (h1 ▸ ha) h2
        · exact ⟨h1, h2⟩
    · simp only [pdUniqueAux, if_neg ha, List.mem_cons, ih]
      constructor
      · rintro (rfl | ⟨h1, h2⟩)
        · exact ⟨Or.inl rfl, ha⟩
        · exact ⟨Or.inr h1, fun hx => h2 (Or.inr hx)⟩
      · rintro ⟨rfl | h1, h2⟩
        · exact Or.inl rfl
        · by_cases hxa : x = a
          · exact Or.inl hxa
          · exact Or.inr ⟨h1, by simp [hxa, h2]⟩

theorem mem_pdUnique {α : Type} [DecidableEq α] {x : α} {l : List α} :
    x ∈ pdUnique l ↔ x ∈ l := by
  simp [pdUnique, mem_pdUniqueAux]

theorem pdUniqueAux_length_le {α : Type} [DecidableEq α] :
    ∀ (l seen : List α), (pdUniqueAux seen l).length ≤ l.length := by
  intro l
  induction l with
  | nil => intro seen; simp [pdUniqueAux]
  | cons a rest ih =>
    intro seen
    by_cases ha : a ∈ seen
    · simp only [pdUniqueAux, if_pos ha]
      exact le_trans (ih seen) (Nat.le_succ _)
    · simp only [pdUniqueAux, if_neg ha, List.length_cons]
      exact Nat.succ_le_succ (ih _)

theorem pdUniqueAux_all_eq {α : Type} [DecidableEq α] (c : α) :
    ∀ (l seen : List α), (∀ y ∈ l, y = c) → c ∈ seen →
      pdUniqueAux seen l = [] := by
  intro l
  induction l with
  | nil => intro seen _ _; rfl
  | cons a rest ih =>
    intro seen hall hc
    have ha : a = c := hall a (List.mem_cons_self _ _)
    rw [pdUniqueAux, if_pos (ha ▸ hc)]
    exact ih seen (fun y hy => hall y (List.mem_cons_of_mem _ hy)) hc

theorem pdUnique_const {α : Type} [DecidableEq α] {c : α} {l : List α}
    (hne : l ≠ []) (h : ∀ y ∈ l, y = c) : pdUnique l = [c] := by
  cases l with
  | nil => exact absurd rfl hne
  | cons a rest =>
    have ha : a = c := h a (List.mem_cons_self _ _)
    subst ha
    rw [pdUnique, pdUniqueAux, if_neg (by simp)]
    rw [pdUniqueAux_all_eq a rest [a]
      (fun y hy => h y (List.mem_cons_of_mem _ hy)) (by simp)]

theorem countP_lt_length {α : Type} (p : α → Bool) :
    ∀ {l : List α} {a : α}, a ∈ l → p a = false → l.countP p < l.length := by
  intro l
  induction l with
  | nil => intro a ha _; simp at ha
  | cons b rest ih =>
    intro a ha hpa
    rcases List.mem_cons.mp ha with rfl | h
    · rw [List.countP_cons, hpa]
      simp only [List.length_cons]
      exact Nat.lt_succ_of_le (by simpa using List.countP_le_length p)
    · rw [List.countP_cons]
      rcases hb : p b with _ | _
      · simp only [hb, cond_false, Nat.add_zero, List.length_cons]
        exact Nat.lt_succ_of_lt (ih h hpa)
      · simp only [hb, cond_true, List.length_cons]
        exact Nat.succ_lt_succ (ih h hpa)

theorem sortedQ_sorted (l : List ℚ) :
    List.Sorted (fun a b : ℚ => a ≤ b) (sortedQ l) :=
  List.sorted_insertionSort _ l

theorem mem_sortedQ {x : ℚ} {l : List ℚ} : x ∈ sortedQ l ↔ x ∈ l :=
  List.mem_insertionSort _

theorem range_six : List.range 6 = [0, 1, 2, 3, 4, 5] := rfl

theorem quantileAt_le_getLast {s : List ℚ}
    (hs : List.Sorted (fun a b : ℚ => a ≤ b) s) (hne : s ≠ [])
    {i : ℕ} (hi : i ≤ 5) : quantileAt s i ≤ s.getLast hne := by
  have hn : 1 ≤ s.length := List.length_pos.mpr hne
  set n := s.length with hn_def
  set p : ℚ := (i : ℚ) * ((n : ℚ) - 1) / 5 with hp_def
  have hn1 : (0 : ℚ) ≤ (n : ℚ) - 1 := by
    have : (1 : ℚ) ≤ (n : ℚ) := by exact_mod_cast hn
    linarith
  have hp0 : 0 ≤ p := by positivity
  have hple : p ≤ (n : ℚ) - 1 := by
    rw [hp_def, div_le_iff₀ (by norm_num : (0:ℚ) < 5)]
    have hi' : (i : ℚ) ≤ 5 := by exact_mod_cast hi
    nlinarith
  set lo : ℕ := (⌊p⌋).toNat with hlo_def
  have hlo_lt : lo < n := by
    have h1 : ⌊p⌋ ≤ ⌊(n : ℚ) - 1⌋ := Int.floor_le_floor hple
    have h2 : ((n : ℚ) - 1) = ((n - 1 : ℕ) : ℚ) := by
      push_cast [hn]
      ring
    rw [h2, Int.floor_natCast] at h1
    have h3 : lo ≤ n - 1 := by
      rw [hlo_def]
      exact_mod_cast Int.toNat_le_toNat h1
    omega
  have hfrac0 : 0 ≤ p - (lo : ℚ) := by
    have : (lo : ℚ) = ((⌊p⌋ : ℤ) : ℚ) := by
      rw [hlo_def]
      exact_mod_cast congrArg (fun z : ℤ => (z : ℚ))
        (Int.toNat_of_nonneg (Int.floor_nonneg.mpr hp0))
    rw [this]
    have := Int.floor_le p
    linarith
  have hfrac1 : p - (lo : ℚ) ≤ 1 := by
    have : (lo : ℚ) = ((⌊p⌋ : ℤ) : ℚ) := by
      rw [hlo_def]
      exact_mod_cast congrArg (fun z : ℤ => (z : ℚ))
        (Int.toNat_of_nonneg (Int.floor_nonneg.mpr hp0))
    rw [this]
    have := Int.lt_floor_add_one p
    linarith
  have hvlo_mem : s.getD lo 0 ∈ s := by
    rw [List.getD_eq_getElem?_getD, List.getElem?_eq_getElem hlo_lt]
    exact List.getElem_mem _
  have hvlo : s.getD lo 0 ≤ s.getLast hne := sorted_le_getLast hs hne hvlo_mem
  have hvhi : s.getD (lo + 1) (s.getD lo 0) ≤ s.getLast hne := by
    by_cases hlt : lo + 1 < n
    · have hmem : s.getD (lo + 1) (s.getD lo 0) ∈ s := by
        rw [List.getD_eq_getElem?_getD, List.getElem?_eq_getElem hlt]
        exact List.getElem_mem _
      exact sorted_le_getLast hs hne hmem
    · have : s.getD (lo + 1) (s.getD lo 0) = s.getD lo 0 := by
        rw [List.getD_eq_getElem?_getD, List.getElem?_eq_none (by omega)]
        rfl
      rw [this]
      exact hvlo
  show (s.getD lo 0) + (p - (lo : ℚ)) *
      (s.getD (lo + 1) (s.getD lo 0) - s.getD lo 0) ≤ s.getLast hne
  nlinarith [mul_nonneg hfrac0 (sub_nonneg.mpr hvlo),
    mul_nonneg (sub_nonneg.mpr hfrac1) (sub_nonneg.mpr hvlo)]

theorem quantile_lo_lt {s : List ℚ} (hne : s ≠ []) {i : ℕ} (hi : i ≤ 5) :
    (⌊(i : ℚ) * ((s.length : ℚ) - 1) / 5⌋).toNat < s.length := by
  have hn : 1 ≤ s.length := List.length_pos.mpr hne
  have hn1 : (0 : ℚ) ≤ (s.length : ℚ) - 1 := by
    have : (1 : ℚ) ≤ (s.length : ℚ) := by exact_mod_cast hn
    linarith
  have hple : (i : ℚ) * ((s.length : ℚ) - 1) / 5 ≤ (s.length : ℚ) - 1 := by
    rw [div_le_iff₀ (by norm_num : (0:ℚ) < 5)]
    have hi' : (i : ℚ) ≤ 5 := by exact_mod_cast hi
    nlinarith
  have h1 : ⌊(i : ℚ) * ((s.length : ℚ) - 1) / 5⌋ ≤ ⌊(s.length : ℚ) - 1⌋ :=
    Int.floor_le_floor hple
  have h2 : ((s.length : ℚ) - 1) = ((s.length - 1 : ℕ) : ℚ) := by
    push_cast [hn]
    ring
  rw [h2, Int.floor_natCast] at h1
  have h3 : (⌊(i : ℚ) * ((s.length : ℚ) - 1) / 5⌋).toNat ≤ s.length - 1 := by
    exact_mod_cast Int.toNat_le_toNat h1
  omega

theorem quantileAt_five {s : List ℚ} (hne : s ≠ []) :
    quantileAt s 5 = s.getLast hne := by
  have hn : 1 ≤ s.length := List.length_pos.mpr hne
  have hp : ((5 : ℕ) : ℚ) * ((s.length : ℚ) - 1) / 5 = ((s.length - 1 : ℕ) : ℚ) := by
    push_cast [hn]
    ring
  have hgetD : s.getD (s.length - 1) 0 = s.getLast hne := by
    rw [List.getD_eq_getElem?_getD, List.getElem?_eq_getElem (by omega),
      List.getLast_eq_getElem]
    rfl
  simp only [quantileAt, hp, Int.floor_natCast, Int.toNat_natCast, sub_self,
    zero_mul, add_zero]
  exact hgetD

theorem quantileAt_zero {s : List ℚ} (hne : s ≠ []) :
    quantileAt s 0 = s.head hne := by
  have hp : ((0 : ℕ) : ℚ) * ((s.length : ℚ) - 1) / 5 = ((0 : ℕ) : ℚ) := by
    push_cast
    ring
  simp only [quantileAt, hp, Int.floor_natCast, Int.toNat_natCast, sub_self,
    zero_mul, add_zero]
  cases s with
  | nil => exact absurd rfl hne
  | cons a rest => rfl

theorem quantileAt_const {s : List ℚ} (hne : s ≠ []) {c : ℚ}
    (h : ∀ y ∈ s, y = c) {i : ℕ} (hi : i ≤ 5) : quantileAt s i = c := by
  have hlo := quantile_lo_lt hne hi
  have hvlo : s.getD ((⌊(i : ℚ) * ((s.length : ℚ) - 1) / 5⌋).toNat) 0 = c := by
    rw [List.getD_eq_getElem?_getD, List.getElem?_eq_getElem hlo]
    exact h _ (List.getElem_mem _)
  have hvhi : s.getD ((⌊(i : ℚ) * ((s.length : ℚ) - 1) / 5⌋).toNat + 1)
      (s.getD ((⌊(i : ℚ) * ((s.length : ℚ) - 1) / 5⌋).toNat) 0) = c := by
    by_cases hlt : (⌊(i : ℚ) * ((s.length : ℚ) - 1) / 5⌋).toNat + 1 < s.length
    · rw [List.getD_eq_getElem?_getD, List.getElem?_eq_getElem hlt]
      exact h _ (List.getElem_mem _)
    · rw [List.getD_eq_getElem?_getD, List.getElem?_eq_none (by omega)]
      exact hvlo
  show s.getD _ 0 + _ * (s.getD _ (s.getD _ 0) - s.getD _ 0) = c
  rw [hvlo] at hvhi ⊢
  rw [hvhi]
  ring

theorem pdUnique_cons {α : Type} [DecidableEq α] (a : α) (l : List α) :
    pdUnique (a :: l) = a :: pdUniqueAux [a] l := by
  rw [pdUnique, pdUniqueAux, if_neg (by simp)]

theorem qcutBins_length_le (l : List ℚ) : (qcutBins l).length ≤ 6 := by
  have h := pdUniqueAux_length_le (qcutEdges l) ([] : List ℚ)
  have he : (qcutEdges l).length = 6 := by
    simp [qcutEdges]
  rw [he] at h
  exact h

theorem qcutCode_le_four {l : List ℚ} {x : ℚ} (hx : x ∈ l)
    (hb : 2 ≤ (qcutBins l).length) : qcutCode (qcutBins l) x ≤ 4 := by
  have hs := sortedQ_sorted l
  have hxs : x ∈ sortedQ l := mem_sortedQ.mpr hx
  have hne : sortedQ l ≠ [] := List.ne_nil_of_mem hxs
  have hxM : x ≤ (sortedQ l).getLast hne := sorted_le_getLast hs hne hxs
  have hM_edges : (sortedQ l).getLast hne ∈ qcutEdges l := by
    rw [qcutEdges]
    exact List.mem_map.mpr ⟨5, by rw [range_six]; simp, quantileAt_five hne⟩
  have hM_bins : (sortedQ l).getLast hne ∈ qcutBins l := by
    rw [qcutBins]
    exact mem_pdUnique.mpr hM_edges
  rcases hbins : qcutBins l with _ | ⟨b, rest⟩
  · rw [hbins] at hb
    simp at hb
  · rw [hbins] at hM_bins
    rcases List.mem_cons.mp hM_bins with hMb | hMrest
    · exfalso
      have hhead : b = (sortedQ l).head hne := by
        have hcons : ∃ es, qcutEdges l = quantileAt (sortedQ l) 0 :: es := by
          rw [qcutEdges, range_six]
          exact ⟨_, rfl⟩
        obtain ⟨es, hes⟩ := hcons
        have : qcutBins l = quantileAt (sortedQ l) 0 ::
            pdUniqueAux [quantileAt (sortedQ l) 0] es := by
          rw [qcutBins, hes, pdUnique_cons]
        rw [hbins] at this
        have hb0 : b = quantileAt (sortedQ l) 0 := (List.cons.injEq _ _ _ _).mp this |>.1
        rw [hb0, quantileAt_zero hne]
      have hall : ∀ y ∈ sortedQ l, y = (sortedQ l).getLast hne := by
        intro y hy
        have h1 : (sortedQ l).head hne ≤ y := sorted_head_le hs hne hy
        have h2 : y ≤ (sortedQ l).getLast hne := sorted_le_getLast hs hne hy
        have h3 : (sortedQ l).head hne = (sortedQ l).getLast hne := by
          rw [← hhead, hMb]
        linarith [h3 ▸ h1]
      have hedges_const : ∀ e ∈ qcutEdges l, e = (sortedQ l).getLast hne := by
        intro e he
        rw [qcutEdges] at he
        obtain ⟨i, hi, rfl⟩ := List.mem_map.mp he
        have hi5 : i ≤ 5 := by
          have := List.mem_range.mp hi
          omega
        exact quantileAt_const hne hall hi5
      have hedges_ne : qcutEdges l ≠ [] := by
        rw [qcutEdges, range_six]
        simp
      have : qcutBins l = [(sortedQ l).getLast hne] := by
        rw [qcutBins]
        exact pdUnique_const hedges_ne hedges_const
      rw [hbins] at this
      cases this
      rw [hbins] at hb
      simp at hb
    · have hcount : rest.countP (fun e => decide (e < x)) < rest.length :=
        countP_lt_length _ hMrest (by simp [not_lt.mpr hxM])
      have hlen : rest.length ≤ 5 := by
        have h6 := qcutBins_length_le l
        rw [hbins] at h6
        simpa using h6
      have hcode : qcutCode (b :: rest) x =
          rest.countP (fun e => decide (e < x)) := rfl
      rw [hcode]
      omega

theorem mem_numVals {q : ℚ} {cs : List Cell} (hc : Cell.num q ∈ cs) :
    q ∈ numVals cs := by
  rw [numVals, List.mem_filterMap]
  exact ⟨Cell.num q, hc, rfl⟩

theorem hasStrCell_false_not_str {cs : List Cell} (h : hasStrCell cs = false)
    {c : Cell} (hc : c ∈ cs) : ∀ s, c ≠ Cell.str s := by
  intro s he
  subst he
  rw [hasStrCell] at h
  have := List.any_eq_false.mp h _ hc
  simp at this

theorem qcutCells_shape {cells out : List Cell} (h : qcutCells cells = some out) :
    ∀ c ∈ out, c = Cell.null ∨ ∃ n : ℕ, n ≤ 4 ∧ c = Cell.num (n : ℚ) := by
  rw [qcutCells] at h
  split at h
  · cases h
  · intro c hc
    rw [Option.some_inj] at h
    subst h
    obtain ⟨cell, hcell, rfl⟩ := List.mem_map.mp hc
    cases cell with
    | null => exact Or.inl rfl
    | str s => exact Or.inl rfl
    | num q =>
      simp only
      split
      · exact Or.inl rfl
      · refine Or.inr ⟨qcutCode (qcutBins (numVals cells)) q, ?_, rfl⟩
        exact qcutCode_le_four (mem_numVals hcell) (by omega)

/-! ## Column-content lemmas -/

theorem pyFloat_not_str {s : String} {c : Cell} (h : pyFloat s = some c) :
    c = Cell.null ∨ ∃ q, c = Cell.num q := by
  rw [pyFloat] at h
  split at h
  · exact Or.inl (Option.some_inj.mp h).symm
  · split at h
    split at h
    · rw [Option.map_eq_some'] at h
      obtain ⟨q, -, rfl⟩ := h
      exact Or.inr ⟨_, rfl⟩
    · rw [Option.bind_eq_some] at h
      obtain ⟨q, -, h⟩ := h
      rw [Option.map_eq_some'] at h
      obtain ⟨q', -, rfl⟩ := h
      exact Or.inr ⟨_, rfl⟩
    · cases h

theorem parsePriceCell_not_str {c cell : Cell}
    (h : parsePriceCell c = some cell) :
    cell = Cell.null ∨ ∃ q, cell = Cell.num q := by
  cases c with
  | str s => exact pyFloat_not_str h
  | num q => exact Or.inr ⟨q, (Option.some_inj.mp h).symm⟩
  | null => exact Or.inl (Option.some_inj.mp h).symm

theorem parseRateCell_not_str {c cell : Cell}
    (h : parseRateCell c = some cell) :
    cell = Cell.null ∨ ∃ q, cell = Cell.num q := by
  cases c with
  | str s => exact pyFloat_not_str h
  | num q => exact Or.inr ⟨q, (Option.some_inj.mp h).symm⟩
  | null => exact Or.inl (Option.some_inj.mp h).symm

theorem mem_modeSortCells {l : List Cell} {c : Cell}
    (h : c ∈ modeSortCells l) : c ∈ l := by
  rw [modeSortCells] at h
  split at h
  · exact (List.perm_insertionSort _ _).mem_iff.mp h
  · split at h
    · exact (List.perm_insertionSort _ _).mem_iff.mp h
    · exact h

theorem modeCell_not_null {cells : List Cell} {m : Cell}
    (h : modeCell cells = some m) : m ≠ Cell.null := by
  simp only [modeCell] at h
  have h1 := mem_modeSortCells (List.mem_of_mem_head? h)
  have h2 := List.mem_filter.mp h1
  have h3 := List.mem_filter.mp (mem_pdUnique.mp h2.1)
  intro hnull
  subst hnull
  simp at h3

theorem modeCell_all_null {cells : List Cell}
    (h : ∀ c ∈ cells, c = Cell.null) : modeCell cells = none := by
  have hf : cells.filter (fun c => !(decide (c = Cell.null))) = [] := by
    rw [List.filter_eq_nil_iff]
    intro c hc
    simp [h c hc]
  simp only [modeCell, hf]
  rfl

theorem fillnaModeCol_not_null {name : String} {t t' : Table}
    (h : fillnaModeCol name t = some t') :
    ∀ r' ∈ t', ∃ c, lookupCell r' name = some c ∧ c ≠ Cell.null := by
  rw [fillnaModeCol, Option.bind_eq_some] at h
  obtain ⟨cells, hcells, h⟩ := h
  rw [Option.map_eq_some'] at h
  obtain ⟨m, hm, rfl⟩ := h
  have hmn := modeCell_not_null hm
  intro r' hr'
  obtain ⟨r, hr, rfl⟩ := List.mem_map.mp hr'
  obtain ⟨c, hc, hlook⟩ := colCellsM_mem hcells r hr
  cases c with
  | null =>
    rw [hlook]
    exact ⟨m, lookupCell_setCell_self r name _, hmn⟩
  | str s =>
    rw [hlook]
    exact ⟨Cell.str s, hlook, by simp⟩
  | num q =>
    rw [hlook]
    exact ⟨Cell.num q, hlook, by simp⟩

theorem numVals_nil_no_num {cells : List Cell} (h : numVals cells = [])
    {q : ℚ} (hq : Cell.num q ∈ cells) : False := by
  have := mem_numVals hq
  rw [h] at this
  simp at this

theorem meanCells_none {cells : List Cell} (h : meanCells cells = none) :
    numVals cells = [] := by
  rw [meanCells] at h
  split at h
  · assumption
  · cases h

theorem fillnaMeanCol_shape {name : String} {t t' : Table}
    (h : fillnaMeanCol name t = some t') :
    (∀ r' ∈ t', ∃ q, lookupCell r' name = some (Cell.num q)) ∨
    ((∀ r' ∈ t', lookupCell r' name = some Cell.null) ∧ t' = t) := by
  rw [fillnaMeanCol, Option.bind_eq_some] at h
  obtain ⟨cells, hcells, h⟩ := h
  split at h
  · cases h
  · rename_i hstr
    rw [Bool.not_eq_true] at hstr
    split at h
    · rename_i hme
      rw [Option.some_inj] at h
      subst h
      have hnv := meanCells_none hme
      refine Or.inr ⟨?_, rfl⟩
      intro r' hr'
      obtain ⟨c, hc, hlook⟩ := colCellsM_mem hcells r' hr'
      cases c with
      | null => exact hlook
      | str s => exact absurd rfl (hasStrCell_false_not_str hstr hc s)
      | num q => exact absurd hnv (fun hn => numVals_nil_no_num hn hc)
    · rename_i m hme
      rw [Option.some_inj] at h
      subst h
      refine Or.inl ?_
      intro r' hr'
      obtain ⟨r, hr, rfl⟩ := List.mem_map.mp hr'
      obtain ⟨c, hc, hlook⟩ := colCellsM_mem hcells r hr
      cases c with
      | null =>
        rw [hlook]
        exact ⟨_, lookupCell_setCell_self r name _⟩
      | str s => exact absurd rfl (hasStrCell_false_not_str hstr hc s)
      | num q =>
        rw [hlook]
        exact ⟨q, hlook⟩

theorem qcutColumn_buckets {col newName : String} {t t' : Table}
    (h : qcutColumn col newName t = some t') :
    ∀ r' ∈ t', ∃ cell, lookupCell r' newName = some cell ∧
      (cell = Cell.null ∨ ∃ n : ℕ, n ≤ 4 ∧ cell = Cell.num (n : ℚ)) := by
  rw [qcutColumn, Option.bind_eq_some] at h
  obtain ⟨cells, hcells, h⟩ := h
  rw [Option.map_eq_some'] at h
  obtain ⟨codes, hcodes, rfl⟩ := h
  intro r' hr'
  obtain ⟨r, hr, c, hc, rfl⟩ := mem_setColumnVals hr'
  exact ⟨c, lookupCell_setCell_self r newName c, qcutCells_shape hcodes c hc⟩

theorem stagePrice_price {t t' : Table} (h : stagePrice t = some t') :
    ∀ r' ∈ t', ∃ cell, lookupCell r' "price" = some cell ∧
      (cell = Cell.null ∨ ∃ q, cell = Cell.num q) := by
  rw [stagePrice, Option.bind_eq_some] at h
  obtain ⟨a, ha, h⟩ := h
  rw [Option.bind_eq_some] at h
  obtain ⟨b, hb, hdrop⟩ := h
  have hbprop : ∀ r ∈ b, ∃ cell, lookupCell r "price" = some cell ∧
      (cell = Cell.null ∨ ∃ q, cell = Cell.num q) := by
    intro r hrb
    obtain ⟨r0, hr0, hf⟩ := mapRowsM_mem hb r hrb
    rw [Option.map_eq_some'] at hf
    obtain ⟨cell, hcell, rfl⟩ := hf
    rw [Option.bind_eq_some] at hcell
    obtain ⟨c0, -, hparse⟩ := hcell
    exact ⟨cell, lookupCell_setCell_self r0 "price" cell,
      parsePriceCell_not_str hparse⟩
  intro r' hr'
  obtain ⟨r, hrb, he⟩ := @keeps_dropCols ["price_x"] "price" (by simp) b t' hdrop r' hr'
  obtain ⟨cell, hcell, hshape⟩ := hbprop r hrb
  exact ⟨cell, he ▸ hcell, hshape⟩

/-! ## Stage-level column preservation -/

theorem keeps_stageHostSince {name : String} (h1 : "host_since_year" ≠ name)
    (h2 : ¬ name ∈ (["host_since"] : List String)) :
    KeepsCol stageHostSince name := by
  intro t t' ht
  exact (KeepsCol.bind (keeps_setColumnM h1)
    (KeepsCol.bind (keeps_fillnaMeanCol h1) (keeps_dropCols h2))) t t' ht

theorem keeps_stageResponseRate {name : String}
    (h1 : "host_response_rate_num" ≠ name)
    (h2 : "host_response_rate_buckets" ≠ name)
    (h3 : ¬ name ∈ (["host_response_rate", "host_response_rate_num"] : List String)) :
    KeepsCol stageResponseRate name := by
  intro t t' ht
  exact (KeepsCol.bind (keeps_setColumnM h1)
    (KeepsCol.bind (keeps_fillnaMeanCol h1)
      (KeepsCol.bind (keeps_qcutColumn h2) (keeps_dropCols h3)))) t t' ht

theorem keeps_stageVerifications {name : String}
    (h1 : ∀ v : String, "host_verifications" ++ "_" ++ v ≠ name)
    (h2 : ¬ name ∈ (["host_verifications"] : List String)) :
    KeepsCol stageVerifications name := by
  intro t t' ht
  exact (KeepsCol.bind (keeps_split_list h1) (keeps_dropCols h2)) t t' ht

theorem keeps_stageBedsBaths {name : String} (h1 : "bathrooms" ≠ name)
    (h2 : "bedrooms" ≠ name) (h3 : "beds" ≠ name) :
    KeepsCol stageBedsBaths name := by
  intro t t' ht
  exact (KeepsCol.bind (keeps_fillnaModeCol h1)
    (KeepsCol.bind (keeps_fillnaModeCol h2) (keeps_fillnaModeCol h3))) t t' ht

theorem keeps_stageAmenities {name : String}
    (h1 : ∀ v : String, "amenities" ++ "_" ++ v ≠ name)
    (h2 : ¬ name ∈ (["amenities"] : List String)) :
    KeepsCol stageAmenities name := by
  intro t t' ht
  exact (KeepsCol.bind (keeps_split_list h1) (keeps_dropCols h2)) t t' ht

theorem keeps_stageExtraFee {name : String} (h1 : "extra_people_fee" ≠ name)
    (h2 : ¬ name ∈ (["extra_people"] : List String)) :
    KeepsCol stageExtraFee name := by
  intro t t' ht
  exact (KeepsCol.bind (keeps_setColumnM h1) (keeps_dropCols h2)) t t' ht

theorem keeps_stageReviewScores {name : String}
    (h : ∀ c ∈ review_scores_columns, c ≠ name) :
    KeepsCol stageReviewScores name := by
  intro t t' ht
  have h1 := h "review_scores_rating" (by simp [review_scores_columns])
  have h2 := h "review_scores_accuracy" (by simp [review_scores_columns])
  have h3 := h "review_scores_cleanliness" (by simp [review_scores_columns])
  have h4 := h "review_scores_checkin" (by simp [review_scores_columns])
  have h5 := h "review_scores_communication" (by simp [review_scores_columns])
  have h6 := h "review_scores_location" (by simp [review_scores_columns])
  have h7 := h "review_scores_value" (by simp [review_scores_columns])
  exact (KeepsCol.bind (keeps_fillnaMeanCol h1)
    (KeepsCol.bind (keeps_fillnaMeanCol h2)
    (KeepsCol.bind (keeps_fillnaMeanCol h3)
    (KeepsCol.bind (keeps_fillnaMeanCol h4)
    (KeepsCol.bind (keeps_fillnaMeanCol h5)
    (KeepsCol.bind (keeps_fillnaMeanCol h6)
      (keeps_fillnaMeanCol h7))))))) t t' ht

/-- Preservation across the whole tail of the pipeline that follows the
response-rate stage. -/
theorem keeps_pipeline_tail {name : String}
    (hhl : "host_listings_count" ≠ name)
    (hverif : ∀ v : String, "host_verifications" ++ "_" ++ v ≠ name)
    (hvd : ¬ name ∈ (["host_verifications"] : List String))
    (hbaths : "bathrooms" ≠ name) (hbeds2 : "bedrooms" ≠ name)
    (hbeds : "beds" ≠ name)
    (hamen : ∀ v : String, "amenities" ++ "_" ++ v ≠ name)
    (had : ¬ name ∈ (["amenities"] : List String))
    (hfee : "extra_people_fee" ≠ name)
    (hed : ¬ name ∈ (["extra_people"] : List String))
    (hrev : ∀ c ∈ review_scores_columns, c ≠ name) :
    KeepsCol (fun e => (fillnaMeanCol "host_listings_count" e).bind (fun f =>
      (stageVerifications f).bind (fun g => (stageBedsBaths g).bind (fun h2 =>
      (stageAmenities h2).bind (fun i2 => (stageExtraFee i2).bind (fun j2 =>
      stageReviewScores j2)))))) name := by
  exact KeepsCol.bind (keeps_fillnaMeanCol hhl)
    (KeepsCol.bind (keeps_stageVerifications hverif hvd)
    (KeepsCol.bind (keeps_stageBedsBaths hbaths hbeds2 hbeds)
    (KeepsCol.bind (keeps_stageAmenities hamen had)
    (KeepsCol.bind (keeps_stageExtraFee hfee hed)
      (keeps_stageReviewScores hrev)))))

/-! ## `value_dict` lemmas -/

theorem dictGet_dictUpd_self (d : List (String × ℕ)) (k : String) :
    dictGet (dictUpd d k) k =
      some (match dictGet d k with | some c => c + 1 | none => 0) := by
  induction d with
  | nil => simp [dictUpd, dictGet, List.find?]
  | cons p rest ih =>
    obtain ⟨k', c⟩ := p
    by_cases hk : k' = k
    · subst hk
      simp [dictUpd, dictGet, List.find?]
    · simpa [dictUpd, hk, dictGet, List.find?] using ih

theorem dictGet_dictUpd_ne (d : List (String × ℕ)) (k k' : String)
    (h : k' ≠ k) : dictGet (dictUpd d k) k' = dictGet d k' := by
  induction d with
  | nil => simp [dictUpd, dictGet, List.find?, Ne.symm h]
  | cons p rest ih =>
    obtain ⟨k0, c⟩ := p
    by_cases hk : k0 = k
    · subst hk
      simp [dictUpd, dictGet, List.find?, h, Ne.symm h]
    · by_cases hk' : k0 = k'
      · subst hk'
        simp [dictUpd, dictGet, List.find?, hk]
      · simpa [dictUpd, hk, dictGet, List.find?, hk'] using ih

theorem dictUpd_keys (d : List (String × ℕ)) (k : String) :
    (dictUpd d k).map Prod.fst =
      if k ∈ d.map Prod.fst then d.map Prod.fst
      else d.map Prod.fst ++ [k] := by
  induction d with
  | nil => simp [dictUpd]
  | cons p rest ih =>
    obtain ⟨k0, c⟩ := p
    by_cases hk : k0 = k
    · subst hk
      simp [dictUpd]
    · by_cases hmem : k ∈ rest.map Prod.fst
      · simp only [dictUpd, if_neg hk, List.map_cons, ih, if_pos hmem]
        rw [if_pos]
        exact List.mem_cons_of_mem _ hmem
      · simp only [dictUpd, if_neg hk, List.map_cons, ih, if_neg hmem]
        rw [if_neg, List.cons_append]
        intro hc
        rcases List.mem_cons.mp hc with h | h
        · exact hk h.symm
        · exact hmem h

theorem dictGet_mem {d : List (String × ℕ)} (hn : (d.map Prod.fst).Nodup)
    {p : String × ℕ} (hp : p ∈ d) : dictGet d p.1 = some p.2 := by
  induction d with
  | nil => simp at hp
  | cons q rest ih =>
    obtain ⟨k0, c0⟩ := q
    rcases List.mem_cons.mp hp with rfl | h
    · simp [dictGet, List.find?]
    · have hk : p.1 ≠ k0 := by
        intro he
        have : k0 ∈ rest.map Prod.fst := by
          rw [← he]
          exact List.mem_map.mpr ⟨p, h, rfl⟩
        exact (List.nodup_cons.mp hn).1 this
      have := ih (List.nodup_cons.mp hn).2 h
      simpa [dictGet, List.find?, Ne.symm hk] using this

theorem dictAddAll_inv (ks : List String) :
    ∀ (d : List (String × ℕ)) (ks0 : List String),
      (∀ k : String, (dictGet d k = none ∧ ks0.count k = 0) ∨
        (∃ c, dictGet d k = some c ∧ c + 1 = ks0.count k)) →
      (∀ k : String, (dictGet (dictAddAll d ks) k = none ∧
          (ks0 ++ ks).count k = 0) ∨
        (∃ c, dictGet (dictAddAll d ks) k = some c ∧
          c + 1 = (ks0 ++ ks).count k)) := by
  induction ks with
  | nil => intro d ks0 h; simpa [dictAddAll] using h
  | cons k ks ih =>
    intro d ks0 h
    have hstep : ∀ k' : String, (dictGet (dictUpd d k) k' = none ∧
        (ks0 ++ [k]).count k' = 0) ∨
        (∃ c, dictGet (dictUpd d k) k' = some c ∧
          c + 1 = (ks0 ++ [k]).count k') := by
      intro k'
      by_cases hk : k' = k
      · subst hk
        rcases h k' with ⟨h1, h2⟩ | ⟨c, h1, h2⟩
        · refine Or.inr ⟨0, ?_, ?_⟩
          · rw [dictGet_dictUpd_self, h1]
          · simp [List.count_append, h2]
        · refine Or.inr ⟨c + 1, ?_, ?_⟩
          · rw [dictGet_dictUpd_self, h1]
          · simp [List.count_append, ← h2]
      · rcases h k' with ⟨h1, h2⟩ | ⟨c, h1, h2⟩
        · refine Or.inl ⟨?_, ?_⟩
          · rw [dictGet_dictUpd_ne d k k' hk, h1]
          · simp [List.count_append, h2, List.count_singleton', hk]
        · refine Or.inr ⟨c, ?_, ?_⟩
          · rw [dictGet_dictUpd_ne d k k' hk, h1]
          · simp [List.count_append, ← h2, List.count_singleton', hk]
    intro k'
    have h2 := ih (dictUpd d k) (ks0 ++ [k]) hstep k'
    have hfold : dictAddAll d (k :: ks) = dictAddAll (dictUpd d k) ks := by
      rw [dictAddAll, dictAddAll, List.foldl_cons]
    rw [hfold, List.append_cons]
    exact h2

theorem pdUniqueAux_congr {α : Type} [DecidableEq α] :
    ∀ {l s1 s2 : List α}, (∀ a, a ∈ s1 ↔ a ∈ s2) →
      pdUniqueAux s1 l = pdUniqueAux s2 l := by
  intro l
  induction l with
  | nil => intro s1 s2 _; rfl
  | cons a rest ih =>
    intro s1 s2 h
    by_cases ha : a ∈ s1
    · rw [pdUniqueAux, if_pos ha, pdUniqueAux, if_pos ((h a).mp ha)]
      exact ih h
    · rw [pdUniqueAux, if_neg ha, pdUniqueAux, if_neg (fun hx => ha ((h a).mpr hx))]
      congr 1
      apply ih
      intro b
      simp [h b]

theorem dictAddAll_keys (ks : List String) :
    ∀ (d : List (String × ℕ)),
      (dictAddAll d ks).map Prod.fst =
        d.map Prod.fst ++ pdUniqueAux (d.map Prod.fst) ks := by
  induction ks with
  | nil => intro d; simp [dictAddAll, pdUniqueAux]
  | cons k ks ih =>
    intro d
    have hstep : dictAddAll d (k :: ks) = dictAddAll (dictUpd d k) ks := by
      simp [dictAddAll]
    rw [hstep, ih (dictUpd d k), dictUpd_keys]
    by_cases hmem : k ∈ d.map Prod.fst
    · rw [if_pos hmem, pdUniqueAux, if_pos hmem]
    · rw [if_neg hmem, pdUniqueAux, if_neg hmem]
      rw [List.append_assoc]
      congr 1
      rw [List.singleton_append]
      congr 1
      apply pdUniqueAux_congr
      intro a
      simp [or_comm]

theorem dictAddAll_nodup_keys (ks : List String) :
    ∀ (d : List (String × ℕ)), (d.map Prod.fst).Nodup →
      ((dictAddAll d ks).map Prod.fst).Nodup := by
  induction ks with
  | nil => intro d h; simpa [dictAddAll] using h
  | cons k ks ih =>
    intro d h
    have hstep : dictAddAll d (k :: ks) = dictAddAll (dictUpd d k) ks := by
      simp [dictAddAll]
    rw [hstep]
    apply ih
    rw [dictUpd_keys]
    by_cases hmem : k ∈ d.map Prod.fst
    · rwa [if_pos hmem]
    · rw [if_neg hmem]
      refine List.Nodup.append h (List.nodup_singleton k) ?_
      intro a ha hb
      rw [List.mem_singleton] at hb
      subst hb
      exact hmem ha

theorem buildValueDict_eq (uniques : List String) :
    buildValueDict uniques = dictAddAll [] (uniques.flatMap parseListCell) := by
  have hgen : ∀ (us : List String) (d : List (String × ℕ)),
      us.foldl (fun d uv => dictAddAll d (parseListCell uv)) d =
        dictAddAll d (us.flatMap parseListCell) := by
    intro us
    induction us with
    | nil => intro d; simp [dictAddAll]
    | cons u us ih =>
      intro d
      rw [List.foldl_cons, ih, List.flatMap_cons]
      rw [dictAddAll, dictAddAll, dictAddAll, List.foldl_append]
  exact hgen uniques []

theorem buildValueDict_counts (uniques : List String) :
    ∀ p ∈ buildValueDict uniques, p.2 + 1 = itemOccur uniques p.1 := by
  intro p hp
  have hbase : ∀ k : String, (dictGet ([] : List (String × ℕ)) k = none ∧
      (([] : List String)).count k = 0) ∨
      (∃ c, dictGet ([] : List (String × ℕ)) k = some c ∧
        c + 1 = (([] : List String)).count k) := by
    intro k
    exact Or.inl ⟨rfl, rfl⟩
  have hinv := dictAddAll_inv (uniques.flatMap parseListCell) [] [] hbase
  have hnodup : ((dictAddAll ([] : List (String × ℕ))
      (uniques.flatMap parseListCell)).map Prod.fst).Nodup := by
    exact dictAddAll_nodup_keys _ [] (by simp)
  rw [buildValueDict_eq] at hp
  have hget := dictGet_mem hnodup hp
  rcases hinv p.1 with ⟨h1, -⟩ | ⟨c, h1, h2⟩
  · rw [hget] at h1
    cases h1
  · rw [hget] at h1
    rw [Option.some_inj] at h1
    subst h1
    rw [itemOccur]
    simpa using h2

theorem buildValueDict_keys (uniques : List String) :
    (buildValueDict uniques).map Prod.fst =
      pdUnique (uniques.flatMap parseListCell) := by
  rw [buildValueDict_eq, dictAddAll_keys]
  simp [pdUnique]

/-! ## Stability of the descending sort under the off-by-one count -/

theorem orderedInsert_shift (x : String × ℕ) :
    ∀ (l : List (String × ℕ)),
      List.orderedInsert (fun a b : String × ℕ => b.2 ≤ a.2)
          (x.1, x.2 + 1) (l.map (fun p => (p.1, p.2 + 1))) =
        (List.orderedInsert (fun a b : String × ℕ => b.2 ≤ a.2) x l).map
          (fun p => (p.1, p.2 + 1)) := by
  intro l
  induction l with
  | nil => rfl
  | cons y ys ih =>
    by_cases h : y.2 ≤ x.2
    · simp [List.orderedInsert, h, Nat.succ_le_succ h]
    · have h' : ¬ y.2 + 1 ≤ x.2 + 1 := fun hc => h (Nat.le_of_succ_le_succ hc)
      simp only [List.orderedInsert, List.map_cons]
      rw [if_neg h', if_neg h, List.map_cons, ih]

theorem sortByCountDesc_shift (l : List (String × ℕ)) :
    sortByCountDesc (l.map (fun p => (p.1, p.2 + 1))) =
      (sortByCountDesc l).map (fun p => (p.1, p.2 + 1)) := by
  induction l with
  | nil => rfl
  | cons x xs ih =>
    show List.orderedInsert (fun a b : String × ℕ => b.2 ≤ a.2) (x.1, x.2 + 1)
        (sortByCountDesc (xs.map (fun p => (p.1, p.2 + 1)))) =
      (List.orderedInsert (fun a b : String × ℕ => b.2 ≤ a.2) x
        (sortByCountDesc xs)).map (fun p => (p.1, p.2 + 1))
    rw [ih]
    exact orderedInsert_shift x _

theorem trueCountDict_eq_shift (uniques : List String) :
    trueCountDict uniques =
      (buildValueDict uniques).map (fun p => (p.1, p.2 + 1)) := by
  rw [trueCountDict]
  apply List.map_congr_left
  intro p hp
  rw [buildValueDict_counts uniques p hp]

theorem selectedItems_eq_trueCounts (uniques : List String) (n : ℕ) :
    selectedItems uniques n =
      ((sortByCountDesc (trueCountDict uniques)).take n).map Prod.fst := by
  rw [trueCountDict_eq_shift, sortByCountDesc_shift, ← List.map_take,
    List.map_map, selectedItems]
  rfl

theorem selectedItems_length_le (uniques : List String) (n : ℕ) :
    (selectedItems uniques n).length ≤ n := by
  rw [selectedItems, List.length_map]
  exact le_trans (List.length_take_le _ _) le_rfl

/-! ## Claim-level helper lemmas -/

theorem pyFloat_null_iff {s : String} :
    pyFloat s = some Cell.null ↔ trimChars s.data = ['n', 'a', 'n'] := by
  constructor
  · intro h
    rw [pyFloat] at h
    split at h
    · assumption
    · exfalso
      split at h
      · split at h
        · rw [Option.map_eq_some'] at h
          obtain ⟨q, -, hq⟩ := h
          cases hq
        · rw [Option.bind_eq_some] at h
          obtain ⟨q, -, h⟩ := h
          rw [Option.map_eq_some'] at h
          obtain ⟨q', -, hq⟩ := h
          cases hq
        · cases h
  · intro h
    rw [pyFloat, if_pos h]

theorem stageExtraFee_fee {t t' : Table} (h : stageExtraFee t = some t') :
    ∀ r' ∈ t', lookupCell r' "extra_people_fee" = some (Cell.num 0) ∨
      lookupCell r' "extra_people_fee" = some (Cell.num 1) := by
  rw [stageExtraFee, Option.bind_eq_some] at h
  obtain ⟨a, ha, hdrop⟩ := h
  have haprop : ∀ r ∈ a, lookupCell r "extra_people_fee" = some (Cell.num 0) ∨
      lookupCell r "extra_people_fee" = some (Cell.num 1) := by
    intro r hra
    obtain ⟨r0, hr0, hf⟩ := mapRowsM_mem ha r hra
    rw [Option.map_eq_some'] at hf
    obtain ⟨cell, hcell, rfl⟩ := hf
    rw [get_extra_people_fee, Option.map_eq_some'] at hcell
    obtain ⟨c0, -, rfl⟩ := hcell
    rw [lookupCell_setCell_self]
    by_cases h0 : c0 = Cell.str "$0.00"
    · exact Or.inl (by rw [if_pos h0])
    · exact Or.inr (by rw [if_neg h0])
  intro r' hr'
  obtain ⟨r, hra, he⟩ :=
    @keeps_dropCols ["extra_people"] "extra_people_fee" (by simp) a t' hdrop r' hr'
  rw [he]
  exact haprop r hra

theorem clean_dataset_destruct {l cal out : Table}
    (h : clean_dataset l cal = some out) :
    ∃ a b c d e f g h2 i2 j2,
      stageMergeDrop l cal = some a ∧ stageDates a = some b ∧
      stagePrice b = some c ∧ stageHostSince c = some d ∧
      stageResponseRate d = some e ∧
      fillnaMeanCol "host_listings_count" e = some f ∧
      stageVerifications f = some g ∧ stageBedsBaths g = some h2 ∧
      stageAmenities h2 = some i2 ∧ stageExtraFee i2 = some j2 ∧
      stageReviewScores j2 = some out := by
  rw [clean_dataset] at h
  simp only [Option.bind_eq_some] at h
  obtain ⟨a, ha, b, hb, c, hc, d, hd, e, he, f, hf, g, hg, h2, hh2, i2, hi2,
    j2, hj2, hout⟩ := h
  exact ⟨a, b, c, d, e, f, g, h2, i2, j2, ha, hb, hc, hd, he, hf, hg, hh2,
    hi2, hj2, hout⟩

theorem verif_dummy_ne (name : String)
    (h : name.data.take (("host_verifications" ++ "_").data.length) ≠
      ("host_verifications" ++ "_").data) :
    ∀ v : String, "host_verifications" ++ "_" ++ v ≠ name :=
  fun v => append_ne_of_take_ne ("host_verifications" ++ "_") v name h

theorem amen_dummy_ne (name : String)
    (h : name.data.take (("amenities" ++ "_").data.length) ≠
      ("amenities" ++ "_").data) :
    ∀ v : String, "amenities" ++ "_" ++ v ≠ name :=
  fun v => append_ne_of_take_ne ("amenities" ++ "_") v name h

/-- Composite of the pipeline tail that follows the response-rate stage,
rebuilt from its per-stage equations. -/
theorem pipeline_tail_eq {e f g h2 i2 j2 out : Table}
    (hf : fillnaMeanCol "host_listings_count" e = some f)
    (hg : stageVerifications f = some g) (hh2 : stageBedsBaths g = some h2)
    (hi2 : stageAmenities h2 = some i2) (hj2 : stageExtraFee i2 = some j2)
    (hout : stageReviewScores j2 = some out) :
    (fun e0 => (fillnaMeanCol "host_listings_count" e0).bind (fun f0 =>
      (stageVerifications f0).bind (fun g0 => (stageBedsBaths g0).bind
      (fun h0 => (stageAmenities h0).bind (fun i0 =>
      (stageExtraFee i0).bind (fun j0 =>
      stageReviewScores j0)))))) e = some out := by
  simp only [hf, hg, hh2, hi2, hj2, hout, Option.some_bind]

/-! ## Concrete run equations (each pipeline step is verified once on a
literal intermediate table and the steps are chained) -/

/-- Binding a computation known to return `some` runs the continuation on
the returned table. -/
theorem bind_some_eq (F : Table → Option Table) {o : Option Table}
    {a : Table} (h : o = some a) : o.bind F = F a := by
  subst h
  rfl

/-- Binding a computation known to fail propagates the failure. -/
theorem bind_none_eq (F : Table → Option Table) {o : Option Table}
    (h : o = none) : o.bind F = none := by
  subst h
  rfl

/-- Associativity of `Option.bind`, specialised to tables: running `p`
inside the continuation is the same as running it first. -/
theorem bind_congr_assoc (m : Option Table) (p K : Table → Option Table) :
    m.bind (fun df => (p df).bind K) = (m.bind p).bind K := by
  cases m <;> rfl

/-- Composing the eleven pipeline steps: if every step maps its literal
input table to the next one, `clean_dataset` maps the original input to
the final table. -/
theorem clean_dataset_stages {l cal a b c d e f g h2 i2 j2 out : Table}
    (h1 : stageMergeDrop l cal = some a)
    (hb : stageDates a = some b)
    (hc : stagePrice b = some c)
    (hd : stageHostSince c = some d)
    (he : stageResponseRate d = some e)
    (hf : fillnaMeanCol "host_listings_count" e = some f)
    (hg : stageVerifications f = some g)
    (hh : stageBedsBaths g = some h2)
    (hi : stageAmenities h2 = some i2)
    (hj : stageExtraFee i2 = some j2)
    (hout : stageReviewScores j2 = some out) :
    clean_dataset l cal = some out :=
  (bind_some_eq _ h1).trans
    ((bind_some_eq _ hb).trans
      ((bind_some_eq _ hc).trans
        ((bind_some_eq _ hd).trans
          ((bind_some_eq _ he).trans
            ((bind_some_eq _ hf).trans
              ((bind_some_eq _ hg).trans
                ((bind_some_eq _ hh).trans
                  ((bind_some_eq _ hi).trans
                    ((bind_some_eq _ hj).trans hout)))))))))

/-- Pipeline step 1 of the successful sample run. -/
theorem goodS1 : stageMergeDrop goodListings goodCalendar = some goodT1 := by
  with_unfolding_all rfl

/-- Pipeline step 2 of the successful sample run. -/
theorem goodS2 : stageDates goodT1 = some goodT2 := by
  with_unfolding_all rfl

/-- Pipeline step 3 of the successful sample run. -/
theorem goodS3 : stagePrice goodT2 = some goodT3 := by
  with_unfolding_all rfl

/-- Pipeline step 4 of the successful sample run. -/
theorem goodS4 : stageHostSince goodT3 = some goodT4 := by
  with_unfolding_all rfl

/-- Pipeline step 5 of the successful sample run. -/
theorem goodS5 : stageResponseRate goodT4 = some goodT5 := by
  with_unfolding_all rfl

/-- Pipeline step 6 of the successful sample run. -/
theorem goodS6 : fillnaMeanCol "host_listings_count" goodT5 = some goodT6 := by
  with_unfolding_all rfl

/-- Pipeline step 7 of the successful sample run. -/
theorem goodS7 : stageVerifications goodT6 = some goodT7 := by
  with_unfolding_all rfl

/-- Pipeline step 8 of the successful sample run. -/
theorem goodS8 : stageBedsBaths goodT7 = some goodT8 := by
  with_unfolding_all rfl

/-- Pipeline step 9 of the successful sample run. -/
theorem goodS9 : stageAmenities goodT8 = some goodT9 := by
  with_unfolding_all rfl

/-- Pipeline step 10 of the successful sample run. -/
theorem goodS10 : stageExtraFee goodT9 = some goodT10 := by
  with_unfolding_all rfl

/-- Pipeline step 11 of the successful sample run. -/
theorem goodS11 : stageReviewScores goodT10 = some goodOut := by
  with_unfolding_all rfl

/-- Pipeline step 1 of the negative-price run. -/
theorem negS1 : stageMergeDrop [listA] [calNeg] = some negT1 := by
  with_unfolding_all rfl

/-- Pipeline step 2 of the negative-price run. -/
theorem negS2 : stageDates negT1 = some negT2 := by
  with_unfolding_all rfl

/-- Pipeline step 3 of the negative-price run. -/
theorem negS3 : stagePrice negT2 = some negT3 := by
  with_unfolding_all rfl

/-- Pipeline step 4 of the negative-price run. -/
theorem negS4 : stageHostSince negT3 = some negT4 := by
  with_unfolding_all rfl

/-- Pipeline step 5 of the negative-price run. -/
theorem negS5 : stageResponseRate negT4 = some negT5 := by
  with_unfolding_all rfl

/-- Pipeline step 6 of the negative-price run. -/
theorem negS6 : fillnaMeanCol "host_listings_count" negT5 = some negT6 := by
  with_unfolding_all rfl

/-- Pipeline step 7 of the negative-price run. -/
theorem negS7 : stageVerifications negT6 = some negT7 := by
  with_unfolding_all rfl

/-- Pipeline step 8 of the negative-price run. -/
theorem negS8 : stageBedsBaths negT7 = some negT8 := by
  with_unfolding_all rfl

/-- Pipeline step 9 of the negative-price run. -/
theorem negS9 : stageAmenities negT8 = some negT9 := by
  with_unfolding_all rfl

/-- Pipeline step 10 of the negative-price run. -/
theorem negS10 : stageExtraFee negT9 = some negT10 := by
  with_unfolding_all rfl

/-- Pipeline step 11 of the negative-price run. -/
theorem negS11 : stageReviewScores negT10 = some negOut := by
  with_unfolding_all rfl

/-- Pipeline step 1 of the unparseable-host-since run. -/
theorem bhsS1 : stageMergeDrop [listBadHS, listB] [calA1, calB1] = some bhsT1 := by
  with_unfolding_all rfl

/-- Pipeline step 2 of the unparseable-host-since run. -/
theorem bhsS2 : stageDates bhsT1 = some bhsT2 := by
  with_unfolding_all rfl

/-- Pipeline step 3 of the unparseable-host-since run. -/
theorem bhsS3 : stagePrice bhsT2 = some bhsT3 := by
  with_unfolding_all rfl

/-- Pipeline step 4 of the unparseable-host-since run. -/
theorem bhsS4 : stageHostSince bhsT3 = some bhsT4 := by
  with_unfolding_all rfl

/-- Pipeline step 5 of the unparseable-host-since run. -/
theorem bhsS5 : stageResponseRate bhsT4 = some bhsT5 := by
  with_unfolding_all rfl

/-- Pipeline step 6 of the unparseable-host-since run. -/
theorem bhsS6 : fillnaMeanCol "host_listings_count" bhsT5 = some bhsT6 := by
  with_unfolding_all rfl

/-- Pipeline step 7 of the unparseable-host-since run. -/
theorem bhsS7 : stageVerifications bhsT6 = some bhsT7 := by
  with_unfolding_all rfl

/-- Pipeline step 8 of the unparseable-host-since run. -/
theorem bhsS8 : stageBedsBaths bhsT7 = some bhsT8 := by
  with_unfolding_all rfl

/-- Pipeline step 9 of the unparseable-host-since run. -/
theorem bhsS9 : stageAmenities bhsT8 = some bhsT9 := by
  with_unfolding_all rfl

/-- Pipeline step 10 of the unparseable-host-since run. -/
theorem bhsS10 : stageExtraFee bhsT9 = some bhsT10 := by
  with_unfolding_all rfl

/-- Pipeline step 11 of the unparseable-host-since run. -/
theorem bhsS11 : stageReviewScores bhsT10 = some badHSOut := by
  with_unfolding_all rfl

/-- Pipeline step 1 of the all-null host-listings-count run. -/
theorem nhlcS1 : stageMergeDrop [listNoHLC] [calA1] = some nhlcT1 := by
  with_unfolding_all rfl

/-- Pipeline step 2 of the all-null host-listings-count run. -/
theorem nhlcS2 : stageDates nhlcT1 = some nhlcT2 := by
  with_unfolding_all rfl

/-- Pipeline step 3 of the all-null host-listings-count run. -/
theorem nhlcS3 : stagePrice nhlcT2 = some nhlcT3 := by
  with_unfolding_all rfl

/-- Pipeline step 4 of the all-null host-listings-count run. -/
theorem nhlcS4 : stageHostSince nhlcT3 = some nhlcT4 := by
  with_unfolding_all rfl

/-- Pipeline step 5 of the all-null host-listings-count run. -/
theorem nhlcS5 : stageResponseRate nhlcT4 = some nhlcT5 := by
  with_unfolding_all rfl

/-- Pipeline step 6 of the all-null host-listings-count run. -/
theorem nhlcS6 : fillnaMeanCol "host_listings_count" nhlcT5 = some nhlcT6 := by
  with_unfolding_all rfl

/-- Pipeline step 7 of the all-null host-listings-count run. -/
theorem nhlcS7 : stageVerifications nhlcT6 = some nhlcT7 := by
  with_unfolding_all rfl

/-- Pipeline step 8 of the all-null host-listings-count run. -/
theorem nhlcS8 : stageBedsBaths nhlcT7 = some nhlcT8 := by
  with_unfolding_all rfl

/-- Pipeline step 9 of the all-null host-listings-count run. -/
theorem nhlcS9 : stageAmenities nhlcT8 = some nhlcT9 := by
  with_unfolding_all rfl

/-- Pipeline step 10 of the all-null host-listings-count run. -/
theorem nhlcS10 : stageExtraFee nhlcT9 = some nhlcT10 := by
  with_unfolding_all rfl

/-- Pipeline step 11 of the all-null host-listings-count run. -/
theorem nhlcS11 : stageReviewScores nhlcT10 = some noHLCOut := by
  with_unfolding_all rfl

/-- Pipeline step 1 of the unparseable-response-rate run. -/
theorem badRateS1 : stageMergeDrop [listBadRate] [calA1] = some brT1 := by
  with_unfolding_all rfl

/-- Pipeline step 2 of the unparseable-response-rate run. -/
theorem badRateS2 : stageDates brT1 = some brT2 := by
  with_unfolding_all rfl

/-- Pipeline step 3 of the unparseable-response-rate run. -/
theorem badRateS3 : stagePrice brT2 = some brT3 := by
  with_unfolding_all rfl

/-- Pipeline step 4 of the unparseable-response-rate run. -/
theorem badRateS4 : stageHostSince brT3 = some brT4 := by
  with_unfolding_all rfl

/-- Pipeline step 5 of the unparseable-response-rate run fails. -/
theorem badRateS5 : stageResponseRate brT4 = none := by
  with_unfolding_all rfl

/-- Pipeline step 1 of the unparseable-price run. -/
theorem badPriceS1 : stageMergeDrop [listA] [calBadPrice] = some bpT1 := by
  with_unfolding_all rfl

/-- Pipeline step 2 of the unparseable-price run. -/
theorem badPriceS2 : stageDates bpT1 = some bpT2 := by
  with_unfolding_all rfl

/-- Pipeline step 3 of the unparseable-price run fails. -/
theorem badPriceS3 : stagePrice bpT2 = none := by
  with_unfolding_all rfl

/-- Pipeline step 1 of the unparseable-date run. -/
theorem badDateS1 : stageMergeDrop [listA] [calBadDate] = some bdT1 := by
  with_unfolding_all rfl

/-- Pipeline step 2 of the unparseable-date run fails. -/
theorem badDateS2 : stageDates bdT1 = none := by
  with_unfolding_all rfl

/-- The successful sample run, assembled from its eleven steps. -/
theorem goodRunEq : clean_dataset goodListings goodCalendar = some goodOut :=
  clean_dataset_stages goodS1 goodS2 goodS3 goodS4 goodS5 goodS6 goodS7
    goodS8 goodS9 goodS10 goodS11

/-- The negative-price run, assembled from its eleven steps. -/
theorem negRunEq : clean_dataset [listA] [calNeg] = some negOut :=
  clean_dataset_stages negS1 negS2 negS3 negS4 negS5 negS6 negS7
    negS8 negS9 negS10 negS11

/-- The unparseable-price run aborts at the price-parsing step. -/
theorem badPriceRunEq : clean_dataset [listA] [calBadPrice] = none :=
  (bind_some_eq _ badPriceS1).trans
    ((bind_some_eq _ badPriceS2).trans (bind_none_eq _ badPriceS3))

/-- The unparseable-date run aborts at the date-splitting step. -/
theorem badDateRunEq : clean_dataset [listA] [calBadDate] = none :=
  (bind_some_eq _ badDateS1).trans (bind_none_eq _ badDateS2)

/-- The unparseable-response-rate run aborts at the rate-parsing step. -/
theorem badRateRunEq : clean_dataset [listBadRate] [calA1] = none :=
  (bind_some_eq _ badRateS1).trans
    ((bind_some_eq _ badRateS2).trans
      ((bind_some_eq _ badRateS3).trans
        ((bind_some_eq _ badRateS4).trans (bind_none_eq _ badRateS5))))

/-- The unparseable-host-since run, assembled from its eleven steps. -/
theorem badHSRunEq :
    clean_dataset [listBadHS, listB] [calA1, calB1] = some badHSOut :=
  clean_dataset_stages bhsS1 bhsS2 bhsS3 bhsS4 bhsS5 bhsS6 bhsS7
    bhsS8 bhsS9 bhsS10 bhsS11

/-- The all-null host-listings-count run, assembled from its eleven
steps. -/
theorem noHLCRunEq : clean_dataset [listNoHLC] [calA1] = some noHLCOut :=
  clean_dataset_stages nhlcS1 nhlcS2 nhlcS3 nhlcS4 nhlcS5 nhlcS6 nhlcS7
    nhlcS8 nhlcS9 nhlcS10 nhlcS11

/-- Pipeline step 1 of the string-bathrooms run. -/
theorem sbS1 : stageMergeDrop [listStrBath, listNullBath] [calA1, calB1] = some sbT1 := by
  with_unfolding_all rfl

/-- Pipeline step 2 of the string-bathrooms run. -/
theorem sbS2 : stageDates sbT1 = some sbT2 := by
  with_unfolding_all rfl

/-- Pipeline step 3 of the string-bathrooms run. -/
theorem sbS3 : stagePrice sbT2 = some sbT3 := by
  with_unfolding_all rfl

/-- Pipeline step 4 of the string-bathrooms run. -/
theorem sbS4 : stageHostSince sbT3 = some sbT4 := by
  with_unfolding_all rfl

/-- Pipeline step 5 of the string-bathrooms run. -/
theorem sbS5 : stageResponseRate sbT4 = some sbT5 := by
  with_unfolding_all rfl

/-- Pipeline step 6 of the string-bathrooms run. -/
theorem sbS6 : fillnaMeanCol "host_listings_count" sbT5 = some sbT6 := by
  with_unfolding_all rfl

/-- Pipeline step 7 of the string-bathrooms run. -/
theorem sbS7 : stageVerifications sbT6 = some sbT7 := by
  with_unfolding_all rfl

/-- Pipeline step 8 of the string-bathrooms run. -/
theorem sbS8 : stageBedsBaths sbT7 = some sbT8 := by
  with_unfolding_all rfl

/-- Pipeline step 9 of the string-bathrooms run. -/
theorem sbS9 : stageAmenities sbT8 = some sbT9 := by
  with_unfolding_all rfl

/-- Pipeline step 10 of the string-bathrooms run. -/
theorem sbS10 : stageExtraFee sbT9 = some sbT10 := by
  with_unfolding_all rfl

/-- Pipeline step 11 of the string-bathrooms run. -/
theorem sbS11 : stageReviewScores sbT10 = some sbOut := by
  with_unfolding_all rfl

/-- The string-bathrooms run succeeds: `Series.mode()` tolerates object
data, so the pipeline completes with string `bathrooms` cells. -/
theorem sbRunEq :
    clean_dataset [listStrBath, listNullBath] [calA1, calB1] = some sbOut :=
  clean_dataset_stages sbS1 sbS2 sbS3 sbS4 sbS5 sbS6 sbS7
    sbS8 sbS9 sbS10 sbS11

/-- `split_list_into_columns` on the frequency counterexample table. -/
theorem c1RunEq :
    split_list_into_columns c1Table "amenities" 10 = some c1Out := by
  with_unfolding_all rfl

theorem goodRow_mem : goodRow ∈ goodOut := by
  have h : goodOut = goodRow :: goodOut.tail := rfl
  rw [h]
  exact List.mem_cons_self _ _

/-! ## Claim theorems -/

/-- C9: `clean_dataset` leaves both caller dataframes unchanged: `rename`
and `merge` return fresh frames and every in-place operation targets the
merged frame, so the tracked run returns the caller environment intact and
computes the same result as `clean_dataset`. -/
theorem clean_dataset_frame :
    ∀ env : CallerEnv, (clean_dataset_tracked env).1 = env ∧
      (clean_dataset_tracked env).2 =
        clean_dataset env.listingsRef env.calendarRef := by
  intro env
  refine ⟨rfl, ?_⟩
  exact bind_congr_assoc
    (mergeTables env.calendarRef
      (renameTable "id" "listing_id" env.listingsRef) "listing_id")
    (fun df => dropCols columns_to_drop df)
    (fun df => (stageDates df).bind (fun df => (stagePrice df).bind (fun df =>
      (stageHostSince df).bind (fun df => (stageResponseRate df).bind (fun df =>
      (fillnaMeanCol "host_listings_count" df).bind (fun df =>
      (stageVerifications df).bind (fun df => (stageBedsBaths df).bind (fun df =>
      (stageAmenities df).bind (fun df => (stageExtraFee df).bind (fun df =>
      stageReviewScores df))))))))))

/-- C1 (amended): `split_list_into_columns` counts each item across the
distinct string values of the column (one contribution per distinct
string, however many rows share it; the stored count is one less than this
occurrence count, which cannot change the ordering), sorts stably by
descending count (ties keep first-encounter order), and creates one
indicator column per selected item — at most 10. -/
theorem split_list_top10_by_distinct_value_counts :
    (∀ (t : Table) (col : String) (n : ℕ) (t' : Table),
      split_list_into_columns t col n = some t' →
      ∃ (cells : List Cell) (strs : List String),
        colCellsM t col = some cells ∧
        cells.mapM (fun c => match c with
          | Cell.str s => some s | _ => none) = some strs ∧
        t' = (selectedItems (pdUnique strs) n).foldl (addDummyCol col) t) ∧
    (∀ (uniques : List String) (n : ℕ),
      selectedItems uniques n =
        ((sortByCountDesc (trueCountDict uniques)).take n).map Prod.fst) ∧
    (∀ (uniques : List String) (n : ℕ),
      (selectedItems uniques n).length ≤ n) := by
  refine ⟨?_, selectedItems_eq_trueCounts, selectedItems_length_le⟩
  intro t col n t' h
  rw [split_list_into_columns, Option.bind_eq_some] at h
  obtain ⟨cells, hcells, h⟩ := h
  rw [Option.map_eq_some'] at h
  obtain ⟨strs, hstrs, ht'⟩ := h
  exact ⟨cells, strs, hcells, hstrs, ht'.symm⟩

/-- C1 counterexample: in `c1Table` the item `a` is contained in five rows
and the item `k` in two, yet `k` receives an indicator column and `a` does
not — the code does not select the 10 most frequent items across rows. -/
theorem split_list_not_row_frequency :
    rowItemFrequency c1Table "amenities" "a" = 5 ∧
    rowItemFrequency c1Table "amenities" "k" = 2 ∧
    split_list_into_columns c1Table "amenities" 10 = some c1Out ∧
    lookupCell (c1Out.headD []) "amenities_a" = none ∧
    lookupCell (c1Out.headD []) "amenities_k" = some (Cell.num 0) :=
  ⟨by with_unfolding_all rfl, by with_unfolding_all rfl, c1RunEq,
    by with_unfolding_all rfl, by with_unfolding_all rfl⟩

/-- C1 witness: the amended statement applied to the concrete `c1Table`. -/
theorem split_list_top10_witness :
    ∃ (cells : List Cell) (strs : List String),
      colCellsM c1Table "amenities" = some cells ∧
      cells.mapM (fun c => match c with
        | Cell.str s => some s | _ => none) = some strs ∧
      c1Out = (selectedItems (pdUnique strs) 10).foldl
        (addDummyCol "amenities") c1Table :=
  split_list_top10_by_distinct_value_counts.1 c1Table "amenities" 10 c1Out
    c1RunEq

/-- C5: every indicator value is 0 or 1, and it is 1 exactly when the
row's list cell is a string whose decoded items contain the selected
value; e.g. amenities `"{TV,Wifi}"` with item `"TV"` yields 1. -/
theorem get_val_indicator :
    (∀ (r : Row) (col v : String),
      (get_val_from_list r col v = 0 ∨ get_val_from_list r col v = 1) ∧
      (get_val_from_list r col v = 1 ↔
        ∃ s, lookupCell r col = some (Cell.str s) ∧ v ∈ parseListCell s)) ∧
    get_val_from_list [("amenities", Cell.str "\x7bTV,Wifi\x7d")]
      "amenities" "TV" = 1 := by
  constructor
  · intro r col v
    rcases hl : lookupCell r col with _ | c
    · refine ⟨Or.inl (by simp [get_val_from_list, hl]), ?_, ?_⟩
      · intro h1
        simp [get_val_from_list, hl] at h1
      · rintro ⟨s, hs, -⟩
        cases hs
    · cases c with
      | str s =>
        by_cases hv : v ∈ parseListCell s
        · refine ⟨Or.inr ?_, ?_, ?_⟩
          · simp [get_val_from_list, hl, hv]
          · intro _
            exact ⟨s, rfl, hv⟩
          · intro _
            simp [get_val_from_list, hl, hv]
        · refine ⟨Or.inl ?_, ?_, ?_⟩
          · simp [get_val_from_list, hl, hv]
          · intro h1
            simp [get_val_from_list, hl, hv] at h1
          · rintro ⟨s', hs', hv'⟩
            rw [Option.some_inj] at hs'
            cases hs'
            exact absurd hv' hv
      | num q =>
        refine ⟨Or.inl (by simp [get_val_from_list, hl]), ?_, ?_⟩
        · intro h1
          simp [get_val_from_list, hl] at h1
        · rintro ⟨s, hs, -⟩
          cases hs
      | null =>
        refine ⟨Or.inl (by simp [get_val_from_list, hl]), ?_, ?_⟩
        · intro h1
          simp [get_val_from_list, hl] at h1
        · rintro ⟨s, hs, -⟩
          cases hs
  · with_unfolding_all rfl

/-- C10: `get_val_from_list` is total: it returns exactly 0.0 or 1.0, and
returns 0.0 (instead of raising) when the column is absent from the row or
the cell is missing or numeric. -/
theorem get_val_never_raises :
    ∀ (r : Row) (col v : String),
      (get_val_from_list r col v = 0 ∨ get_val_from_list r col v = 1) ∧
      (lookupCell r col = none → get_val_from_list r col v = 0) ∧
      (lookupCell r col = some Cell.null → get_val_from_list r col v = 0) ∧
      (∀ q : ℚ, lookupCell r col = some (Cell.num q) →
        get_val_from_list r col v = 0) := by
  intro r col v
  refine ⟨?_, ?_, ?_, ?_⟩
  · rcases hl : lookupCell r col with _ | c
    · exact Or.inl (by simp [get_val_from_list, hl])
    · cases c with
      | str s =>
        by_cases hv : v ∈ parseListCell s
        · exact Or.inr (by simp [get_val_from_list, hl, hv])
        · exact Or.inl (by simp [get_val_from_list, hl, hv])
      | num q => exact Or.inl (by simp [get_val_from_list, hl])
      | null => exact Or.inl (by simp [get_val_from_list, hl])
  · intro h
    simp [get_val_from_list, h]
  · intro h
    simp [get_val_from_list, h]
  · intro q h
    simp [get_val_from_list, h]

/-- C10 witness: a row without the column yields 0.0. -/
theorem get_val_never_raises_witness :
    get_val_from_list [] "amenities" "TV" = 0 :=
  (get_val_never_raises [] "amenities" "TV").2.1 rfl

/-- C4: a joined row with date `"2016-07-04"` yields month 7 and year
2016, the price string `"$150.00"` parses to 150, and the sample pipeline
run produces exactly these values in its first output row. -/
theorem cleaner_example_2016_07_04 :
    (∀ r : Row, lookupCell r "date" = some (Cell.str "2016-07-04") →
      get_month_from_date r = some (Cell.num 7) ∧
      get_year_from_date r = some (Cell.num 2016)) ∧
    parsePriceCell (Cell.str "$150.00") = some (Cell.num 150) ∧
    clean_dataset goodListings goodCalendar = some goodOut ∧
    lookupCell goodRow "month" = some (Cell.num 7) ∧
    lookupCell goodRow "year" = some (Cell.num 2016) ∧
    lookupCell goodRow "price" = some (Cell.num 150) := by
  refine ⟨?_, by with_unfolding_all rfl, goodRunEq,
    by with_unfolding_all rfl, by with_unfolding_all rfl,
    by with_unfolding_all rfl⟩
  intro r h
  constructor
  · rw [get_month_from_date, h]
    with_unfolding_all rfl
  · rw [get_year_from_date, h]
    with_unfolding_all rfl

/-- C4 witness: the row-level part applied to a concrete row. -/
theorem cleaner_example_witness :
    get_month_from_date [("date", Cell.str "2016-07-04")] =
        some (Cell.num 7) ∧
      get_year_from_date [("date", Cell.str "2016-07-04")] =
        some (Cell.num 2016) :=
  cleaner_example_2016_07_04.1 [("date", Cell.str "2016-07-04")]
    (by with_unfolding_all rfl)

/-- C6: `extra_people_fee` is 0.0 exactly for the cell `"$0.00"` and 1.0
for every other cell (missing and numeric cells compare unequal to the
string, hence 1.0), and every output row's `extra_people_fee` is 0.0 or
1.0. -/
theorem extra_people_fee_binary :
    (∀ (r : Row) (c : Cell), lookupCell r "extra_people" = some c →
      get_extra_people_fee r =
        some (if c = Cell.str "$0.00" then Cell.num 0 else Cell.num 1)) ∧
    (∀ (l cal out : Table), clean_dataset l cal = some out → ∀ r' ∈ out,
      lookupCell r' "extra_people_fee" = some (Cell.num 0) ∨
      lookupCell r' "extra_people_fee" = some (Cell.num 1)) := by
  constructor
  · intro r c h
    rw [get_extra_people_fee, h, Option.map_some']
  · intro l cal out h r' hr'
    obtain ⟨a, b, c, d, e, f, g, h2, i2, j2, -, -, -, -, -, -, -, -, -, hj2,
      hout⟩ := clean_dataset_destruct h
    have hfee := stageExtraFee_fee hj2
    exact (keeps_stageReviewScores (by decide)).carry
      (fun o => o = some (Cell.num 0) ∨ o = some (Cell.num 1)) hout hfee r' hr'

/-- C6 witness: the function-level part at `"$0.00"`, and the sample run. -/
theorem extra_people_fee_witness :
    get_extra_people_fee [("extra_people", Cell.str "$0.00")] =
        some (if Cell.str "$0.00" = Cell.str "$0.00" then Cell.num 0
          else Cell.num 1) ∧
      (lookupCell goodRow "extra_people_fee" = some (Cell.num 0) ∨
        lookupCell goodRow "extra_people_fee" = some (Cell.num 1)) := by
  constructor
  · exact extra_people_fee_binary.1 [("extra_people", Cell.str "$0.00")]
      (Cell.str "$0.00") (by with_unfolding_all rfl)
  · exact extra_people_fee_binary.2 goodListings goodCalendar goodOut
      goodRunEq goodRow goodRow_mem

/-- C2 (amended): every output row's `price` cell is numeric or null —
null exactly when the stripped price string is the float literal `"nan"`;
`dropna` keeps exactly the rows whose `price_x` is not null; an
unparseable price string aborts `clean_dataset` (see the counterexample)
instead of excluding the row, and a negative numeral yields a negative
price. -/
theorem price_numeric_not_imputed :
    (∀ (l cal out : Table), clean_dataset l cal = some out → ∀ r' ∈ out,
      ∃ cell, lookupCell r' "price" = some cell ∧
        (cell = Cell.null ∨ ∃ q, cell = Cell.num q)) ∧
    (∀ (t t' : Table), dropnaSubset "price_x" t = some t' →
      (∀ r' ∈ t', r' ∈ t ∧ lookupCell r' "price_x" ≠ some Cell.null) ∧
      (∀ r ∈ t, lookupCell r "price_x" ≠ some Cell.null → r ∈ t')) ∧
    (∀ s : String, parsePriceCell (Cell.str s) = some Cell.null ↔
      trimChars (s.data.filter (fun ch => !(decide (ch ∈ pricePunct)))) =
        ['n', 'a', 'n']) := by
  refine ⟨?_, ?_, ?_⟩
  · intro l cal out h r' hr'
    obtain ⟨a, b, c, d, e, f, g, h2, i2, j2, -, -, hc, hd, he, hf, hg, hh2,
      hi2, hj2, hout⟩ := clean_dataset_destruct h
    have hcp := stagePrice_price hc
    have hP1 := (keeps_stageHostSince (by decide) (by decide)).carry
      (fun o => ∃ cell, o = some cell ∧
        (cell = Cell.null ∨ ∃ q, cell = Cell.num q)) hd hcp
    have hP2 := (keeps_stageResponseRate (by decide) (by decide)
      (by decide)).carry
      (fun o => ∃ cell, o = some cell ∧
        (cell = Cell.null ∨ ∃ q, cell = Cell.num q)) he hP1
    have htail := pipeline_tail_eq hf hg hh2 hi2 hj2 hout
    have hP3 := (keeps_pipeline_tail (by decide)
      (verif_dummy_ne "price" (by decide)) (by decide) (by decide)
      (by decide) (by decide) (amen_dummy_ne "price" (by decide))
      (by decide) (by decide) (by decide) (by decide)).carry
      (fun o => ∃ cell, o = some cell ∧
        (cell = Cell.null ∨ ∃ q, cell = Cell.num q)) htail hP2
    exact hP3 r' hr'
  · intro t t' h
    rw [dropnaSubset] at h
    split at h
    · rw [Option.some_inj] at h
      subst h
      constructor
      · intro r' hr'
        have hm := List.mem_filter.mp hr'
        exact ⟨hm.1, by simpa using hm.2⟩
      · intro r hr hne
        exact List.mem_filter.mpr ⟨hr, by simpa using hne⟩
    · cases h
  · intro s
    exact pyFloat_null_iff

/-- C2 counterexample: a price of `"-$5.00"` survives cleaning with the
negative value −5, and an unparseable price `"abc"` aborts the whole run
instead of excluding that row. -/
theorem price_negative_and_fatal_counterexample :
    clean_dataset [listA] [calNeg] = some negOut ∧
    lookupCell (negOut.headD []) "price" = some (Cell.num (-5)) ∧
    clean_dataset [listA] [calBadPrice] = none :=
  ⟨negRunEq, by with_unfolding_all rfl, badPriceRunEq⟩

/-- C2 witness: the amended statement at the sample run. -/
theorem price_numeric_witness :
    ∃ cell, lookupCell goodRow "price" = some cell ∧
      (cell = Cell.null ∨ ∃ q, cell = Cell.num q) := by
  exact price_numeric_not_imputed.1 goodListings goodCalendar goodOut
    goodRunEq goodRow goodRow_mem

/-- C8 (amended): every output row's `host_response_rate_buckets` cell is
either null (when duplicate-dropping leaves fewer than two quantile edges:
constant or all-missing rate column) or an integer in `{0, ..., 4}`; with
at least two distinct edges the bucket code of any column value is at most
4. -/
theorem response_rate_buckets_range :
    (∀ (l cal out : Table), clean_dataset l cal = some out → ∀ r' ∈ out,
      ∃ cell, lookupCell r' "host_response_rate_buckets" = some cell ∧
        (cell = Cell.null ∨ ∃ n : ℕ, n ≤ 4 ∧ cell = Cell.num (n : ℚ))) ∧
    (∀ (l : List ℚ) (x : ℚ), x ∈ l → 2 ≤ (qcutBins l).length →
      qcutCode (qcutBins l) x ≤ 4) := by
  constructor
  · intro l cal out h r' hr'
    obtain ⟨a, b, c, d, e, f, g, h2, i2, j2, -, -, -, -, he, hf, hg, hh2,
      hi2, hj2, hout⟩ := clean_dataset_destruct h
    rw [stageResponseRate, Option.bind_eq_some] at he
    obtain ⟨u, hu, he⟩ := he
    rw [Option.bind_eq_some] at he
    obtain ⟨w, hw, he⟩ := he
    rw [Option.bind_eq_some] at he
    obtain ⟨x, hx, hdropRR⟩ := he
    have hxprop := qcutColumn_buckets hx
    have hdprop := (@keeps_dropCols
      ["host_response_rate", "host_response_rate_num"]
      "host_response_rate_buckets" (by decide)).carry
      (fun o => ∃ cell, o = some cell ∧
        (cell = Cell.null ∨ ∃ n : ℕ, n ≤ 4 ∧ cell = Cell.num (n : ℚ)))
      hdropRR hxprop
    have htail := pipeline_tail_eq hf hg hh2 hi2 hj2 hout
    have hfinal := (keeps_pipeline_tail (by decide)
      (verif_dummy_ne "host_response_rate_buckets" (by decide)) (by decide)
      (by decide) (by decide) (by decide)
      (amen_dummy_ne "host_response_rate_buckets" (by decide)) (by decide)
      (by decide) (by decide) (by decide)).carry
      (fun o => ∃ cell, o = some cell ∧
        (cell = Cell.null ∨ ∃ n : ℕ, n ≤ 4 ∧ cell = Cell.num (n : ℚ)))
      htail hdprop
    exact hfinal r' hr'
  · intro l x hx hb
    exact qcutCode_le_four hx hb

/-- C8 counterexample: a constant response-rate column (a single listing
with rate 80%) collapses all quantile edges, and the bucket cell of the
output row is null rather than an integer in `{0, ..., 4}`. -/
theorem response_rate_buckets_null_counterexample :
    clean_dataset [listNoHLC] [calA1] = some noHLCOut ∧
    lookupCell (noHLCOut.headD []) "host_response_rate_buckets" =
      some Cell.null :=
  ⟨noHLCRunEq, by with_unfolding_all rfl⟩

/-- C8 witness: the amended statement at the sample run (whose buckets are
0 and 4). -/
theorem response_rate_buckets_witness :
    ∃ cell, lookupCell goodRow "host_response_rate_buckets" = some cell ∧
      (cell = Cell.null ∨ ∃ n : ℕ, n ≤ 4 ∧ cell = Cell.num (n : ℚ)) := by
  exact response_rate_buckets_range.1 goodListings goodCalendar goodOut
    goodRunEq goodRow goodRow_mem

/-! ## Tail composites used by C3 and C7 -/

theorem tail5_eq {f g h2 i2 j2 out : Table}
    (hg : stageVerifications f = some g) (hh2 : stageBedsBaths g = some h2)
    (hi2 : stageAmenities h2 = some i2) (hj2 : stageExtraFee i2 = some j2)
    (hout : stageReviewScores j2 = some out) :
    (fun f0 => (stageVerifications f0).bind (fun g0 =>
      (stageBedsBaths g0).bind (fun h0 => (stageAmenities h0).bind
      (fun i0 => (stageExtraFee i0).bind (fun j0 =>
      stageReviewScores j0))))) f = some out := by
  simp only [hg, hh2, hi2, hj2, hout, Option.some_bind]

theorem keeps_tail5 {name : String}
    (hverif : ∀ v : String, "host_verifications" ++ "_" ++ v ≠ name)
    (hvd : ¬ name ∈ (["host_verifications"] : List String))
    (hbaths : "bathrooms" ≠ name) (hbeds2 : "bedrooms" ≠ name)
    (hbeds : "beds" ≠ name)
    (hamen : ∀ v : String, "amenities" ++ "_" ++ v ≠ name)
    (had : ¬ name ∈ (["amenities"] : List String))
    (hfee : "extra_people_fee" ≠ name)
    (hed : ¬ name ∈ (["extra_people"] : List String))
    (hrev : ∀ c ∈ review_scores_columns, c ≠ name) :
    KeepsCol (fun f0 => (stageVerifications f0).bind (fun g0 =>
      (stageBedsBaths g0).bind (fun h0 => (stageAmenities h0).bind
      (fun i0 => (stageExtraFee i0).bind (fun j0 =>
      stageReviewScores j0))))) name :=
  KeepsCol.bind (keeps_stageVerifications hverif hvd)
    (KeepsCol.bind (keeps_stageBedsBaths hbaths hbeds2 hbeds)
    (KeepsCol.bind (keeps_stageAmenities hamen had)
    (KeepsCol.bind (keeps_stageExtraFee hfee hed)
      (keeps_stageReviewScores hrev))))

theorem tail3_eq {h2 i2 j2 out : Table}
    (hi2 : stageAmenities h2 = some i2) (hj2 : stageExtraFee i2 = some j2)
    (hout : stageReviewScores j2 = some out) :
    (fun h0 => (stageAmenities h0).bind (fun i0 =>
      (stageExtraFee i0).bind (fun j0 => stageReviewScores j0))) h2 =
      some out := by
  simp only [hi2, hj2, hout, Option.some_bind]

theorem keeps_tail3 {name : String}
    (hamen : ∀ v : String, "amenities" ++ "_" ++ v ≠ name)
    (had : ¬ name ∈ (["amenities"] : List String))
    (hfee : "extra_people_fee" ≠ name)
    (hed : ¬ name ∈ (["extra_people"] : List String))
    (hrev : ∀ c ∈ review_scores_columns, c ≠ name) :
    KeepsCol (fun h0 => (stageAmenities h0).bind (fun i0 =>
      (stageExtraFee i0).bind (fun j0 => stageReviewScores j0))) name :=
  KeepsCol.bind (keeps_stageAmenities hamen had)
    (KeepsCol.bind (keeps_stageExtraFee hfee hed)
      (keeps_stageReviewScores hrev))

/-- A numeric-or-all-null dichotomy survives any column-keeping step. -/
theorem dichotomy_carry {op : Table → Option Table} {name : String}
    (hk : KeepsCol op name) {t t' : Table} (h : op t = some t')
    (hd : (∀ r ∈ t, ∃ q, lookupCell r name = some (Cell.num q)) ∨
      (∀ r ∈ t, lookupCell r name = some Cell.null)) :
    (∀ r' ∈ t', ∃ q, lookupCell r' name = some (Cell.num q)) ∨
    (∀ r' ∈ t', lookupCell r' name = some Cell.null) := by
  rcases hd with hd | hd
  · exact Or.inl (hk.carry (fun o => ∃ q, o = some (Cell.num q)) h hd)
  · exact Or.inr (hk.carry (fun o => o = some Cell.null) h hd)

/-- `fillnaMeanCol` itself establishes the dichotomy. -/
theorem fillnaMean_dichotomy {name : String} {t t' : Table}
    (h : fillnaMeanCol name t = some t') :
    (∀ r' ∈ t', ∃ q, lookupCell r' name = some (Cell.num q)) ∨
    (∀ r' ∈ t', lookupCell r' name = some Cell.null) :=
  (fillnaMeanCol_shape h).imp id And.left

/-- C3 (amended): an unparseable `host_since` value is treated exactly
like a missing one (the bare `except` yields `NaN`, later imputed), but an
unparseable calendar date or response-rate value aborts the corresponding
stage of `clean_dataset` with an exception instead of being treated as
missing. -/
theorem unparseable_handling :
    (∀ (r : Row) (s : String),
      lookupCell r "host_since" = some (Cell.str s) →
      pyInt (String.mk ((splitOnChar '-' s.data).headD [])) = none →
      get_host_since_year r = Cell.null) ∧
    (∀ r : Row, lookupCell r "host_since" = some Cell.null →
      get_host_since_year r = Cell.null) ∧
    (∀ t : Table, (∃ r ∈ t, get_month_from_date r = none) →
      stageDates t = none) ∧
    (∀ t : Table,
      (∃ r ∈ t, (lookupCell r "host_response_rate").bind parseRateCell =
        none) → stageResponseRate t = none) := by
  refine ⟨?_, ?_, ?_, ?_⟩
  · intro r s h hp
    rw [List.headD_eq_head?_getD] at hp
    simp [get_host_since_year, h, hp]
  · intro r h
    simp [get_host_since_year, h]
  · rintro t ⟨r, hr, hm⟩
    rw [stageDates]
    have hnone : setColumnM "month" get_month_from_date t = none := by
      apply mapRowsM_none
      exact ⟨r, hr, by rw [hm]; rfl⟩
    rw [hnone]
    rfl
  · rintro t ⟨r, hr, hm⟩
    rw [stageResponseRate]
    have hnone : setColumnM "host_response_rate_num"
        (fun r0 => (lookupCell r0 "host_response_rate").bind parseRateCell)
        t = none := by
      apply mapRowsM_none
      exact ⟨r, hr, by simp [hm]⟩
    rw [hnone]
    rfl

/-- C3 counterexample: an unparseable calendar date aborts the run, an
unparseable response rate aborts the run — neither is imputed — while an
unparseable `host_since` is imputed with the column mean (both output rows
carry year 2013, the mean of the one parseable value). -/
theorem unparseable_fatal_counterexample :
    clean_dataset [listA] [calBadDate] = none ∧
    clean_dataset [listBadRate] [calA1] = none ∧
    clean_dataset [listBadHS, listB] [calA1, calB1] = some badHSOut ∧
    badHSOut.map (fun r => lookupCell r "host_since_year") =
      [some (Cell.num 2013), some (Cell.num 2013)] :=
  ⟨badDateRunEq, badRateRunEq, badHSRunEq, by with_unfolding_all rfl⟩

/-- C3 witness: the date-stage part applied to a concrete table. -/
theorem unparseable_handling_witness :
    stageDates [[("date", Cell.str "July 4")]] = none :=
  unparseable_handling.2.2.1 [[("date", Cell.str "July 4")]]
    ⟨[("date", Cell.str "July 4")], by simp, by with_unfolding_all rfl⟩

/-- C7 (amended): after imputation the three mode-imputed columns are
non-null in every output row — the fill value is the column mode, the most
frequent non-null value, though it need not be numeric, since
`Series.mode()` also works on object data (an all-null mode column has an
empty mode series and `mode()[0]` aborts the run with a `KeyError`
instead); each mean-imputed column is either numeric in every output row
or null in every output row — the latter exactly when the column had no
numeric values at its imputation step, since `fillna` with a `NaN` mean is
a no-op. -/
theorem imputation_fills_columns :
    (∀ (l cal out : Table), clean_dataset l cal = some out → ∀ r' ∈ out,
      (∃ c, lookupCell r' "bathrooms" = some c ∧ c ≠ Cell.null) ∧
      (∃ c, lookupCell r' "bedrooms" = some c ∧ c ≠ Cell.null) ∧
      (∃ c, lookupCell r' "beds" = some c ∧ c ≠ Cell.null)) ∧
    (∀ cells : List Cell, (∀ c ∈ cells, c = Cell.null) →
      modeCell cells = none) ∧
    (∀ (name : String) (t t' : Table), fillnaMeanCol name t = some t' →
      (∀ r' ∈ t', ∃ q, lookupCell r' name = some (Cell.num q)) ∨
      ((∀ r' ∈ t', lookupCell r' name = some Cell.null) ∧ t' = t)) ∧
    (∀ (l cal out : Table), clean_dataset l cal = some out →
      ∀ name ∈ "host_since_year" :: "host_listings_count" ::
        review_scores_columns,
        (∀ r' ∈ out, ∃ q, lookupCell r' name = some (Cell.num q)) ∨
        (∀ r' ∈ out, lookupCell r' name = some Cell.null)) := by
  refine ⟨?_, fun cells h => modeCell_all_null h,
    fun name t t' h => fillnaMeanCol_shape h, ?_⟩
  · intro l cal out h r' hr'
    obtain ⟨a, b, c, d, e, f, g, h2, i2, j2, -, -, -, -, -, -, -, hh2, hi2,
      hj2, hout⟩ := clean_dataset_destruct h
    rw [stageBedsBaths, Option.bind_eq_some] at hh2
    obtain ⟨u, hu, hh2⟩ := hh2
    rw [Option.bind_eq_some] at hh2
    obtain ⟨w, hw, hbeds⟩ := hh2
    have htail := tail3_eq hi2 hj2 hout
    constructor
    · have h1 := fillnaModeCol_not_null hu
      have h2b := (keeps_fillnaModeCol (by decide)).carry
        (fun o => ∃ c, o = some c ∧ c ≠ Cell.null) hw h1
      have h3 := (keeps_fillnaModeCol (by decide)).carry
        (fun o => ∃ c, o = some c ∧ c ≠ Cell.null) hbeds h2b
      exact (keeps_tail3 (amen_dummy_ne "bathrooms" (by decide)) (by decide)
        (by decide) (by decide) (by decide)).carry
        (fun o => ∃ c, o = some c ∧ c ≠ Cell.null) htail h3 r' hr'
    constructor
    · have h1 := fillnaModeCol_not_null hw
      have h2b := (keeps_fillnaModeCol (by decide)).carry
        (fun o => ∃ c, o = some c ∧ c ≠ Cell.null) hbeds h1
      exact (keeps_tail3 (amen_dummy_ne "bedrooms" (by decide)) (by decide)
        (by decide) (by decide) (by decide)).carry
        (fun o => ∃ c, o = some c ∧ c ≠ Cell.null) htail h2b r' hr'
    · have h1 := fillnaModeCol_not_null hbeds
      exact (keeps_tail3 (amen_dummy_ne "beds" (by decide)) (by decide)
        (by decide) (by decide) (by decide)).carry
        (fun o => ∃ c, o = some c ∧ c ≠ Cell.null) htail h1 r' hr'
  · intro l cal out h name hname
    obtain ⟨a, b, c, d, e, f, g, h2, i2, j2, -, -, -, hd, he, hf, hg, hh2,
      hi2, hj2, hout⟩ := clean_dataset_destruct h
    have htail := pipeline_tail_eq hf hg hh2 hi2 hj2 hout
    have htail5 := tail5_eq hg hh2 hi2 hj2 hout
    rw [stageReviewScores] at hout
    simp only [Option.bind_eq_some] at hout
    obtain ⟨v1, hv1, v2, hv2, v3, hv3, v4, hv4, v5, hv5, v6, hv6, hv7⟩ :=
      hout
    simp only [review_scores_columns, List.mem_cons, List.mem_singleton,
      List.not_mem_nil, or_false] at hname
    rcases hname with rfl | rfl | rfl | rfl | rfl | rfl | rfl | rfl | rfl
    · -- host_since_year
      rw [stageHostSince, Option.bind_eq_some] at hd
      obtain ⟨u0, hu0, hd⟩ := hd
      rw [Option.bind_eq_some] at hd
      obtain ⟨w0, hw0, hdrop0⟩ := hd
      have h1 := fillnaMean_dichotomy hw0
      have h2b := dichotomy_carry (@keeps_dropCols ["host_since"]
        "host_since_year" (by decide)) hdrop0 h1
      have h3 := dichotomy_carry (keeps_stageResponseRate (by decide)
        (by decide) (by decide)) he h2b
      exact dichotomy_carry (keeps_pipeline_tail (by decide)
        (verif_dummy_ne "host_since_year" (by decide)) (by decide)
        (by decide) (by decide) (by decide)
        (amen_dummy_ne "host_since_year" (by decide)) (by decide)
        (by decide) (by decide) (by decide)) htail h3
    · -- host_listings_count
      have h1 := fillnaMean_dichotomy hf
      exact dichotomy_carry (keeps_tail5
        (verif_dummy_ne "host_listings_count" (by decide)) (by decide)
        (by decide) (by decide) (by decide)
        (amen_dummy_ne "host_listings_count" (by decide)) (by decide)
        (by decide) (by decide) (by decide)) htail5 h1
    · have h1 := fillnaMean_dichotomy hv1
      have h2b := dichotomy_carry (keeps_fillnaMeanCol (by decide)) hv2 h1
      have h3 := dichotomy_carry (keeps_fillnaMeanCol (by decide)) hv3 h2b
      have h4 := dichotomy_carry (keeps_fillnaMeanCol (by decide)) hv4 h3
      have h5 := dichotomy_carry (keeps_fillnaMeanCol (by decide)) hv5 h4
      have h6 := dichotomy_carry (keeps_fillnaMeanCol (by decide)) hv6 h5
      exact dichotomy_carry (keeps_fillnaMeanCol (by decide)) hv7 h6
    · have h1 := fillnaMean_dichotomy hv2
      have h3 := dichotomy_carry (keeps_fillnaMeanCol (by decide)) hv3 h1
      have h4 := dichotomy_carry (keeps_fillnaMeanCol (by decide)) hv4 h3
      have h5 := dichotomy_carry (keeps_fillnaMeanCol (by decide)) hv5 h4
      have h6 := dichotomy_carry (keeps_fillnaMeanCol (by decide)) hv6 h5
      exact dichotomy_carry (keeps_fillnaMeanCol (by decide)) hv7 h6
    · have h1 := fillnaMean_dichotomy hv3
      have h4 := dichotomy_carry (keeps_fillnaMeanCol (by decide)) hv4 h1
      have h5 := dichotomy_carry (keeps_fillnaMeanCol (by decide)) hv5 h4
      have h6 := dichotomy_carry (keeps_fillnaMeanCol (by decide)) hv6 h5
      exact dichotomy_carry (keeps_fillnaMeanCol (by decide)) hv7 h6
    · have h1 := fillnaMean_dichotomy hv4
      have h5 := dichotomy_carry (keeps_fillnaMeanCol (by decide)) hv5 h1
      have h6 := dichotomy_carry (keeps_fillnaMeanCol (by decide)) hv6 h5
      exact dichotomy_carry (keeps_fillnaMeanCol (by decide)) hv7 h6
    · have h1 := fillnaMean_dichotomy hv5
      have h6 := dichotomy_carry (keeps_fillnaMeanCol (by decide)) hv6 h1
      exact dichotomy_carry (keeps_fillnaMeanCol (by decide)) hv7 h6
    · have h1 := fillnaMean_dichotomy hv6
      exact dichotomy_carry (keeps_fillnaMeanCol (by decide)) hv7 h1
    · exact fillnaMean_dichotomy hv7

/-- C7 counterexample: an all-null `host_listings_count` column survives
mean imputation untouched — the output row still has a null there — and a
string-valued `bathrooms` column survives mode imputation to the output:
the first row keeps its string `"2"` and the second row's missing value is
filled with the mode, which is the string `"2"` itself. -/
theorem host_listings_left_null_counterexample :
    (clean_dataset [listNoHLC] [calA1] = some noHLCOut ∧
      lookupCell (noHLCOut.headD []) "host_listings_count" =
        some Cell.null) ∧
    (clean_dataset [listStrBath, listNullBath] [calA1, calB1] =
        some sbOut ∧
      lookupCell (sbOut.headD []) "bathrooms" = some (Cell.str "2") ∧
      lookupCell (sbOut.getLastD []) "bathrooms" = some (Cell.str "2")) :=
  ⟨⟨noHLCRunEq, by with_unfolding_all rfl⟩,
    sbRunEq, by with_unfolding_all rfl, by with_unfolding_all rfl⟩

/-- C7 witness: the mode-imputed columns at the sample run. -/
theorem imputation_fills_witness :
    (∃ c, lookupCell goodRow "bathrooms" = some c ∧ c ≠ Cell.null) ∧
    (∃ c, lookupCell goodRow "bedrooms" = some c ∧ c ≠ Cell.null) ∧
    (∃ c, lookupCell goodRow "beds" = some c ∧ c ≠ Cell.null) := by
  exact imputation_fills_columns.1 goodListings goodCalendar goodOut
    goodRunEq goodRow goodRow_mem

end Airbnb
